import Mathlib

/-!
# libstoragemgmt-golang: frame codec, invocation engine, job lifecycle and plugin loop

A shallow embedding of `ipc.go`, `client.go`, `misc.go`, `lib.go`, `data.go`,
`plugin.go` and `plugin_handlers.go` of the vendored `libstoragemgmt-golang` package,
together with the properties of these functions.

The development has two layers.

* The byte layer (`Conn`, `readExact`, `writeExact`, `transPort.send`,
  `transPort.recv`) models a `net.Conn` as two byte queues whose `Read` and `Write`
  calls may move fewer bytes than asked for, or fail.  The loops of `readExact` and
  `writeExact` carry a fuel argument that bounds the number of iterations.
* The message layer (`Port`, `transPort.invoke`, `ClientConnection.JobStatus`,
  `Plugin.Run`, ...) sees the same transport through the results of `send` and `recv`,
  with JSON texts represented by their values.  The client operations and the loop of
  the plugin with its handlers live on this layer; a panic of a handler is a result of
  its own, and the callbacks of a plugin are functions on a state.
-/

deriving instance DecidableEq for Except

namespace Lsm

/-! ## Byte layer: `net.Conn`

A byte is represented by its value, a natural number; payload bytes are only moved,
never computed with. -/

/-- What a single `Read` or `Write` call on the socket does: it moves at most `n`
bytes, or it fails with an error text. -/
inductive IoStep
  | xfer (n : Nat)
  | fail (err : String)
  deriving DecidableEq, Repr

/-- A `net.Conn`.  `inbox` holds the bytes the peer has put on the stream and that
have not been read yet, `outbox` the bytes written so far.  `rd i` (`wr i`) is what
the `i`-th `Read` (`Write`) call does; `reads` and `writes` count the calls made. -/
structure Conn where
  inbox : List Nat
  outbox : List Nat
  rd : Nat → IoStep
  wr : Nat → IoStep
  reads : Nat
  writes : Nat

/-- `c.Read(b)` with `len(b) = cap`: the bytes placed in `b[:num]` and the error. -/
def Conn.Read (c : Conn) (cap : Nat) : Conn × List Nat × Option String :=
  match c.rd c.reads with
  | .fail e => ({ c with reads := c.reads + 1 }, [], some e)
  | .xfer n =>
    ({ c with inbox := c.inbox.drop (min n cap), reads := c.reads + 1 },
      c.inbox.take (min n cap), none)

/-- `c.Write(p)`: the number of bytes accepted and the error. -/
def Conn.Write (c : Conn) (p : List Nat) : Conn × Nat × Option String :=
  match c.wr c.writes with
  | .fail e => ({ c with writes := c.writes + 1 }, 0, some e)
  | .xfer n =>
    ({ c with outbox := c.outbox ++ p.take n, writes := c.writes + 1 },
      min n p.length, none)

/-- Every `Read` call returns at least one byte when bytes are asked for and present. -/
def Conn.readsReliable (c : Conn) : Prop := ∀ i, ∃ n, 1 ≤ n ∧ c.rd i = .xfer n

/-- Every `Write` call accepts at least one byte of a non-empty buffer. -/
def Conn.writesReliable (c : Conn) : Prop := ∀ i, ∃ n, 1 ≤ n ∧ c.wr i = .xfer n

/-! ## Byte layer: `fmt.Sprintf("%010d", n)` and `strconv.ParseUint` -/

/-- Decimal digits of `n`, most significant first (`fuel` bounds the digit count). -/
def decimalDigits : Nat → Nat → List Nat
  | 0, _ => []
  | fuel + 1, n => if n < 10 then [n] else decimalDigits fuel (n / 10) ++ [n % 10]

/-- `fmt.Sprintf("%d", n)` for a non-negative `n`, as ASCII bytes. -/
def itoa (n : Nat) : List Nat := (decimalDigits (n + 1) n).map (fun d => 48 + d)

/-- `fmt.Sprintf("%010d", n)` for a non-negative `n`: the decimal rendering, padded on
the left with `0` up to a width of ten; a longer rendering is left as it is. -/
def sprintf010d (n : Nat) : List Nat :=
  List.replicate (10 - (itoa n).length) 48 ++ itoa n

/-- The two failures of `strconv.ParseUint` (`*strconv.NumError`). -/
inductive NumError
  | invalidSyntax
  | outOfRange
  deriving DecidableEq, Repr

/-- The digit loop of `strconv.ParseUint(s, 10, bitSize)`, `n` being the value
accumulated so far, in `uint64` arithmetic. -/
def parseUintLoop (bitSize : Nat) : List Nat → Nat → Except NumError Nat
  | [], n => .ok n
  | c :: cs, n =>
    if 48 ≤ c ∧ c ≤ 57 then
      let d := c - 48
      let cutoff := (2 ^ 64 - 1) / 10 + 1
      let maxVal := 2 ^ bitSize - 1
      if n ≥ cutoff then .error .outOfRange
      else
        let n10 := (n * 10) % 2 ^ 64
        let n1 := (n10 + d) % 2 ^ 64
        if n1 < n10 ∨ n1 > maxVal then .error .outOfRange
        else parseUintLoop bitSize cs n1
    else .error .invalidSyntax

/-- `strconv.ParseUint(s, 10, bitSize)`: no sign, no underscore, digits only. -/
def ParseUint (s : List Nat) (bitSize : Nat) : Except NumError Nat :=
  if s = [] then .error .invalidSyntax else parseUintLoop bitSize s 0

/-- The number a string of decimal digits stands for. -/
def decimalValue (s : List Nat) : Nat := s.foldl (fun acc c => acc * 10 + (c - 48)) 0

/-- All bytes of `s` are ASCII decimal digits. -/
def allDigits (s : List Nat) : Prop := ∀ c ∈ s, 48 ≤ c ∧ c ≤ 57

instance (s : List Nat) : Decidable (allDigits s) := by
  unfold allDigits; infer_instance

/-! ## Byte layer: `ipc.go` -/

/-- The constant `headerLen`. -/
def headerLen : Nat := 10

/-- The constant `tmpBufSize` of `readExact`. -/
def tmpBufSize : Nat := 1024

/-- The struct `transPort`. -/
structure transPort where
  uds : Conn
  debug : Bool

/-- Go: `copy(buf[at:], src)`. -/
def copyAt (buf : List Nat) (pos : Nat) (src : List Nat) : List Nat :=
  buf.take pos ++ src.take (buf.length - pos) ++ buf.drop (pos + src.length)

/-- The loop of `readExact`; `none` when `fuel` iterations did not fill `buf`. -/
def readExactLoop : Nat → Conn → List Nat → Nat → Option (Conn × List Nat × Option String)
  | 0, c, buf, current => if current < buf.length then none else some (c, buf, none)
  | fuel + 1, c, buf, current =>
    if current < buf.length then
      let remain := if buf.length - current > tmpBufSize then tmpBufSize
        else buf.length - current
      match c.Read remain with
      | (c1, _, some readError) => some (c1, buf, some readError)
      | (c1, tmpBuffer, none) =>
        readExactLoop fuel c1 (copyAt buf current tmpBuffer) (current + tmpBuffer.length)
    else some (c, buf, none)

/-- Go: `readExact(c, buf)`: the connection afterwards, the buffer and the error. -/
def readExact (fuel : Nat) (c : Conn) (buf : List Nat) :
    Option (Conn × List Nat × Option String) :=
  readExactLoop fuel c buf 0

/-- The loop of `writeExact`; `none` when `fuel` iterations did not write `buf`. -/
def writeExactLoop : Nat → Conn → List Nat → Nat → Option (Conn × Option String)
  | 0, c, buf, written => if written < buf.length then none else some (c, none)
  | fuel + 1, c, buf, written =>
    if written < buf.length then
      match c.Write (buf.drop written) with
      | (c1, _, some writeError) => some (c1, some writeError)
      | (c1, num, none) => writeExactLoop fuel c1 buf (written + num)
    else some (c, none)

/-- Go: `writeExact(c, buf)`. -/
def writeExact (fuel : Nat) (c : Conn) (buf : List Nat) : Option (Conn × Option String) :=
  writeExactLoop fuel c buf 0

/-- Go: `transPort.send`. -/
def transPort.send (fuel : Nat) (t : transPort) (msg : List Nat) :
    Option (transPort × Option String) :=
  let toSend := sprintf010d msg.length ++ msg
  match writeExact fuel t.uds toSend with
  | none => none
  | some (c1, err) => some ({ t with uds := c1 }, err)

/-- The error value `transPort.recv` returns: the one of `readExact` or the one of
`strconv.ParseUint`. -/
inductive RecvError
  | read (text : String)
  | header (e : NumError)
  deriving DecidableEq, Repr

/-- Go: `transPort.recv`. -/
def transPort.recv (fuel : Nat) (t : transPort) :
    Option (transPort × List Nat × Option RecvError) :=
  let hdrLenBuf := List.replicate headerLen 0
  match readExact fuel t.uds hdrLenBuf with
  | none => none
  | some (c1, _, some readError) => some ({ t with uds := c1 }, [], some (.read readError))
  | some (c1, hdr, none) =>
    match ParseUint hdr 32 with
    | .error parseError => some ({ t with uds := c1 }, [], some (.header parseError))
    | .ok msgLen =>
      match readExact fuel c1 (List.replicate msgLen 0) with
      | none => none
      | some (c2, msgBuffer, readError) =>
        some ({ t with uds := c2 }, msgBuffer, readError.map RecvError.read)

/-- The reading end of the stream that `w` writes to: what was written is what
arrives, delivered according to the read schedule `rd`. -/
def Conn.peer (w : Conn) (rd : Nat → IoStep) : Conn :=
  { inbox := w.outbox, outbox := [], rd := rd, wr := fun _ => .fail "unused",
    reads := 0, writes := 0 }

/-- A connection on which every `Read` and `Write` call moves up to `k` bytes. -/
def steadyConn (inbox : List Nat) (k : Nat) : Conn :=
  { inbox := inbox, outbox := [], rd := fun _ => .xfer k, wr := fun _ => .xfer k,
    reads := 0, writes := 0 }

/-! ## Message layer: errors (`errors/errors.go`) -/

/-- The struct `errors.LsmError`; `Code` is an `int32`. -/
structure LsmError where
  Code : Int
  Message : String
  Data : String
  deriving DecidableEq, Repr

/-- Go: `(*LsmError).Error`. -/
def LsmError.Error (e : LsmError) : String :=
  if e.Data.utf8ByteSize > 0 then
    "code = " ++ toString e.Code ++ ", message = " ++ e.Message ++ ", data = " ++ e.Data
  else "code = " ++ toString e.Code ++ ", message = " ++ e.Message

namespace errors

/-- Library bug. -/
def LibBug : Int := 1
/-- Bug found in plugin. -/
def PluginBug : Int := 2
/-- Provided argument is incorrect. -/
def InvalidArgument : Int := 101
/-- Operation not supported. -/
def NoSupport : Int := 153
/-- The specified volume was not found. -/
def NotFoundVolume : Int := 205
/-- Issue reading or writing to the plugin. -/
def TransPortComunication : Int := 400
/-- Parameter transported over IPC is invalid. -/
def TransPortInvalidArg : Int := 402

end errors

/-- A Go `error` value: a `*errors.LsmError`, or any other error, kept as the text its
`Error()` method returns (errors of `encoding/json`, `strconv` and `net`). -/
inductive GoError
  | lsm (e : LsmError)
  | other (text : String)
  deriving DecidableEq, Repr

/-- Go: `err.Error()`, as printed by the verb `%s`. -/
def GoError.Error : GoError → String
  | .lsm e => e.Error
  | .other text => text

/-! ## Message layer: JSON values and `encoding/json` -/

/-- A JSON text, by its value.  `num` is a number written as a plain integer; any other
number literal (fraction, exponent, `-0`) is `real` with its text. -/
inductive Json
  | null
  | bool (b : Bool)
  | num (z : Int)
  | real (lit : String)
  | str (s : String)
  | arr (items : List Json)
  | obj (members : List (String × Json))

mutual
/-- A compact rendering of a JSON value, used where an error message quotes a text. -/
def Json.text : Json → String
  | .null => "null"
  | .bool b => if b then "true" else "false"
  | .num z => toString z
  | .real lit => lit
  | .str s => "\"" ++ s ++ "\""
  | .arr items => "[" ++ Json.textItems items ++ "]"
  | .obj members => "\x7b" ++ Json.textMembers members ++ "\x7d"
/-- The elements of an array, comma separated. -/
def Json.textItems : List Json → String
  | [] => ""
  | [j] => j.text
  | j :: js => j.text ++ "," ++ Json.textItems js
/-- The members of an object, comma separated. -/
def Json.textMembers : List (String × Json) → String
  | [] => ""
  | [(k, j)] => "\"" ++ k ++ "\":" ++ j.text
  | (k, j) :: ms => "\"" ++ k ++ "\":" ++ j.text ++ "," ++ Json.textMembers ms
end

/-- Whether the value is the literal `null`. -/
def Json.isNull : Json → Bool
  | .null => true
  | _ => false

/-- The word `encoding/json` uses for a value in an `UnmarshalTypeError`. -/
def Json.kind : Json → String
  | .null => "null"
  | .bool _ => "bool"
  | .num _ => "number"
  | .real _ => "number"
  | .str _ => "string"
  | .arr _ => "array"
  | .obj _ => "object"

/-- Go: `json.RawMessage`.  `none` is the nil slice; `some j` holds the text of `j`, so
`some Json.null` is the four bytes `null`. -/
abbrev RawMessage := Option Json

/-- Go: `string(raw) != "null"`. -/
def RawMessage.notNullText : RawMessage → Bool
  | some .null => false
  | _ => true

/-- The `*json.UnmarshalTypeError` for storing `j` into a Go value of type `goType`. -/
def unmarshalTypeError (j : Json) (goType : String) : GoError :=
  .other ("json: cannot unmarshal " ++ j.kind ++ " into Go value of type " ++ goType)

/-- The `*json.SyntaxError` of `json.Unmarshal` on an empty input. -/
def jsonEndOfInput : GoError := .other "unexpected end of JSON input"

/-- How `encoding/json` stores a JSON value into a Go variable of some type: the new
contents of the variable and the error recorded, if any. -/
structure Target (α : Type) where
  store : Json → α → α × Option GoError

/-- Go: `json.Unmarshal(data, v)` for a raw text `data` and a pointer `v` to a variable
holding `cur` (`v = none` is the nil interface). -/
def jsonUnmarshal {α : Type} (data : RawMessage) (v : Option (Target α)) (cur : α) :
    α × Option GoError :=
  match data, v with
  | none, _ => (cur, some jsonEndOfInput)
  | some _, none => (cur, some (.other "json: Unmarshal(nil)"))
  | some j, some p => p.store j cur

/-- Storing into a Go `string`: `null` has no effect and is no error. -/
def storeString (j : Json) (cur : String) : String × Option GoError :=
  match j with
  | .null => (cur, none)
  | .str s => (s, none)
  | _ => (cur, some (unmarshalTypeError j "string"))

/-- The `*json.UnmarshalTypeError` for a number literal that the integer type `goType`
cannot hold: its `Value` is `"number "` followed by the literal. -/
def numberTypeError (lit goType : String) : GoError :=
  .other ("json: cannot unmarshal number " ++ lit ++ " into Go value of type " ++ goType)

/-- Storing into an unsigned integer of `bits` bits: `null` has no effect. -/
def storeUint (bits : Nat) (goType : String) (j : Json) (cur : Nat) : Nat × Option GoError :=
  match j with
  | .null => (cur, none)
  | .num z =>
    if 0 ≤ z ∧ z < 2 ^ bits then (z.toNat, none)
    else (cur, some (numberTypeError (toString z) goType))
  | .real lit => (cur, some (numberTypeError lit goType))
  | _ => (cur, some (unmarshalTypeError j goType))

/-- Storing into a signed integer of `bits` bits: `null` has no effect. -/
def storeInt (bits : Nat) (goType : String) (j : Json) (cur : Int) : Int × Option GoError :=
  match j with
  | .null => (cur, none)
  | .num z =>
    if -(2 ^ (bits - 1)) ≤ z ∧ z < 2 ^ (bits - 1) then (z, none)
    else (cur, some (numberTypeError (toString z) goType))
  | .real lit => (cur, some (numberTypeError lit goType))
  | _ => (cur, some (unmarshalTypeError j goType))

/-- Storing into a `*string`: `null` makes the pointer nil; on a mismatch the pointer
has already been allocated. -/
def storeStringPtr (j : Json) (cur : Option String) : Option String × Option GoError :=
  match j with
  | .null => (none, none)
  | .str s => (some s, none)
  | _ => (some (cur.getD ""), some (unmarshalTypeError j "string"))

/-- The code points of a name, each folded to the small ASCII letter of its orbit under
Unicode simple case folding when there is one: the ASCII capitals, U+017F (long s, which
folds to `s`) and U+212A (the Kelvin sign, which folds to `k`).  No other code point
folds to an ASCII character. -/
def foldCase (s : String) : List Nat :=
  s.data.map fun c =>
    if 65 ≤ c.toNat ∧ c.toNat ≤ 90 then c.toNat + 32
    else if c.toNat = 383 then 115
    else if c.toNat = 8490 then 107
    else c.toNat

/-- Key matching of `encoding/json` for a field whose name is ASCII, as all the names
and tags of this package are: the exact name, or the same name under Unicode simple case
folding (`bytes.EqualFold`). -/
def keyIs (key field : String) : Bool := key = field || foldCase key = foldCase field

/-- The first error wins (`decodeState.saveError`). -/
def firstError (saved new : Option GoError) : Option GoError :=
  match saved with
  | some e => some e
  | none => new

/-- One member of an object being stored into an `LsmError`. -/
def LsmError.storeMember (acc : LsmError × Option GoError) (m : String × Json) :
    LsmError × Option GoError :=
  if keyIs m.1 "code" then
    let r := storeInt 32 "int32" m.2 acc.1.Code
    ({ acc.1 with Code := r.1 }, firstError acc.2 r.2)
  else if keyIs m.1 "message" then
    let r := storeString m.2 acc.1.Message
    ({ acc.1 with Message := r.1 }, firstError acc.2 r.2)
  else if keyIs m.1 "data" then
    let r := storeString m.2 acc.1.Data
    ({ acc.1 with Data := r.1 }, firstError acc.2 r.2)
  else acc

/-- Storing into an `errors.LsmError`. -/
def LsmError.store (j : Json) (cur : LsmError) : LsmError × Option GoError :=
  match j with
  | .null => (cur, none)
  | .obj members => members.foldl LsmError.storeMember (cur, none)
  | _ => (cur, some (unmarshalTypeError j "errors.LsmError"))

/-- The zero `LsmError`. -/
def LsmError.zero : LsmError := ⟨0, "", ""⟩

/-- Go: `[2]json.RawMessage`. -/
structure Raw2 where
  r0 : RawMessage
  r1 : RawMessage

/-- Go: `[3]json.RawMessage`. -/
structure Raw3 where
  r0 : RawMessage
  r1 : RawMessage
  r2 : RawMessage

/-- Storing into a `json.RawMessage`: its `UnmarshalJSON` copies the text. -/
def RawMessage.store (j : Json) (_cur : RawMessage) : RawMessage × Option GoError :=
  (some j, none)

/-- Storing into a `[2]json.RawMessage`: elements past the second are skipped, missing
ones are zeroed. -/
def Raw2.store (j : Json) (cur : Raw2) : Raw2 × Option GoError :=
  match j with
  | .null => (cur, none)
  | .arr items => (⟨items.get? 0, items.get? 1⟩, none)
  | _ => (cur, some (unmarshalTypeError j "[2]json.RawMessage"))

/-- Storing into a `[3]json.RawMessage`. -/
def Raw3.store (j : Json) (cur : Raw3) : Raw3 × Option GoError :=
  match j with
  | .null => (cur, none)
  | .arr items => (⟨items.get? 0, items.get? 1, items.get? 2⟩, none)
  | _ => (cur, some (unmarshalTypeError j "[3]json.RawMessage"))

/-! ## Message layer: `data.go` and `misc.go` -/

/-- Go: `JobStatusType`, a `uint32`. -/
abbrev JobStatusType := Nat

/-- Job is in progress. -/
def JobStatusInprogress : JobStatusType := 1
/-- Job is complete. -/
def JobStatusComplete : JobStatusType := 2
/-- Job has errored. -/
def JobStatusError : JobStatusType := 3

/-- Go: `LsmBool.UnmarshalJSON`.  The receiver is a value: the assignment
`bit = LsmBool(string(b) == "1")` changes the copy, and the variable being decoded
keeps `bit`. -/
def LsmBool.UnmarshalJSON (bit : Bool) (_b : Json) : Bool × Option GoError :=
  (bit, none)

/-- Go: `LsmBool.MarshalJSON`. -/
def LsmBool.MarshalJSON (bit : Bool) : Json :=
  if bit then .num 1 else .num 0

/-- The struct `Volume`. -/
structure Volume where
  Class : String
  ID : String
  Name : String
  Enabled : Bool
  BlockSize : Nat
  NumOfBlocks : Nat
  PluginData : Option String
  Vpd83 : String
  SystemID : String
  PoolID : String
  deriving DecidableEq, Repr

/-- The zero `Volume`. -/
def Volume.zero : Volume := ⟨"", "", "", false, 0, 0, none, "", "", ""⟩

/-- One member of an object being stored into a `Volume`, by JSON tag. -/
def Volume.storeMember (acc : Volume × Option GoError) (m : String × Json) :
    Volume × Option GoError :=
  if keyIs m.1 "class" then
    let r := storeString m.2 acc.1.Class
    ({ acc.1 with Class := r.1 }, firstError acc.2 r.2)
  else if keyIs m.1 "id" then
    let r := storeString m.2 acc.1.ID
    ({ acc.1 with ID := r.1 }, firstError acc.2 r.2)
  else if keyIs m.1 "name" then
    let r := storeString m.2 acc.1.Name
    ({ acc.1 with Name := r.1 }, firstError acc.2 r.2)
  else if keyIs m.1 "admin_state" then
    let r := LsmBool.UnmarshalJSON acc.1.Enabled m.2
    ({ acc.1 with Enabled := r.1 }, firstError acc.2 r.2)
  else if keyIs m.1 "block_size" then
    let r := storeUint 64 "uint64" m.2 acc.1.BlockSize
    ({ acc.1 with BlockSize := r.1 }, firstError acc.2 r.2)
  else if keyIs m.1 "num_of_blocks" then
    let r := storeUint 64 "uint64" m.2 acc.1.NumOfBlocks
    ({ acc.1 with NumOfBlocks := r.1 }, firstError acc.2 r.2)
  else if keyIs m.1 "plugin_data" then
    let r := storeStringPtr m.2 acc.1.PluginData
    ({ acc.1 with PluginData := r.1 }, firstError acc.2 r.2)
  else if keyIs m.1 "vpd83" then
    let r := storeString m.2 acc.1.Vpd83
    ({ acc.1 with Vpd83 := r.1 }, firstError acc.2 r.2)
  else if keyIs m.1 "system_id" then
    let r := storeString m.2 acc.1.SystemID
    ({ acc.1 with SystemID := r.1 }, firstError acc.2 r.2)
  else if keyIs m.1 "pool_id" then
    let r := storeString m.2 acc.1.PoolID
    ({ acc.1 with PoolID := r.1 }, firstError acc.2 r.2)
  else acc

/-- Storing into a `Volume`. -/
def Volume.store (j : Json) (cur : Volume) : Volume × Option GoError :=
  match j with
  | .null => (cur, none)
  | .obj members => members.foldl Volume.storeMember (cur, none)
  | _ => (cur, some (unmarshalTypeError j "libstoragemgmt.Volume"))

/-- Go: `ensureExclusiveVol`. -/
def ensureExclusiveVol (vol : Volume) (job : Option String) (err : Option GoError) :
    Option Volume × Option String × Option GoError :=
  match err, job with
  | some e, _ => (none, none, some e)
  | none, some j => (none, some j, none)
  | none, none => (some vol, none, none)

/-! ## Message layer: the transport seen through `send` and `recv` -/

/-- The struct `responseMsg`; `ID` is an `int`. -/
structure responseMsg where
  ID : Int
  Error : Option LsmError
  Result : RawMessage

/-- The zero `responseMsg`. -/
def responseMsg.zero : responseMsg := ⟨0, none, none⟩

/-- One member of an object being stored into a `responseMsg`.  `error` is a pointer:
`null` makes it nil, any other value is stored into the struct it points to, which is
allocated when the pointer is nil. -/
def responseMsg.storeMember (acc : responseMsg × Option GoError) (m : String × Json) :
    responseMsg × Option GoError :=
  if keyIs m.1 "id" then
    let r := storeInt 64 "int" m.2 acc.1.ID
    ({ acc.1 with ID := r.1 }, firstError acc.2 r.2)
  else if keyIs m.1 "error" then
    if m.2.isNull then ({ acc.1 with Error := none }, acc.2)
    else
      let r := LsmError.store m.2 (acc.1.Error.getD LsmError.zero)
      ({ acc.1 with Error := some r.1 }, firstError acc.2 r.2)
  else if keyIs m.1 "result" then
    ({ acc.1 with Result := some m.2 }, acc.2)
  else acc

/-- Storing into a `responseMsg`. -/
def responseMsg.store (j : Json) (cur : responseMsg) : responseMsg × Option GoError :=
  match j with
  | .null => (cur, none)
  | .obj members => members.foldl responseMsg.storeMember (cur, none)
  | _ => (cur, some (unmarshalTypeError j "libstoragemgmt.responseMsg"))

/-- What one call of `transPort.recv` hands to its caller: the error of `readExact`,
the error of `strconv.ParseUint` on the header, or a payload, given by its text and
what parsing that text as JSON yields. -/
inductive Incoming
  | readError (text : String)
  | headerError (text : String)
  | frame (raw : String) (parsed : Except String Json)

/-- A message handed to `transPort.send`: the request of `invoke`, the reply of
`sendResponse` or the reply of `sendError`; the `id` member is always 100. -/
inductive Outgoing
  | request (method : String) (params : List (String × Json))
  | response (result : Json)
  | failure (err : GoError)

/-- What happened on the connection, in order; `closed` is a call of `Close` on the
socket. -/
inductive Event
  | sent (m : Outgoing)
  | sendFailed (m : Outgoing) (err : String)
  | received (i : Incoming)
  | closed

/-- The transport as `invoke` sees it.  `incoming` lists what the successive `recv`
calls will return (past its end the peer has closed the stream), `sendErrs` what the
successive `send` calls return (`none`: every byte written; past its end sends
succeed), and `trace` records what was done so far. -/
structure Port where
  incoming : List Incoming
  sendErrs : List (Option String)
  trace : List Event

/-- `transPort.send` of a serialized message, on a `Port`. -/
def Port.send (t : Port) (m : Outgoing) : Port × Option String :=
  match t.sendErrs with
  | [] => ({ t with trace := t.trace ++ [.sent m] }, none)
  | none :: rest => ({ t with sendErrs := rest, trace := t.trace ++ [.sent m] }, none)
  | some e :: rest =>
    ({ t with sendErrs := rest, trace := t.trace ++ [.sendFailed m e] }, some e)

/-- `transPort.recv`, on a `Port`. -/
def Port.recv (t : Port) : Port × Incoming :=
  match t.incoming with
  | [] => ({ t with trace := t.trace ++ [.received (.readError "EOF")] }, .readError "EOF")
  | i :: rest => ({ t with incoming := rest, trace := t.trace ++ [.received i] }, i)

/-- Go: `args[key] = value` on a `map[string]interface{}`. -/
def setKey (args : List (String × Json)) (key : String) (value : Json) :
    List (String × Json) :=
  args.filter (fun kv => kv.1 ≠ key) ++ [(key, value)]

/-- The `LsmError` with code `PluginBug` and the given message. -/
def pluginBug (message : String) : GoError := .lsm ⟨errors.PluginBug, message, ""⟩

/-- The `LsmError` with code `TransPortComunication` and the given message. -/
def commError (message : String) : GoError :=
  .lsm ⟨errors.TransPortComunication, message, ""⟩

/-- Go: `transPort.invoke(cmd, args, result)`.  `result` is the destination (`none`
for nil) and `cur` what the destination variable holds.  The arguments are JSON values
already, so `json.Marshal(msg)` cannot fail. -/
def transPort.invoke {α : Type} (t : Port) (cmd : String) (args : List (String × Json))
    (result : Option (Target α)) (cur : α) : Port × α × Option GoError :=
  let args := setKey args "flags" (.num 0)
  match t.send (.request cmd args) with
  | (t1, some sendError) =>
    (t1, cur, some (commError ("Error writing to unix domain socket " ++ sendError ++ "\n")))
  | (t1, none) =>
    match t1.recv with
    | (t2, .readError replyError) =>
      (t2, cur,
        some (commError ("Error reading from unix domain socket " ++ replyError ++ "\n")))
    | (t2, .headerError replyError) =>
      (t2, cur,
        some (commError ("Error reading from unix domain socket " ++ replyError ++ "\n")))
    | (t2, .frame _ (.error replyUnmarsal)) =>
      (t2, cur, some (pluginBug ("Unparsable response from plugin " ++ replyUnmarsal ++ "\n")))
    | (t2, .frame reply (.ok j)) =>
      match responseMsg.store j responseMsg.zero with
      | (_, some replyUnmarsal) =>
        (t2, cur,
          some (pluginBug ("Unparsable response from plugin " ++ replyUnmarsal.Error ++ "\n")))
      | (what, none) =>
        match what.Error with
        | some e => (t2, cur, some (.lsm e))
        | none =>
          match what.Result with
          | some r =>
            -- json.Unmarshal(what.Result, &result): into the interface when it is nil or
            -- the text is null, else into the variable the interface points to
            match result with
            | none => (t2, cur, none)
            | some p =>
              if r.isNull then (t2, cur, none)
              else
                match p.store r cur with
                | (v, some _) =>
                  (t2, v, some (pluginBug ("Plugin returned unexpected response form for ("
                    ++ cmd ++ ") data (" ++ r.text ++ ")")))
                | (v, none) => (t2, v, none)
          | none =>
            (t2, cur, some (pluginBug ("Unexpected response from plugin " ++ reply ++ "\n")))

/-! ## Message layer: `client.go` -/

/-- The struct `ClientConnection`. -/
structure ClientConnection where
  tp : Port
  PluginName : String
  timeout : Nat

/-- Go: `ClientConnection.JobFree`. -/
def ClientConnection.JobFree (c : ClientConnection) (jobID : String) :
    ClientConnection × Option GoError :=
  let args := [("job_id", Json.str jobID)]
  match transPort.invoke c.tp "job_free" args (none : Option (Target Unit)) () with
  | (t1, _, err) => ({ c with tp := t1 }, err)

/-- Go: `ClientConnection.JobStatus(jobID, returnedResult)`; `cur` is what the
variable behind `returnedResult` holds. -/
def ClientConnection.JobStatus {α : Type} (c : ClientConnection) (jobID : String)
    (returnedResult : Option (Target α)) (cur : α) :
    ClientConnection × α × JobStatusType × Nat × Option GoError :=
  let args := [("job_id", Json.str jobID)]
  match transPort.invoke c.tp "job_status" args (some ⟨Raw3.store⟩) ⟨none, none, none⟩ with
  | (t1, _, some jobError) => ({ c with tp := t1 }, cur, JobStatusError, 0, some jobError)
  | (t1, result, none) =>
    match jsonUnmarshal result.r0 (some ⟨storeUint 32 "libstoragemgmt.JobStatusType"⟩) 0 with
    | (_, some statusMe) => ({ c with tp := t1 }, cur, JobStatusError, 0, some statusMe)
    | (status, none) =>
      if status = JobStatusInprogress then
        match jsonUnmarshal result.r1 (some ⟨storeUint 8 "uint8"⟩) 0 with
        | (_, some percentError) =>
          ({ c with tp := t1 }, cur, JobStatusError, 0, some percentError)
        | (percent, none) => ({ c with tp := t1 }, cur, status, percent, none)
      else if status = JobStatusComplete then
        if result.r2.notNullText ∧ returnedResult.isSome then
          match jsonUnmarshal result.r2 returnedResult cur with
          | (v, err) => ({ c with tp := t1 }, v, status, 100, err)
        else ({ c with tp := t1 }, cur, status, 100, none)
      else if status = JobStatusError then
        match jsonUnmarshal result.r2 (some ⟨LsmError.store⟩) LsmError.zero with
        | (_, some checkErrorE) =>
          ({ c with tp := t1 }, cur, JobStatusError, 0, some checkErrorE)
        | (_, none) =>
          ({ c with tp := t1 }, cur, JobStatusError, 0,
            some (pluginBug "job_status returned error status with no error information"))
      else
        ({ c with tp := t1 }, cur, JobStatusError, 0,
          some (pluginBug ("Invalid status type returned " ++ toString status)))

/-- Go: `ClientConnection.JobWait(jobID, returnedResult)`.  `fuel` bounds the number of
polls; the last component is `none` when the loop is still polling after `fuel` polls,
and `some err` with the returned error otherwise.  `time.Sleep` changes no state. -/
def ClientConnection.JobWait {α : Type} : Nat → ClientConnection → String →
    Option (Target α) → α → ClientConnection × α × Option (Option GoError)
  | 0, c, _, _, cur => (c, cur, none)
  | fuel + 1, c, jobID, returnedResult, cur =>
    match c.JobStatus jobID returnedResult cur with
    | (c1, cur1, _, _, some err) => (c1, cur1, some (some err))
    | (c1, cur1, status, _, none) =>
      if status = JobStatusInprogress then
        ClientConnection.JobWait fuel c1 jobID returnedResult cur1
      else if status = JobStatusComplete then
        match c1.JobFree jobID with
        | (c2, some freeError) =>
          (c2, cur1, some (some (pluginBug ("We successfully waited for job " ++ jobID ++
            ", but got an error freeing it: " ++ freeError.Error))))
        | (c2, none) => (c2, cur1, some none)
      else ClientConnection.JobWait fuel c1 jobID returnedResult cur1

/-- Go: `ClientConnection.getJobOrResult(err, returned, sync, result)`.  The outcome is
`none` when `JobWait` is still polling after `fuel` polls, else the job token and the
error. -/
def ClientConnection.getJobOrResult {α : Type} (fuel : Nat) (c : ClientConnection)
    (err : Option GoError) (returned : Raw2) (sync : Bool) (result : Option (Target α))
    (cur : α) : ClientConnection × α × Option (Option String × Option GoError) :=
  match err with
  | some e => (c, cur, some (none, some e))
  | none =>
    match jsonUnmarshal returned.r0 (some ⟨storeString⟩) "" with
    | (job, none) =>
      if sync then
        match ClientConnection.JobWait fuel c job result cur with
        | (c1, cur1, none) => (c1, cur1, none)
        | (c1, cur1, some waitErr) => (c1, cur1, some (none, waitErr))
      else (c, cur, some (some job, none))
    | (_, some _) =>
      match jsonUnmarshal returned.r1 result cur with
      | (v, e) => (c, v, some (none, e))

/-- Go: `ClientConnection.getJobOrNone(err, returned, sync)`. -/
def ClientConnection.getJobOrNone (fuel : Nat) (c : ClientConnection)
    (err : Option GoError) (returned : RawMessage) (sync : Bool) :
    ClientConnection × Option (Option String × Option GoError) :=
  match err with
  | some e => (c, some (none, some e))
  | none =>
    match jsonUnmarshal returned (some ⟨storeString⟩) "" with
    | (job, none) =>
      if sync then
        match ClientConnection.JobWait fuel c job (none : Option (Target Unit)) () with
        | (c1, _, none) => (c1, none)
        | (c1, _, some waitErr) => (c1, some (none, waitErr))
      else (c, some (some job, none))
    | (_, some um) => (c, some (none, some um))

/-- Go: `ClientConnection.VolumeCreate(pool, volumeName, size, provisioning, sync)`; the
pool is given by its JSON form.  `returned` is read after `invoke` has filled it. -/
def ClientConnection.VolumeCreate (fuel : Nat) (c : ClientConnection) (pool : Json)
    (volumeName : String) (size : Nat) (provisioning : Int) (sync : Bool) :
    ClientConnection × Option (Option Volume × Option String × Option GoError) :=
  let args := [("pool", pool), ("volume_name", Json.str volumeName),
    ("size_bytes", Json.num size), ("provisioning", Json.num provisioning)]
  match transPort.invoke c.tp "volume_create" args (some ⟨Raw2.store⟩) ⟨none, none⟩ with
  | (t1, result, err) =>
    match ClientConnection.getJobOrResult fuel { c with tp := t1 } err result sync
        (some ⟨Volume.store⟩) Volume.zero with
    | (c2, _, none) => (c2, none)
    | (c2, returnedVolume, some (jobID, err2)) =>
      (c2, some (ensureExclusiveVol returnedVolume jobID err2))

/-- Go: `ClientConnection.VolumeDelete(vol, sync)`; the volume is given by its JSON
form. -/
def ClientConnection.VolumeDelete (fuel : Nat) (c : ClientConnection) (vol : Json)
    (sync : Bool) : ClientConnection × Option (Option String × Option GoError) :=
  let args := [("volume", vol)]
  match transPort.invoke c.tp "volume_delete" args (some ⟨RawMessage.store⟩) none with
  | (t1, result, err) => ClientConnection.getJobOrNone fuel { c with tp := t1 } err result sync

/-! ## Message layer: vocabulary of the statements -/

/-- Every `send` still to come succeeds. -/
def Port.sendsSucceed (t : Port) : Prop := ∀ e ∈ t.sendErrs, e = none

/-- The request `invoke(cmd, args, _)` puts on the wire. -/
def requestOf (cmd : String) (args : List (String × Json)) : Outgoing :=
  .request cmd (setKey args "flags" (.num 0))

/-- The port after message `m` was sent and `i` was received, `rest` being what is
still to arrive. -/
def Port.exchanged (t : Port) (m : Outgoing) (i : Incoming) (rest : List Incoming) : Port :=
  ⟨rest, t.sendErrs.tail, t.trace ++ [.sent m] ++ [.received i]⟩

/-- The frame `i` is a response envelope with no error whose result field holds `r`. -/
def Incoming.carries (i : Incoming) (r : Json) : Prop :=
  ∃ raw j what, i = .frame raw (.ok j) ∧
    responseMsg.store j responseMsg.zero = (what, none) ∧
    what.Error = none ∧ what.Result = some r

/-- The frame `i` is a response envelope whose error field holds the error `e`. -/
def Incoming.carriesError (i : Incoming) (e : LsmError) : Prop :=
  ∃ raw j what, i = .frame raw (.ok j) ∧
    responseMsg.store j responseMsg.zero = (what, none) ∧ what.Error = some e

/-- The response envelope a responder writes for a result `r`, with a null error. -/
def okReply (r : Json) : Incoming :=
  .frame (Json.text (.obj [("id", .num 100), ("error", .null), ("result", r)]))
    (.ok (.obj [("id", .num 100), ("error", .null), ("result", r)]))

/-- The state a `job_status` reply announces: the frame is a response envelope without
error whose result is an array that starts with a number in the range of `uint32`. -/
def Incoming.jobState : Incoming → Option JobStatusType
  | .frame _ (.ok j) =>
    match responseMsg.store j responseMsg.zero with
    | (what, none) =>
      match what.Error, what.Result with
      | none, some (.arr (.num z :: _)) =>
        if 0 ≤ z ∧ z < 2 ^ 32 then some z.toNat else none
      | _, _ => none
    | (_, some _) => none
  | _ => none

/-- A percent field `JobStatus` accepts: null, or a number in the range of `uint8`. -/
def validPercent (pct : Json) : Prop := pct = .null ∨ ∃ p : Nat, p ≤ 255 ∧ pct = .num p

/-- A `job_status` reply announcing InProgress. -/
def inProgressReply (i : Incoming) : Prop :=
  ∃ pct tail, validPercent pct ∧ i.carries (.arr (.num 1 :: pct :: tail))

/-- The event is a request for `method`, whether its `send` succeeded or not. -/
def Event.isRequest (method : String) : Event → Bool
  | .sent (.request m _) => m = method
  | .sendFailed (.request m _) _ => m = method
  | _ => false

/-- How many requests for `method` a trace holds. -/
def requestCount (method : String) (trace : List Event) : Nat :=
  trace.countP (Event.isRequest method)

/-- The request `JobStatus(jobID, _)` sends. -/
def statusRequest (jobID : String) : Outgoing := requestOf "job_status" [("job_id", .str jobID)]

/-- The request `JobFree(jobID)` sends. -/
def freeRequest (jobID : String) : Outgoing := requestOf "job_free" [("job_id", .str jobID)]

/-- The events of one `job_status` poll per reply: the request, then the reply. -/
def pollTrace (jobID : String) : List Incoming → List Event
  | [] => []
  | i :: rest => .sent (statusRequest jobID) :: .received i :: pollTrace jobID rest

/-- A connection whose peer will answer with `replies`, every `send` succeeding. -/
def scripted (replies : List Incoming) : ClientConnection :=
  ⟨⟨replies, [], []⟩, "sim", 30000⟩

/-- The volume object of the `volume_create` scenario. -/
def sampleVolumeJson : Json :=
  .obj [("class", .str "Volume"), ("id", .str "V1"), ("name", .str "v1"),
    ("admin_state", .num 1), ("block_size", .num 512), ("num_of_blocks", .num 2097152),
    ("plugin_data", .null), ("vpd83", .str ""), ("system_id", .str "S1"),
    ("pool_id", .str "P1")]

/-- The pool object of the `volume_create` scenario. -/
def samplePoolJson : Json := .obj [("class", .str "Pool"), ("id", .str "P1")]

/-- A reply whose error field holds error 205 "not found" next to a non-null result. -/
def notFoundReply : Incoming :=
  .frame "" (.ok (.obj [("id", .num 100),
    ("error", .obj [("code", .num 205), ("message", .str "not found"), ("data", .str "vol")]),
    ("result", .num 7)]))

/-- A reply in which both the error field and the result field are JSON null. -/
def bothNullReply : Incoming :=
  .frame "" (.ok (.obj [("id", .num 100), ("error", .null), ("result", .null)]))

/-- An object has neither field populated: it has no result member, and every error
member it has is null.  A member belongs to a field when `encoding/json` matches its key
to the field (`keyIs`: the exact name, or the name under case folding). -/
def neitherField (members : List (String × Json)) : Prop :=
  (∀ m ∈ members, keyIs m.1 "result" = false) ∧
    (∀ m ∈ members, keyIs m.1 "error" = true → m.2.isNull = true)

/-- The JSON text of an envelope that has a null error member and no result member. -/
def noResultJson : Json := .obj [("id", .num 100), ("error", .null)]

/-- The replies of the scenario InProgress(10%), InProgress(55%), Complete(result = the
sample volume), followed by the reply to `job_free`. -/
def sampleJobReplies : List Incoming :=
  [okReply (.arr [.num 1, .num 10, .null]), okReply (.arr [.num 1, .num 55, .null]),
    okReply (.arr [.num 2, .num 100, sampleVolumeJson]), okReply .null]

/-- The volume `Volume.store` makes of `sampleVolumeJson`: `admin_state` is not taken
over. -/
def sampleVolume : Volume :=
  ⟨"Volume", "V1", "v1", false, 512, 2097152, none, "", "S1", "P1"⟩

/-- A `job_status` reply with state Error carrying error 205 "not found". -/
def jobErrorReply : Incoming :=
  okReply (.arr [.num 3, .null,
    .obj [("code", .num 205), ("message", .str "not found"), ("data", .str "")]])

/-- The events of one `JobFree(jobID)` call: the request whose `send` failed, or the
request followed by the receipt of a reply. -/
def isFreeExchange (jobID : String) (frees : List Event) : Prop :=
  (∃ e, frees = [.sendFailed (freeRequest jobID) e]) ∨
    (∃ f, frees = [.sent (freeRequest jobID), .received f])

/-! ## Message layer: the transport-free parts of `invoke` and `JobStatus` -/

/-- What `invoke` makes of a reply, the transport left aside: the new contents of the
destination and the error. -/
def replyOutcome {α : Type} (cmd : String) (result : Option (Target α)) (cur : α) :
    Incoming → α × Option GoError
  | .readError replyError =>
    (cur, some (commError ("Error reading from unix domain socket " ++ replyError ++ "\n")))
  | .headerError replyError =>
    (cur, some (commError ("Error reading from unix domain socket " ++ replyError ++ "\n")))
  | .frame _ (.error replyUnmarsal) =>
    (cur, some (pluginBug ("Unparsable response from plugin " ++ replyUnmarsal ++ "\n")))
  | .frame reply (.ok j) =>
    match responseMsg.store j responseMsg.zero with
    | (_, some replyUnmarsal) =>
      (cur, some (pluginBug ("Unparsable response from plugin " ++ replyUnmarsal.Error ++ "\n")))
    | (what, none) =>
      match what.Error with
      | some e => (cur, some (.lsm e))
      | none =>
        match what.Result with
        | some r =>
          match result with
          | none => (cur, none)
          | some p =>
            if r.isNull then (cur, none)
            else
              match p.store r cur with
              | (v, some _) =>
                (v, some (pluginBug ("Plugin returned unexpected response form for ("
                  ++ cmd ++ ") data (" ++ r.text ++ ")")))
              | (v, none) => (v, none)
        | none => (cur, some (pluginBug ("Unexpected response from plugin " ++ reply ++ "\n")))

/-- The reply the next `recv` returns. -/
def Port.nextReply (t : Port) : Incoming :=
  match t.incoming with
  | [] => .readError "EOF"
  | i :: _ => i

/-- What `JobStatus` makes of the outcome of its `invoke` call, the transport left
aside. -/
def statusOutcome {α : Type} (returnedResult : Option (Target α)) (cur : α) (result : Raw3)
    (jobError : Option GoError) : α × JobStatusType × Nat × Option GoError :=
  match jobError with
  | some e => (cur, JobStatusError, 0, some e)
  | none =>
    match jsonUnmarshal result.r0 (some ⟨storeUint 32 "libstoragemgmt.JobStatusType"⟩) 0 with
    | (_, some statusMe) => (cur, JobStatusError, 0, some statusMe)
    | (status, none) =>
      if status = JobStatusInprogress then
        match jsonUnmarshal result.r1 (some ⟨storeUint 8 "uint8"⟩) 0 with
        | (_, some percentError) => (cur, JobStatusError, 0, some percentError)
        | (percent, none) => (cur, status, percent, none)
      else if status = JobStatusComplete then
        if result.r2.notNullText ∧ returnedResult.isSome then
          match jsonUnmarshal result.r2 returnedResult cur with
          | (v, err) => (v, status, 100, err)
        else (cur, status, 100, none)
      else if status = JobStatusError then
        match jsonUnmarshal result.r2 (some ⟨LsmError.store⟩) LsmError.zero with
        | (_, some checkErrorE) => (cur, JobStatusError, 0, some checkErrorE)
        | (_, none) =>
          (cur, JobStatusError, 0,
            some (pluginBug "job_status returned error status with no error information"))
      else
        (cur, JobStatusError, 0,
          some (pluginBug ("Invalid status type returned " ++ toString status)))

/-! ## `data.go`: capabilities -/

/-- A run-time panic of the Go program. -/
inductive Panic
  | sliceBounds
  | nilDereference
  deriving DecidableEq, Repr

/-- The struct `Capabilities`.  `Cap` is the Go string, given by its bytes: `len` and
the slice expression of Go count bytes. -/
structure Capabilities where
  Class : String
  Cap : List Nat

/-- Go: the conversion `int32(z)`, and the result of `int32` arithmetic whose exact
value is `z`: the integer congruent to `z` modulo 2^32 that lies in
`[-2147483648, 2147483647]`. -/
@[irreducible]
def toInt32 (z : Int) : Int := (2147483648 + z) % 4294967296 - 2147483648

/-- Go: the slice expression `s[lo:hi]` on a string; it panics unless
`0 <= lo <= hi <= len(s)`. -/
def sliceString (s : List Nat) (lo hi : Int) : Except Panic (List Nat) :=
  if 0 ≤ lo ∧ lo ≤ hi ∧ hi ≤ s.length then .ok ((s.drop lo.toNat).take (hi - lo).toNat)
  else .error .sliceBounds

/-- The bytes of the string `"01"`. -/
def capSupported : List Nat := [48, 49]

/-- Go: `(*Capabilities).IsSupported(cap)`; `cap` is a `CapabilityType`, a `uint32`.
`capIdx` is an `int32`, and so is `capIdx + 2`. -/
def Capabilities.IsSupported (c : Capabilities) (cap : Nat) : Except Panic Bool :=
  let capIdx := toInt32 (toInt32 cap * 2)
  match sliceString c.Cap capIdx (toInt32 (capIdx + 2)) with
  | .error p => .error p
  | .ok flag => if flag = capSupported then .ok true else .ok false

/-- Go: `(*Capabilities).IsSupportedSet(cap)`. -/
def Capabilities.IsSupportedSet (c : Capabilities) : List Nat → Except Panic Bool
  | [] => .ok true
  | i :: rest =>
    match c.IsSupported i with
    | .error p => .error p
    | .ok false => .ok false
    | .ok true => Capabilities.IsSupportedSet c rest

/-! ## Plugin side: `encoding/json` into the argument structs of the handlers -/

/-- The Go types that occur in the argument structs of the handlers.  A struct lists,
for every field, its Go name, its JSON key and its type; integer types carry the name
`reflect.Type.String` prints. -/
inductive GoType
  | string
  | bool
  | lsmBool
  | uint (bits : Nat) (name : String)
  | int (bits : Nat) (name : String)
  | ptr (elem : GoType)
  | slice (elem : GoType)
  | struct (name : String) (fields : List (String × String × GoType))

/-- A value of one of these types.  `nil` is the nil pointer and the nil slice, `ref`
a pointer to a value, `list` a slice that is not nil; a struct lists its fields by
their Go names.  `given` is a value that a callback returned, known by its JSON form. -/
inductive GoValue
  | str (s : String)
  | bool (b : Bool)
  | num (z : Int)
  | nil
  | ref (v : GoValue)
  | list (items : List GoValue)
  | struct (fields : List (String × GoValue))
  | given (j : Json)

mutual
/-- The zero value of a type. -/
def GoType.zero : GoType → GoValue
  | .string => .str ""
  | .bool => .bool false
  | .lsmBool => .bool false
  | .uint _ _ => .num 0
  | .int _ _ => .num 0
  | .ptr _ => .nil
  | .slice _ => .nil
  | .struct _ fields => .struct (GoType.zeroFields fields)
/-- The zero values of the fields of a struct. -/
def GoType.zeroFields : List (String × String × GoType) → List (String × GoValue)
  | [] => []
  | (goName, _, t) :: rest => (goName, t.zero) :: GoType.zeroFields rest
end

/-- Go: `reflect.Type.String`; every struct here belongs to package `libstoragemgmt`. -/
def GoType.name : GoType → String
  | .string => "string"
  | .bool => "bool"
  | .lsmBool => "libstoragemgmt.LsmBool"
  | .uint _ name => name
  | .int _ name => name
  | .ptr elem => "*" ++ elem.name
  | .slice elem => "[]" ++ elem.name
  | .struct name _ => "libstoragemgmt." ++ name

/-- The field of a struct value with the given Go name (`nil` when there is none). -/
def GoValue.field (v : GoValue) (goName : String) : GoValue :=
  match v with
  | .struct fields => (fields.lookup goName).getD .nil
  | _ => .nil

/-- The struct value with one field replaced. -/
def GoValue.setField (v : GoValue) (goName : String) (x : GoValue) : GoValue :=
  match v with
  | .struct fields => .struct (fields.map fun f => if f.1 = goName then (f.1, x) else f)
  | _ => v

/-- The `errorContext` of the decoder: the struct being decoded and the path of JSON
keys that leads to the value at hand. -/
structure ErrorContext where
  Struct : String
  FieldStack : List String

/-- The `*json.UnmarshalTypeError` for a JSON value described by `value` that the Go
type `goType` cannot hold, with the text of its `Error` method. -/
def typeError (ctx : ErrorContext) (value goType : String) : GoError :=
  if ctx.Struct ≠ "" ∨ ctx.FieldStack ≠ [] then
    .other ("json: cannot unmarshal " ++ value ++ " into Go struct field " ++ ctx.Struct ++
      "." ++ ".".intercalate ctx.FieldStack ++ " of type " ++ goType)
  else .other ("json: cannot unmarshal " ++ value ++ " into Go value of type " ++ goType)

mutual
/-- How `encoding/json` stores the JSON value `j` into a variable of type `t` that
holds `cur`: the new contents and the first error recorded.  A mismatch is recorded and
decoding goes on.  `LsmBool` has an `UnmarshalJSON` method with a value receiver, which
is called for every JSON value and changes nothing. -/
def GoType.store (ctx : ErrorContext) : GoType → Json → GoValue → GoValue × Option GoError
  | .string, j, cur =>
    match j with
    | .null => (cur, none)
    | .str s => (.str s, none)
    | _ => (cur, some (typeError ctx j.kind "string"))
  | .bool, j, cur =>
    match j with
    | .null => (cur, none)
    | .bool b => (.bool b, none)
    | _ => (cur, some (typeError ctx j.kind "bool"))
  | .lsmBool, _, cur => (cur, none)
  | .uint bits name, j, cur =>
    match j with
    | .null => (cur, none)
    | .num z =>
      if 0 ≤ z ∧ z < 2 ^ bits then (.num z, none)
      else (cur, some (typeError ctx ("number " ++ toString z) name))
    | .real lit => (cur, some (typeError ctx ("number " ++ lit) name))
    | _ => (cur, some (typeError ctx j.kind name))
  | .int bits name, j, cur =>
    match j with
    | .null => (cur, none)
    | .num z =>
      if -(2 ^ (bits - 1)) ≤ z ∧ z < 2 ^ (bits - 1) then (.num z, none)
      else (cur, some (typeError ctx ("number " ++ toString z) name))
    | .real lit => (cur, some (typeError ctx ("number " ++ lit) name))
    | _ => (cur, some (typeError ctx j.kind name))
  | .ptr elem, j, cur =>
    match j with
    | .null => (.nil, none)
    | _ =>
      let r := GoType.store ctx elem j (match cur with | .ref v => v | _ => elem.zero)
      (.ref r.1, r.2)
  | .slice elem, j, cur =>
    match j with
    | .null => (.nil, none)
    | .arr items =>
      let r := items.foldl (fun (acc : List GoValue × Option GoError) item =>
        let x := GoType.store ctx elem item elem.zero
        (acc.1 ++ [x.1], firstError acc.2 x.2)) ([], none)
      (.list r.1, r.2)
    | _ => (cur, some (typeError ctx j.kind ("[]" ++ elem.name)))
  | .struct name fields, j, cur =>
    match j with
    | .null => (cur, none)
    | .obj members =>
      members.foldl (fun acc m => GoType.storeField name ctx.FieldStack fields m.1 m.2 acc)
        (cur, none)
    | _ => (cur, some (typeError ctx j.kind ("libstoragemgmt." ++ name)))
/-- One member `key: j` of an object being stored into a struct: the first field whose
JSON key matches takes the value; a key that matches no field is skipped. -/
def GoType.storeField (structName : String) (stack : List String) :
    List (String × String × GoType) → String → Json → GoValue × Option GoError →
      GoValue × Option GoError
  | [], _, _, acc => acc
  | (goName, jsonKey, t) :: rest, key, j, acc =>
    if keyIs key jsonKey then
      let r := GoType.store ⟨structName, stack ++ [jsonKey]⟩ t j (acc.1.field goName)
      (acc.1.setField goName r.1, firstError acc.2 r.2)
    else GoType.storeField structName stack rest key j acc
end

/-- Go: `json.Unmarshal(data, &args)` for a variable `args` of type `t` that holds its
zero value. -/
def jsonDecode (data : RawMessage) (t : GoType) : GoValue × Option GoError :=
  match data with
  | none => (t.zero, some jsonEndOfInput)
  | some j => GoType.store ⟨"", []⟩ t j t.zero
/-! ## Plugin side: the data types of `data.go` and `plugin.go` as decoding targets -/

namespace Shape

/-- Go: `*string`. -/
def stringPtr : GoType := .ptr .string
/-- Go: `uint64`. -/
def uint64 : GoType := .uint 64 "uint64"
/-- Go: `uint32`. -/
def uint32 : GoType := .uint 32 "uint32"
/-- Go: `int64`. -/
def int64 : GoType := .int 64 "int64"
/-- Go: `[]string`. -/
def strings : GoType := .slice .string

/-- The struct `System`. -/
def System : GoType :=
  .struct "System" [("Class", "class", .string), ("ID", "id", .string),
    ("Name", "name", .string),
    ("Status", "status", .uint 32 "libstoragemgmt.SystemStatusType"),
    ("StatusInfo", "status_info", .string), ("PluginData", "plugin_data", stringPtr),
    ("FwVersion", "fw_version", .string), ("ReadCachePct", "read_cache_pct", .int 8 "int8"),
    ("SystemMode", "mode", .int 8 "libstoragemgmt.SystemModeType")]

/-- The struct `Volume`. -/
def Volume : GoType :=
  .struct "Volume" [("Class", "class", .string), ("ID", "id", .string),
    ("Name", "name", .string), ("Enabled", "admin_state", .lsmBool),
    ("BlockSize", "block_size", uint64), ("NumOfBlocks", "num_of_blocks", uint64),
    ("PluginData", "plugin_data", stringPtr), ("Vpd83", "vpd83", .string),
    ("SystemID", "system_id", .string), ("PoolID", "pool_id", .string)]

/-- The struct `Pool`. -/
def Pool : GoType :=
  .struct "Pool" [("Class", "class", .string), ("ID", "id", .string),
    ("Name", "name", .string),
    ("ElementType", "element_type", .uint 64 "libstoragemgmt.PoolElementType"),
    ("UnsupportedActions", "unsupported_actions",
      .uint 64 "libstoragemgmt.PoolUnsupportedType"),
    ("TotalSpace", "total_space", uint64), ("FreeSpace", "free_space", uint64),
    ("Status", "status", .uint 64 "libstoragemgmt.PoolStatusType"),
    ("StatusInfo", "status_info", .string), ("PluginData", "plugin_data", stringPtr),
    ("SystemID", "system_id", .string)]

/-- The struct `Disk`. -/
def Disk : GoType :=
  .struct "Disk" [("Class", "class", .string), ("ID", "id", .string),
    ("Name", "name", .string), ("DiskType", "disk_type", .int 64 "libstoragemgmt.DiskType"),
    ("BlockSize", "block_size", uint64), ("NumOfBlocks", "num_of_blocks", uint64),
    ("Status", "status", .uint 64 "libstoragemgmt.DiskStatusType"),
    ("PluginData", "plugin_data", stringPtr), ("SystemID", "system_id", .string),
    ("Location", "location", .string), ("Rpm", "rpm", .int 64 "int"),
    ("LinkType", "link_type", .int 64 "libstoragemgmt.DiskLinkType"),
    ("Vpd83", "vpd83", .string)]

/-- The struct `FileSystem`. -/
def FileSystem : GoType :=
  .struct "FileSystem" [("Class", "class", .string), ("ID", "id", .string),
    ("Name", "name", .string), ("TotalSpace", "total_space", uint64),
    ("FreeSpace", "free_space", uint64), ("PluginData", "plugin_data", stringPtr),
    ("SystemID", "system_id", .string), ("PoolID", "pool_id", .string)]

/-- The struct `NfsExport`. -/
def NfsExport : GoType :=
  .struct "NfsExport" [("Class", "class", .string), ("ID", "id", .string),
    ("FsID", "fs_id", .string), ("ExportPath", "export_path", .string),
    ("Auth", "auth", .string), ("Root", "root", strings), ("Rw", "rw", strings),
    ("Ro", "ro", strings), ("AnonUID", "anonuid", int64), ("AnonGID", "anongid", int64),
    ("Options", "options", .string), ("PluginData", "plugin_data", stringPtr)]

/-- The struct `AccessGroup`. -/
def AccessGroup : GoType :=
  .struct "AccessGroup" [("Class", "class", .string), ("ID", "id", .string),
    ("Name", "name", .string), ("InitIDs", "init_ids", strings),
    ("InitiatorType", "init_type", .int 64 "libstoragemgmt.InitiatorType"),
    ("PluginData", "plugin_data", stringPtr), ("SystemID", "system_id", .string)]

/-- The struct `BlockRange`. -/
def BlockRange : GoType :=
  .struct "BlockRange" [("Class", "class", .string), ("SrcBlkAddr", "src_block", uint64),
    ("DstBlkAddr", "dest_block", uint64), ("BlkCount", "block_count", uint64)]

/-- The struct `FileSystemSnapShot`. -/
def FileSystemSnapShot : GoType :=
  .struct "FileSystemSnapShot" [("Class", "class", .string), ("ID", "id", .string),
    ("Name", "name", .string), ("Ts", "ts", uint64),
    ("PluginData", "plugin_data", stringPtr)]

/-- The struct `PluginRegister`; its fields have no tag, so the JSON keys are the Go
names. -/
def PluginRegister : GoType :=
  .struct "PluginRegister" [("URI", "URI", .string), ("Password", "Password", .string),
    ("Timeout", "Timeout", uint32), ("Flags", "Flags", uint32)]

/-- Go: `VolumeReplicateType`, an `int`. -/
def VolumeReplicateType : GoType := .int 64 "libstoragemgmt.VolumeReplicateType"
/-- Go: `InitiatorType`, an `int`. -/
def InitiatorType : GoType := .int 64 "libstoragemgmt.InitiatorType"

/-! ### The argument structs of `plugin_handlers.go` -/

/-- The field `Flags uint64` that most argument structs end with. -/
def flags : String × String × GoType := ("Flags", "flags", uint64)

/-- `tmoSetArgs`. -/
def tmoSetArgs : GoType := .struct "tmoSetArgs" [("MS", "ms", uint32), flags]
/-- `search`. -/
def search : GoType :=
  .struct "search" [("Key", "search_key", .string), ("Value", "search_value", .string), flags]
/-- `capArgs`. -/
def capArgs : GoType := .struct "capArgs" [("Sys", "system", System)]
/-- `jobArgs`. -/
def jobArgs : GoType := .struct "jobArgs" [("ID", "job_id", .string)]
/-- `volumeCreateArgs` of `handleVolumeCreate`. -/
def volumeCreateArgs : GoType :=
  .struct "volumeCreateArgs" [("Pool", "pool", .ptr Pool), ("Name", "volume_name", .string),
    ("SizeBytes", "size_bytes", uint64),
    ("Provisioning", "provisioning", .int 64 "libstoragemgmt.VolumeProvisionType"), flags]
/-- `volumeReplicateArgs` of `handleVolumeReplicate`. -/
def volumeReplicateArgs : GoType :=
  .struct "volumeReplicateArgs" [("Pool", "pool", .ptr Pool),
    ("RepType", "rep_type", VolumeReplicateType), flags, ("SrcVol", "volume_src", Volume),
    ("Name", "name", .string)]
/-- `volumeReplicateRangeArgs` of `handleVolumeReplicateRange`. -/
def volumeReplicateRangeArgs : GoType :=
  .struct "volumeReplicateRangeArgs" [("RepType", "rep_type", VolumeReplicateType),
    ("Ranges", "ranges", .slice BlockRange), ("SrcVol", "volume_src", Volume),
    ("DstVol", "volume_dest", Volume), flags]
/-- `args` of `handleVolRepRangeBlockSize`. -/
def repRangeBlockSizeArgs : GoType :=
  .struct "args" [("System", "system", .ptr System), flags]
/-- `args` of `handleVolumeResize`. -/
def volumeResizeArgs : GoType :=
  .struct "args" [("Volume", "volume", .ptr Volume), ("Size", "new_size_bytes", uint64), flags]
/-- `volumeArgument`. -/
def volumeArgument : GoType :=
  .struct "volumeArgument" [("Volume", "volume", .ptr Volume), flags]
/-- `volumeDeleteArgs` of `handleVolumeDelete`. -/
def volumeDeleteArgs : GoType :=
  .struct "volumeDeleteArgs" [("Volume", "volume", .ptr Volume), flags]
/-- `maskArgs`. -/
def maskArgs : GoType :=
  .struct "maskArgs" [("Vol", "volume", .ptr Volume), ("Ag", "access_group", .ptr AccessGroup),
    flags]
/-- `argsAg` of `handleVolsMaskedToAg`. -/
def argsAg : GoType := .struct "argsAg" [("Ag", "access_group", .ptr AccessGroup), flags]
/-- `agCreateArgs` of `handleAccessGroupCreate`. -/
def agCreateArgs : GoType :=
  .struct "agCreateArgs" [("Name", "name", .string), ("InitID", "init_id", .string),
    ("InitType", "init_type", InitiatorType), ("System", "system", .ptr System), flags]
/-- `agDeleteArgs` of `handleAccessGroupDelete`. -/
def agDeleteArgs : GoType :=
  .struct "agDeleteArgs" [("Ag", "access_group", .ptr AccessGroup), flags]
/-- `accessGroupInitArgs`. -/
def accessGroupInitArgs : GoType :=
  .struct "accessGroupInitArgs" [("Ag", "access_group", .ptr AccessGroup),
    ("ID", "init_id", .string), ("InitType", "init_type", InitiatorType), flags]
/-- `argsVol` of `handleAgsGrantedToVol`. -/
def argsVol : GoType := .struct "argsVol" [("Vol", "volume", .ptr Volume), flags]
/-- `argsIscsi` of `handleIscsiChapAuthSet`. -/
def argsIscsi : GoType :=
  .struct "argsIscsi" [("InitID", "init_id", .string), ("InUser", "in_user", stringPtr),
    ("InPassword", "in_password", stringPtr), ("OutUser", "out_user", stringPtr),
    ("OutPassword", "out_password", stringPtr), flags]
/-- `volumeArg`. -/
def volumeArg : GoType := .struct "volumeArg" [("Vol", "volume", .ptr Volume), flags]
/-- `fsCreateArgs` of `handleFsCreate`. -/
def fsCreateArgs : GoType :=
  .struct "fsCreateArgs" [("Pool", "pool", .ptr Pool), ("Name", "name", .string),
    ("SizeBytes", "size_bytes", uint64), flags]
/-- `fsDeleteArgs` of `handleFsDelete`. -/
def fsDeleteArgs : GoType := .struct "fsDeleteArgs" [("Fs", "fs", .ptr FileSystem), flags]
/-- `fsResizeArgs` of `handleFsResize`. -/
def fsResizeArgs : GoType :=
  .struct "fsResizeArgs" [("Fs", "fs", .ptr FileSystem), ("Size", "new_size_bytes", uint64),
    flags]
/-- `fsCloneArgs` of `handleFsClone`. -/
def fsCloneArgs : GoType :=
  .struct "fsCloneArgs" [("Fs", "src_fs", .ptr FileSystem), ("Name", "dest_fs_name", .string),
    ("Ss", "snapshot", .ptr FileSystemSnapShot), flags]
/-- `fsFileCloneArgs` of `handleFsFileClone`. -/
def fsFileCloneArgs : GoType :=
  .struct "fsFileCloneArgs" [("Fs", "fs", .ptr FileSystem), ("Src", "src_file_name", .string),
    ("Dst", "dest_file_name", .string), ("Ss", "snapshot", .ptr FileSystemSnapShot), flags]
/-- `fsSnapShotCreateArgs` of `handleFsSnapShotCreate`. -/
def fsSnapShotCreateArgs : GoType :=
  .struct "fsSnapShotCreateArgs" [("Fs", "fs", .ptr FileSystem),
    ("Name", "snapshot_name", .string), flags]
/-- `fsSnapShotDeleteArgs` of `handleFsSnapShotDelete`. -/
def fsSnapShotDeleteArgs : GoType :=
  .struct "fsSnapShotDeleteArgs" [("Fs", "fs", .ptr FileSystem),
    ("Ss", "snapshot", .ptr FileSystemSnapShot), flags]
/-- `fsSnapShotArgs` of `handleFsSnapShots`. -/
def fsSnapShotArgs : GoType := .struct "fsSnapShotArgs" [("Fs", "fs", .ptr FileSystem), flags]
/-- `fsSnapShotRestoreArgs` of `handleFsSnapShotRestore`. -/
def fsSnapShotRestoreArgs : GoType :=
  .struct "fsSnapShotRestoreArgs" [("Fs", "fs", .ptr FileSystem),
    ("Ss", "snapshot", .ptr FileSystemSnapShot), ("All", "all_files", .bool),
    ("Files", "files", strings), ("RestoreFiles", "restore_files", strings), flags]
/-- `fsHasChildDepsArgs`. -/
def fsHasChildDepsArgs : GoType :=
  .struct "fsHasChildDepsArgs" [("Fs", "fs", .ptr FileSystem), ("Files", "files", strings),
    flags]
/-- `exportArgs` of `handleExportFs`. -/
def exportArgs : GoType :=
  .struct "exportArgs" [("FsID", "fs_id", stringPtr), ("Path", "export_path", stringPtr),
    ("Root", "root_list", strings), ("Rw", "rw_list", strings), ("Ro", "ro_list", strings),
    ("AnonUID", "anon_uid", int64), ("AnonGID", "anon_gid", int64),
    ("AuthType", "auth_type", stringPtr), ("Options", "options", stringPtr), flags]
/-- `unexportArgs` of `handleFsUnexport`. -/
def unexportArgs : GoType :=
  .struct "unexportArgs" [("Export", "export", .ptr NfsExport), flags]
/-- `volRaidCreateArgs` of `handleVolRaidCreate`. -/
def volRaidCreateArgs : GoType :=
  .struct "volRaidCreateArgs" [("Name", "name", .string),
    ("Type", "raid_type", .int 64 "libstoragemgmt.RaidType"), ("Disks", "disks", .slice Disk),
    ("StripSize", "strip_size", uint32), flags]
/-- `volRaidCreateCapGetArgs` of `handleVolRaidCreateCapGet`. -/
def volRaidCreateCapGetArgs : GoType :=
  .struct "volRaidCreateCapGetArgs" [("Sys", "system", .ptr System), flags]
/-- `poolMemberInfoArgs` of `handlePoolMemberInfo`. -/
def poolMemberInfoArgs : GoType :=
  .struct "poolMemberInfoArgs" [("Pool", "pool", .ptr Pool), flags]
/-- `volRaidInfoArgs` of `handleVolRaidInfo`. -/
def volRaidInfoArgs : GoType :=
  .struct "volRaidInfoArgs" [("Volume", "volume", .ptr Volume), flags]
/-- `sysReadCachePctArgs` of `handleSystemReadCachePctSet`. -/
def sysReadCachePctArgs : GoType :=
  .struct "sysReadCachePctArgs" [("System", "system", .ptr System),
    ("Percent", "read_pct", uint32), flags]
/-- `volCacheInfoArgs` of `handleVolCacheInfo`. -/
def volCacheInfoArgs : GoType :=
  .struct "volCacheInfoArgs" [("Volume", "volume", .ptr Volume), flags]
/-- `volPhyDiskCacheSetArgs` of `handleVolPhyDiskCacheSet`. -/
def volPhyDiskCacheSetArgs : GoType :=
  .struct "volPhyDiskCacheSetArgs" [("Volume", "volume", .ptr Volume),
    ("Pdc", "pdc", .uint 32 "libstoragemgmt.PhysicalDiskCache"), flags]
/-- `volWriteCacheSetArgs` of `handleVolWriteCacheSet`. -/
def volWriteCacheSetArgs : GoType :=
  .struct "volWriteCacheSetArgs" [("Volume", "volume", .ptr Volume),
    ("Wcp", "wcp", .uint 32 "libstoragemgmt.WriteCachePolicy"), flags]
/-- `volReadCacheSetArgs` of `handleVolReadCacheSet`. -/
def volReadCacheSetArgs : GoType :=
  .struct "volReadCacheSetArgs" [("Volume", "volume", .ptr Volume),
    ("Rcp", "rcp", .uint 32 "libstoragemgmt.ReadCachePolicy"), flags]

end Shape
/-! ## Plugin side: `plugin.go`, the callbacks

A callback is a Go function supplied by the plugin author.  Here it is a function of
its arguments, given as decoded values in the order of the Go call, and of the state
`σ` of the plugin, which it may change.  What it returns for the peer is given by its
JSON form, the form `json.Marshal` sends; `none` stands for a nil callback. -/

/-- A callback that returns `error`. -/
abbrev CbError (σ : Type) := List GoValue → σ → σ × Option GoError
/-- A callback that returns `(T, error)`. -/
abbrev CbValue (σ : Type) := List GoValue → σ → σ × Json × Option GoError
/-- A callback that returns `(*string, error)`, the string being a job id. -/
abbrev CbJob (σ : Type) := List GoValue → σ → σ × Option String × Option GoError
/-- A callback that returns `(*T, *string, error)`. -/
abbrev CbValueJob (σ : Type) :=
  List GoValue → σ → σ × Json × Option String × Option GoError
/-- A callback that returns `(*R, error)` for a struct `R` whose fields the handler
reads. -/
abbrev CbRecord (σ ρ : Type) := List GoValue → σ → σ × Option ρ × Option GoError

/-- The struct `JobInfo`. -/
structure JobInfo where
  Status : Nat
  Percent : Nat
  Item : Json

/-- The struct `VolumeRaidInfo`; `Type'` is the field `Type`, an `int`, the other
fields are `uint32`. -/
structure VolumeRaidInfo where
  Type' : Int
  StripSize : Nat
  DiskCount : Nat
  MinIOSize : Nat
  OptIOSize : Nat

/-- The struct `PoolMemberInfo`; `ID` is a `[]string`. -/
structure PoolMemberInfo where
  Raid : Int
  Member : Int
  ID : Json

/-- The struct `SupportedRaidCapability`; both fields are slices. -/
structure SupportedRaidCapability where
  Types : Json
  StripeSizes : Json

/-- The struct `VolumeCacheInfo`; every field is a `uint32`. -/
structure VolumeCacheInfo where
  WriteSetting : Nat
  WriteStatus : Nat
  ReadSetting : Nat
  ReadStatus : Nat
  PhysicalDiskStatus : Nat

/-- The struct `ManagementOps`. -/
structure ManagementOps (σ : Type) where
  TimeOutSet : Option (CbError σ) := none
  TimeOutGet : Option (σ → σ × Nat) := none
  JobStatus : Option (CbRecord σ JobInfo) := none
  JobFree : Option (CbError σ) := none
  Capabilities : Option (CbValue σ) := none
  Systems : Option (CbValue σ) := none
  Pools : Option (CbValue σ) := none
  PluginRegister : Option (CbError σ) := none
  PluginUnregister : Option (CbError σ) := none

/-- The struct `SanOps`. -/
structure SanOps (σ : Type) where
  Volumes : Option (CbValue σ) := none
  VolumeCreate : Option (CbValueJob σ) := none
  VolumeDelete : Option (CbJob σ) := none
  Disks : Option (CbValue σ) := none
  VolumeReplicate : Option (CbValueJob σ) := none
  VolumeReplicateRange : Option (CbJob σ) := none
  VolumeRepRangeBlkSize : Option (CbValue σ) := none
  VolumeResize : Option (CbValueJob σ) := none
  VolumeEnable : Option (CbError σ) := none
  VolumeDisable : Option (CbError σ) := none
  VolumeMask : Option (CbError σ) := none
  VolumeUnMask : Option (CbError σ) := none
  VolsMaskedToAg : Option (CbValue σ) := none
  VolHasChildDep : Option (CbValue σ) := none
  VolChildDepRm : Option (CbJob σ) := none
  AccessGroups : Option (CbValue σ) := none
  AccessGroupCreate : Option (CbValue σ) := none
  AccessGroupDelete : Option (CbError σ) := none
  AccessGroupInitAdd : Option (CbValue σ) := none
  AccessGroupInitDelete : Option (CbValue σ) := none
  AgsGrantedToVol : Option (CbValue σ) := none
  IscsiChapAuthSet : Option (CbError σ) := none
  TargetPorts : Option (CbValue σ) := none
  VolIdentLedOn : Option (CbError σ) := none
  VolIdentLedOff : Option (CbError σ) := none

/-- The struct `FsOps`.  `FileSystems` returns a `[]FileSystem`: `none` is the nil
slice, and the elements are given by their JSON forms. -/
structure FsOps (σ : Type) where
  FileSystems : Option (List GoValue → σ → σ × Option (List Json) × Option GoError) := none
  FsCreate : Option (CbValueJob σ) := none
  FsDelete : Option (CbJob σ) := none
  FsResize : Option (CbValueJob σ) := none
  FsClone : Option (CbValueJob σ) := none
  FsFileClone : Option (CbJob σ) := none
  FsSnapShotCreate : Option (CbValueJob σ) := none
  FsSnapShotDelete : Option (CbJob σ) := none
  FsSnapShots : Option (CbValue σ) := none
  FsSnapShotRestore : Option (CbJob σ) := none
  FsHasChildDep : Option (CbValue σ) := none
  FsChildDepRm : Option (CbJob σ) := none

/-- The struct `NfsOps`. -/
structure NfsOps (σ : Type) where
  Exports : Option (CbValue σ) := none
  ExportAuthTypes : Option (CbValue σ) := none
  FsExport : Option (CbValue σ) := none
  FsUnExport : Option (CbError σ) := none

/-- The struct `HbaRaidOps`. -/
structure HbaRaidOps (σ : Type) where
  VolRaidInfo : Option (CbRecord σ VolumeRaidInfo) := none
  PoolMemberInfo : Option (CbRecord σ PoolMemberInfo) := none
  VolRaidCreateCapGet : Option (CbRecord σ SupportedRaidCapability) := none
  VolRaidCreate : Option (CbValue σ) := none
  Batteries : Option (CbValue σ) := none

/-- The struct `CacheOps`. -/
structure CacheOps (σ : Type) where
  SysReadCachePctSet : Option (CbError σ) := none
  VolCacheInfo : Option (CbRecord σ VolumeCacheInfo) := none
  VolPhyDiskCacheSet : Option (CbError σ) := none
  VolWriteCacheSet : Option (CbError σ) := none
  VolReadCacheSet : Option (CbError σ) := none

/-- The struct `PluginCallBacks`. -/
structure PluginCallBacks (σ : Type) where
  Mgmt : ManagementOps σ := {}
  San : SanOps σ := {}
  File : FsOps σ := {}
  Nfs : NfsOps σ := {}
  Hba : HbaRaidOps σ := {}
  Cache : CacheOps σ := {}
/-! ## Plugin side: `plugin_handlers.go` -/

/-- The functions of type `handler` that `buildTable` puts into the call table. -/
inductive Handler
  | handlePluginInfo | handleRegister | handleUnRegister | handleSystems
  | handleCapabilities | handleTmoSet | handleTmoGet | handlePools | handleJobStatus
  | handleJobFree | handleVolumeCreate | handleVolumeDelete | handleVolumes | handleDisks
  | handleVolumeReplicate | handleVolumeReplicateRange | handleVolRepRangeBlockSize
  | handleVolumeResize | handleVolumeEnable | handleVolumeDisable | handleVolumeMask
  | handleVolumeUnMask | handleVolHasChildDep | handleVolChildDepRm | handleVolsMaskedToAg
  | handleAccessGroups | handleAccessGroupCreate | handleAccessGroupDelete
  | handleAccessGroupInitAdd | handleAccessGroupInitDelete | handleAgsGrantedToVol
  | handleIscsiChapAuthSet | handleTargetPorts | handleVolIdentLedOn | handleVolIdentLedOff
  | handleFs | handleFsCreate | handleFsDelete | handleFsResize | handleFsClone
  | handleFsFileClone | handleFsSnapShotCreate | handleFsSnapShotDelete | handleFsSnapShots
  | handleFsSnapShotRestore | handleFsHasChildDep | handleFsChildDepRm | handleNfsExports
  | handleExportFs | handleFsUnexport | handleExportAuthTypes | handleVolRaidCreate
  | handleVolRaidCreateCapGet | handlePoolMemberInfo | handleVolRaidInfo | handleBatteries
  | handleSystemReadCachePctSet | handleVolCacheInfo | handleVolPhyDiskCacheSet
  | handleVolWriteCacheSet | handleVolReadCacheSet
  deriving DecidableEq, Repr

/-- What the plugin did besides talking to its peer: a handler that `Run` executed, or
a callback that a handler invoked. -/
inductive Step
  | handler (method : String)
  | callback (name : String)
  deriving DecidableEq, Repr

/-- The struct `requestMsg`; `ID` is an `int`. -/
structure requestMsg where
  ID : Int
  Method : String
  Params : RawMessage

/-- The zero `requestMsg`. -/
def requestMsg.zero : requestMsg := ⟨0, "", none⟩

/-- One member of an object being stored into a `requestMsg`. -/
def requestMsg.storeMember (acc : requestMsg × Option GoError) (m : String × Json) :
    requestMsg × Option GoError :=
  if keyIs m.1 "id" then
    let r := storeInt 64 "int" m.2 acc.1.ID
    ({ acc.1 with ID := r.1 }, firstError acc.2 r.2)
  else if keyIs m.1 "method" then
    let r := storeString m.2 acc.1.Method
    ({ acc.1 with Method := r.1 }, firstError acc.2 r.2)
  else if keyIs m.1 "params" then
    ({ acc.1 with Params := some m.2 }, acc.2)
  else acc

/-- Storing into a `requestMsg`. -/
def requestMsg.store (j : Json) (cur : requestMsg) : requestMsg × Option GoError :=
  match j with
  | .null => (cur, none)
  | .obj members => members.foldl requestMsg.storeMember (cur, none)
  | _ => (cur, some (unmarshalTypeError j "libstoragemgmt.requestMsg"))

/-- The struct `Plugin`.  `st` is the state the callbacks work on and `journal` records
the handlers and callbacks that ran; a nil entry of the table is `none`. -/
structure Plugin (σ : Type) where
  tp : Port
  cb : PluginCallBacks σ
  callTable : List (String × Option Handler)
  desc : String
  ver : String
  st : σ
  journal : List Step

/-- How a call of a handler ends: it returns `(response, err)`, a nil `response` being
`null`, or it panics. -/
inductive Returned
  | values (response : Json) (err : Option GoError)
  | panic (p : Panic)

/-- Go: `invalidArgs(msg, e)`. -/
def invalidArgs (msg : String) (e : GoError) : GoError :=
  .lsm ⟨errors.TransPortInvalidArg, msg ++ ": invalid arguments(s) " ++ e.Error ++ "\n", ""⟩

/-- A call `p.cb.X(...)` of the callback `name`, its arguments already applied: calling
a nil function panics; otherwise the callback runs on the state of the plugin and the
handler goes on with what it returned. -/
def Plugin.call {σ ρ : Type} (p : Plugin σ) (name : String) (cb : Option (σ → σ × ρ))
    (k : Plugin σ → ρ → Plugin σ × Returned) : Plugin σ × Returned :=
  match cb with
  | none => (p, .panic .nilDereference)
  | some f =>
    k { p with st := (f p.st).1, journal := p.journal ++ [.callback name] } (f p.st).2

/-- The JSON form of a `*string`. -/
def jobJson : Option String → Json
  | none => .null
  | some job => .str job

/-- Go: `&v`. -/
def addressOf (v : GoValue) : GoValue := .ref v

/-- Go: `exclusiveOr(item, job, err)`. -/
def exclusiveOr (item : Json) (job : Option String) (err : Option GoError) : Returned :=
  match err with
  | some e => .values .null (some e)
  | none =>
    match job with
    | some j => .values (.arr [.str j, .null]) none
    | none => .values (.arr [.null, item]) none

/-- Go: `handleRegister`. -/
def handleRegister {σ : Type} (p : Plugin σ) (msg : requestMsg) : Plugin σ × Returned :=
  match jsonDecode msg.Params Shape.PluginRegister with
  | (_, some uE) => (p, .values .null (some (invalidArgs msg.Method uE)))
  | (register, none) =>
    p.call "Mgmt.PluginRegister" (p.cb.Mgmt.PluginRegister.map fun f => f [addressOf register])
      fun p1 err => (p1, .values .null err)

/-- Go: `handleUnRegister`. -/
def handleUnRegister {σ : Type} (p : Plugin σ) (_msg : requestMsg) : Plugin σ × Returned :=
  p.call "Mgmt.PluginUnregister" (p.cb.Mgmt.PluginUnregister.map fun f => f [])
    fun p1 err => (p1, .values .null err)

/-- Go: `handlePluginInfo`. -/
def handlePluginInfo {σ : Type} (p : Plugin σ) (_msg : requestMsg) : Plugin σ × Returned :=
  (p, .values (.arr [.str p.desc, .str p.ver]) none)

/-- Go: `handleTmoSet`. -/
def handleTmoSet {σ : Type} (p : Plugin σ) (msg : requestMsg) : Plugin σ × Returned :=
  match jsonDecode msg.Params Shape.tmoSetArgs with
  | (_, some uE) => (p, .values .null (some (invalidArgs msg.Method uE)))
  | (timeout, none) =>
    p.call "Mgmt.TimeOutSet" (p.cb.Mgmt.TimeOutSet.map fun f => f [timeout.field "MS"])
      fun p1 err => (p1, .values .null err)

/-- Go: `handleTmoGet`. -/
def handleTmoGet {σ : Type} (p : Plugin σ) (_msg : requestMsg) : Plugin σ × Returned :=
  p.call "Mgmt.TimeOutGet" p.cb.Mgmt.TimeOutGet fun p1 tmo => (p1, .values (.num tmo) none)

/-- Go: `handleSystems`. -/
def handleSystems {σ : Type} (p : Plugin σ) (_msg : requestMsg) : Plugin σ × Returned :=
  p.call "Mgmt.Systems" (p.cb.Mgmt.Systems.map fun f => f [])
    fun p1 r => (p1, .values r.1 r.2)

/-- Go: `handleDisks`. -/
def handleDisks {σ : Type} (p : Plugin σ) (_msg : requestMsg) : Plugin σ × Returned :=
  p.call "San.Disks" (p.cb.San.Disks.map fun f => f []) fun p1 r => (p1, .values r.1 r.2)

/-- The arguments of a search callback: `(s.Key, s.Value)` when `len(s.Key) > 0`, none
otherwise. -/
def searchArgs (s : GoValue) : List GoValue :=
  match s.field "Key" with
  | .str key => if key.utf8ByteSize > 0 then [.str key, s.field "Value"] else []
  | _ => []

/-- Go: `handlePools`. -/
def handlePools {σ : Type} (p : Plugin σ) (msg : requestMsg) : Plugin σ × Returned :=
  match jsonDecode msg.Params Shape.search with
  | (_, some uE) => (p, .values .null (some (invalidArgs msg.Method uE)))
  | (s, none) =>
    p.call "Mgmt.Pools" (p.cb.Mgmt.Pools.map fun f => f (searchArgs s))
      fun p1 r => (p1, .values r.1 r.2)

/-- Go: `handleVolumes`. -/
def handleVolumes {σ : Type} (p : Plugin σ) (msg : requestMsg) : Plugin σ × Returned :=
  match jsonDecode msg.Params Shape.search with
  | (_, some uE) => (p, .values .null (some (invalidArgs msg.Method uE)))
  | (s, none) =>
    p.call "San.Volumes" (p.cb.San.Volumes.map fun f => f (searchArgs s))
      fun p1 r => (p1, .values r.1 r.2)

/-- Go: `handleCapabilities`. -/
def handleCapabilities {σ : Type} (p : Plugin σ) (msg : requestMsg) : Plugin σ × Returned :=
  match jsonDecode msg.Params Shape.capArgs with
  | (_, some uE) => (p, .values .null (some (invalidArgs msg.Method uE)))
  | (args, none) =>
    p.call "Mgmt.Capabilities"
      (p.cb.Mgmt.Capabilities.map fun f => f [addressOf (args.field "Sys")])
      fun p1 r => (p1, .values r.1 r.2)

/-- Go: `handleJobStatus`.  A nil `*JobInfo` next to a nil error makes `job.Status`
panic. -/
def handleJobStatus {σ : Type} (p : Plugin σ) (msg : requestMsg) : Plugin σ × Returned :=
  match jsonDecode msg.Params Shape.jobArgs with
  | (_, some uE) => (p, .values .null (some (invalidArgs msg.Method uE)))
  | (args, none) =>
    p.call "Mgmt.JobStatus" (p.cb.Mgmt.JobStatus.map fun f => f [args.field "ID"])
      fun p1 r =>
        match r.2 with
        | some err => (p1, .values .null (some err))
        | none =>
          match r.1 with
          | none => (p1, .panic .nilDereference)
          | some job =>
            (p1, .values (.arr [.num job.Status, .num job.Percent, job.Item]) none)

/-- Go: `handleJobFree`. -/
def handleJobFree {σ : Type} (p : Plugin σ) (msg : requestMsg) : Plugin σ × Returned :=
  match jsonDecode msg.Params Shape.jobArgs with
  | (_, some uE) => (p, .values .null (some (invalidArgs msg.Method uE)))
  | (args, none) =>
    p.call "Mgmt.JobFree" (p.cb.Mgmt.JobFree.map fun f => f [args.field "ID"])
      fun p1 err => (p1, .values .null err)

/-- Go: `handleVolumeCreate`. -/
def handleVolumeCreate {σ : Type} (p : Plugin σ) (msg : requestMsg) : Plugin σ × Returned :=
  match jsonDecode msg.Params Shape.volumeCreateArgs with
  | (_, some uE) => (p, .values .null (some (invalidArgs msg.Method uE)))
  | (args, none) =>
    p.call "San.VolumeCreate"
      (p.cb.San.VolumeCreate.map fun f =>
        f [args.field "Pool", args.field "Name", args.field "SizeBytes",
          args.field "Provisioning"])
      fun p1 r => (p1, exclusiveOr r.1 r.2.1 r.2.2)

/-- Go: `handleVolumeReplicate`. -/
def handleVolumeReplicate {σ : Type} (p : Plugin σ) (msg : requestMsg) :
    Plugin σ × Returned :=
  match jsonDecode msg.Params Shape.volumeReplicateArgs with
  | (_, some uE) => (p, .values .null (some (invalidArgs msg.Method uE)))
  | (args, none) =>
    p.call "San.VolumeReplicate"
      (p.cb.San.VolumeReplicate.map fun f =>
        f [args.field "Pool", args.field "RepType", addressOf (args.field "SrcVol"),
          args.field "Name"])
      fun p1 r => (p1, exclusiveOr r.1 r.2.1 r.2.2)

/-- Go: `handleVolumeReplicateRange`. -/
def handleVolumeReplicateRange {σ : Type} (p : Plugin σ) (msg : requestMsg) :
    Plugin σ × Returned :=
  match jsonDecode msg.Params Shape.volumeReplicateRangeArgs with
  | (_, some uE) => (p, .values .null (some (invalidArgs msg.Method uE)))
  | (a, none) =>
    p.call "San.VolumeReplicateRange"
      (p.cb.San.VolumeReplicateRange.map fun f =>
        f [a.field "RepType", addressOf (a.field "SrcVol"), addressOf (a.field "DstVol"),
          a.field "Ranges"])
      fun p1 r => (p1, .values (jobJson r.1) r.2)

/-- Go: `handleVolRepRangeBlockSize`. -/
def handleVolRepRangeBlockSize {σ : Type} (p : Plugin σ) (msg : requestMsg) :
    Plugin σ × Returned :=
  match jsonDecode msg.Params Shape.repRangeBlockSizeArgs with
  | (_, some uE) => (p, .values .null (some (invalidArgs msg.Method uE)))
  | (a, none) =>
    p.call "San.VolumeRepRangeBlkSize"
      (p.cb.San.VolumeRepRangeBlkSize.map fun f => f [a.field "System"])
      fun p1 r => (p1, .values r.1 r.2)

/-- Go: `handleVolumeResize`; the `fmt.Printf` of the arguments goes to the standard
output of the plugin. -/
def handleVolumeResize {σ : Type} (p : Plugin σ) (msg : requestMsg) : Plugin σ × Returned :=
  match jsonDecode msg.Params Shape.volumeResizeArgs with
  | (_, some uE) => (p, .values .null (some (invalidArgs msg.Method uE)))
  | (a, none) =>
    p.call "San.VolumeResize"
      (p.cb.San.VolumeResize.map fun f => f [a.field "Volume", a.field "Size"])
      fun p1 r => (p1, exclusiveOr r.1 r.2.1 r.2.2)

/-- Go: `handleVolumeEnable`. -/
def handleVolumeEnable {σ : Type} (p : Plugin σ) (msg : requestMsg) : Plugin σ × Returned :=
  match jsonDecode msg.Params Shape.volumeArgument with
  | (_, some uE) => (p, .values .null (some (invalidArgs msg.Method uE)))
  | (args, none) =>
    p.call "San.VolumeEnable" (p.cb.San.VolumeEnable.map fun f => f [args.field "Volume"])
      fun p1 err => (p1, .values .null err)

/-- Go: `handleVolumeDisable`. -/
def handleVolumeDisable {σ : Type} (p : Plugin σ) (msg : requestMsg) : Plugin σ × Returned :=
  match jsonDecode msg.Params Shape.volumeArgument with
  | (_, some uE) => (p, .values .null (some (invalidArgs msg.Method uE)))
  | (args, none) =>
    p.call "San.VolumeDisable" (p.cb.San.VolumeDisable.map fun f => f [args.field "Volume"])
      fun p1 err => (p1, .values .null err)

/-- Go: `handleVolumeDelete`. -/
def handleVolumeDelete {σ : Type} (p : Plugin σ) (msg : requestMsg) : Plugin σ × Returned :=
  match jsonDecode msg.Params Shape.volumeDeleteArgs with
  | (_, some uE) => (p, .values .null (some (invalidArgs msg.Method uE)))
  | (args, none) =>
    p.call "San.VolumeDelete" (p.cb.San.VolumeDelete.map fun f => f [args.field "Volume"])
      fun p1 r => (p1, .values (jobJson r.1) r.2)

/-- Go: `handleVolumeMask`. -/
def handleVolumeMask {σ : Type} (p : Plugin σ) (msg : requestMsg) : Plugin σ × Returned :=
  match jsonDecode msg.Params Shape.maskArgs with
  | (_, some uE) => (p, .values .null (some (invalidArgs msg.Method uE)))
  | (args, none) =>
    p.call "San.VolumeMask"
      (p.cb.San.VolumeMask.map fun f => f [args.field "Vol", args.field "Ag"])
      fun p1 err => (p1, .values .null err)

/-- Go: `handleVolumeUnMask`. -/
def handleVolumeUnMask {σ : Type} (p : Plugin σ) (msg : requestMsg) : Plugin σ × Returned :=
  match jsonDecode msg.Params Shape.maskArgs with
  | (_, some uE) => (p, .values .null (some (invalidArgs msg.Method uE)))
  | (args, none) =>
    p.call "San.VolumeUnMask"
      (p.cb.San.VolumeUnMask.map fun f => f [args.field "Vol", args.field "Ag"])
      fun p1 err => (p1, .values .null err)

/-- Go: `handleVolsMaskedToAg`. -/
def handleVolsMaskedToAg {σ : Type} (p : Plugin σ) (msg : requestMsg) :
    Plugin σ × Returned :=
  match jsonDecode msg.Params Shape.argsAg with
  | (_, some uE) => (p, .values .null (some (invalidArgs msg.Method uE)))
  | (args, none) =>
    p.call "San.VolsMaskedToAg" (p.cb.San.VolsMaskedToAg.map fun f => f [args.field "Ag"])
      fun p1 r => (p1, .values r.1 r.2)

/-- Go: `handleAccessGroups`. -/
def handleAccessGroups {σ : Type} (p : Plugin σ) (_msg : requestMsg) : Plugin σ × Returned :=
  p.call "San.AccessGroups" (p.cb.San.AccessGroups.map fun f => f [])
    fun p1 r => (p1, .values r.1 r.2)

/-- Go: `handleAccessGroupCreate`. -/
def handleAccessGroupCreate {σ : Type} (p : Plugin σ) (msg : requestMsg) :
    Plugin σ × Returned :=
  match jsonDecode msg.Params Shape.agCreateArgs with
  | (_, some uE) => (p, .values .null (some (invalidArgs msg.Method uE)))
  | (args, none) =>
    p.call "San.AccessGroupCreate"
      (p.cb.San.AccessGroupCreate.map fun f =>
        f [args.field "Name", args.field "InitID", args.field "InitType",
          args.field "System"])
      fun p1 r => (p1, .values r.1 r.2)

/-- Go: `handleAccessGroupDelete`. -/
def handleAccessGroupDelete {σ : Type} (p : Plugin σ) (msg : requestMsg) :
    Plugin σ × Returned :=
  match jsonDecode msg.Params Shape.agDeleteArgs with
  | (_, some uE) => (p, .values .null (some (invalidArgs msg.Method uE)))
  | (args, none) =>
    p.call "San.AccessGroupDelete"
      (p.cb.San.AccessGroupDelete.map fun f => f [args.field "Ag"])
      fun p1 err => (p1, .values .null err)

/-- Go: `handleAccessGroupInitAdd`. -/
def handleAccessGroupInitAdd {σ : Type} (p : Plugin σ) (msg : requestMsg) :
    Plugin σ × Returned :=
  match jsonDecode msg.Params Shape.accessGroupInitArgs with
  | (_, some uE) => (p, .values .null (some (invalidArgs msg.Method uE)))
  | (args, none) =>
    p.call "San.AccessGroupInitAdd"
      (p.cb.San.AccessGroupInitAdd.map fun f =>
        f [args.field "Ag", args.field "ID", args.field "InitType"])
      fun p1 r => (p1, .values r.1 r.2)

/-- Go: `handleAccessGroupInitDelete`. -/
def handleAccessGroupInitDelete {σ : Type} (p : Plugin σ) (msg : requestMsg) :
    Plugin σ × Returned :=
  match jsonDecode msg.Params Shape.accessGroupInitArgs with
  | (_, some uE) => (p, .values .null (some (invalidArgs msg.Method uE)))
  | (args, none) =>
    p.call "San.AccessGroupInitDelete"
      (p.cb.San.AccessGroupInitDelete.map fun f =>
        f [args.field "Ag", args.field "ID", args.field "InitType"])
      fun p1 r => (p1, .values r.1 r.2)

/-- Go: `handleAgsGrantedToVol`. -/
def handleAgsGrantedToVol {σ : Type} (p : Plugin σ) (msg : requestMsg) :
    Plugin σ × Returned :=
  match jsonDecode msg.Params Shape.argsVol with
  | (_, some uE) => (p, .values .null (some (invalidArgs msg.Method uE)))
  | (args, none) =>
    p.call "San.AgsGrantedToVol" (p.cb.San.AgsGrantedToVol.map fun f => f [args.field "Vol"])
      fun p1 r => (p1, .values r.1 r.2)

/-- Go: `handleIscsiChapAuthSet`. -/
def handleIscsiChapAuthSet {σ : Type} (p : Plugin σ) (msg : requestMsg) :
    Plugin σ × Returned :=
  match jsonDecode msg.Params Shape.argsIscsi with
  | (_, some uE) => (p, .values .null (some (invalidArgs msg.Method uE)))
  | (args, none) =>
    p.call "San.IscsiChapAuthSet"
      (p.cb.San.IscsiChapAuthSet.map fun f =>
        f [args.field "InitID", args.field "InUser", args.field "InPassword",
          args.field "OutUser", args.field "OutPassword"])
      fun p1 err => (p1, .values .null err)

/-- Go: `handleVolHasChildDep`. -/
def handleVolHasChildDep {σ : Type} (p : Plugin σ) (msg : requestMsg) :
    Plugin σ × Returned :=
  match jsonDecode msg.Params Shape.volumeArg with
  | (_, some uE) => (p, .values .null (some (invalidArgs msg.Method uE)))
  | (args, none) =>
    p.call "San.VolHasChildDep" (p.cb.San.VolHasChildDep.map fun f => f [args.field "Vol"])
      fun p1 r => (p1, .values r.1 r.2)

/-- Go: `handleVolChildDepRm`. -/
def handleVolChildDepRm {σ : Type} (p : Plugin σ) (msg : requestMsg) : Plugin σ × Returned :=
  match jsonDecode msg.Params Shape.volumeArg with
  | (_, some uE) => (p, .values .null (some (invalidArgs msg.Method uE)))
  | (args, none) =>
    p.call "San.VolChildDepRm" (p.cb.San.VolChildDepRm.map fun f => f [args.field "Vol"])
      fun p1 r => (p1, .values (jobJson r.1) r.2)

/-- Go: `handleTargetPorts`. -/
def handleTargetPorts {σ : Type} (p : Plugin σ) (_msg : requestMsg) : Plugin σ × Returned :=
  p.call "San.TargetPorts" (p.cb.San.TargetPorts.map fun f => f [])
    fun p1 r => (p1, .values r.1 r.2)

/-- Go: `handleVolIdentLedOn`. -/
def handleVolIdentLedOn {σ : Type} (p : Plugin σ) (msg : requestMsg) : Plugin σ × Returned :=
  match jsonDecode msg.Params Shape.volumeArg with
  | (_, some uE) => (p, .values .null (some (invalidArgs msg.Method uE)))
  | (args, none) =>
    p.call "San.VolIdentLedOn" (p.cb.San.VolIdentLedOn.map fun f => f [args.field "Vol"])
      fun p1 err => (p1, .values .null err)

/-- Go: `handleVolIdentLedOff`. -/
def handleVolIdentLedOff {σ : Type} (p : Plugin σ) (msg : requestMsg) :
    Plugin σ × Returned :=
  match jsonDecode msg.Params Shape.volumeArg with
  | (_, some uE) => (p, .values .null (some (invalidArgs msg.Method uE)))
  | (args, none) =>
    p.call "San.VolIdentLedOff" (p.cb.San.VolIdentLedOff.map fun f => f [args.field "Vol"])
      fun p1 err => (p1, .values .null err)
/-- The specified file system was not found. -/
def errors.NotFoundFs : Int := 201

/-- The JSON form of a slice: `null` for the nil slice. -/
def sliceJson : Option (List Json) → Json
  | none => .null
  | some items => .arr items

/-- Go: `handleFs`. -/
def handleFs {σ : Type} (p : Plugin σ) (msg : requestMsg) : Plugin σ × Returned :=
  match jsonDecode msg.Params Shape.search with
  | (_, some uE) => (p, .values .null (some (invalidArgs msg.Method uE)))
  | (s, none) =>
    p.call "File.FileSystems" (p.cb.File.FileSystems.map fun f => f (searchArgs s))
      fun p1 r => (p1, .values (sliceJson r.1) r.2)

/-- Go: `handleFsCreate`. -/
def handleFsCreate {σ : Type} (p : Plugin σ) (msg : requestMsg) : Plugin σ × Returned :=
  match jsonDecode msg.Params Shape.fsCreateArgs with
  | (_, some uE) => (p, .values .null (some (invalidArgs msg.Method uE)))
  | (args, none) =>
    p.call "File.FsCreate"
      (p.cb.File.FsCreate.map fun f =>
        f [args.field "Pool", args.field "Name", args.field "SizeBytes"])
      fun p1 r => (p1, exclusiveOr r.1 r.2.1 r.2.2)

/-- Go: `handleFsDelete`. -/
def handleFsDelete {σ : Type} (p : Plugin σ) (msg : requestMsg) : Plugin σ × Returned :=
  match jsonDecode msg.Params Shape.fsDeleteArgs with
  | (_, some uE) => (p, .values .null (some (invalidArgs msg.Method uE)))
  | (args, none) =>
    p.call "File.FsDelete" (p.cb.File.FsDelete.map fun f => f [args.field "Fs"])
      fun p1 r => (p1, .values (jobJson r.1) r.2)

/-- Go: `handleFsResize`. -/
def handleFsResize {σ : Type} (p : Plugin σ) (msg : requestMsg) : Plugin σ × Returned :=
  match jsonDecode msg.Params Shape.fsResizeArgs with
  | (_, some uE) => (p, .values .null (some (invalidArgs msg.Method uE)))
  | (args, none) =>
    p.call "File.FsResize"
      (p.cb.File.FsResize.map fun f => f [args.field "Fs", args.field "Size"])
      fun p1 r => (p1, exclusiveOr r.1 r.2.1 r.2.2)

/-- Go: `handleFsClone`. -/
def handleFsClone {σ : Type} (p : Plugin σ) (msg : requestMsg) : Plugin σ × Returned :=
  match jsonDecode msg.Params Shape.fsCloneArgs with
  | (_, some uE) => (p, .values .null (some (invalidArgs msg.Method uE)))
  | (args, none) =>
    p.call "File.FsClone"
      (p.cb.File.FsClone.map fun f => f [args.field "Fs", args.field "Name", args.field "Ss"])
      fun p1 r => (p1, exclusiveOr r.1 r.2.1 r.2.2)

/-- Go: `handleFsFileClone`. -/
def handleFsFileClone {σ : Type} (p : Plugin σ) (msg : requestMsg) : Plugin σ × Returned :=
  match jsonDecode msg.Params Shape.fsFileCloneArgs with
  | (_, some uE) => (p, .values .null (some (invalidArgs msg.Method uE)))
  | (args, none) =>
    p.call "File.FsFileClone"
      (p.cb.File.FsFileClone.map fun f =>
        f [args.field "Fs", args.field "Src", args.field "Dst", args.field "Ss"])
      fun p1 r => (p1, .values (jobJson r.1) r.2)

/-- Go: `handleFsSnapShotCreate`. -/
def handleFsSnapShotCreate {σ : Type} (p : Plugin σ) (msg : requestMsg) :
    Plugin σ × Returned :=
  match jsonDecode msg.Params Shape.fsSnapShotCreateArgs with
  | (_, some uE) => (p, .values .null (some (invalidArgs msg.Method uE)))
  | (args, none) =>
    p.call "File.FsSnapShotCreate"
      (p.cb.File.FsSnapShotCreate.map fun f => f [args.field "Fs", args.field "Name"])
      fun p1 r => (p1, exclusiveOr r.1 r.2.1 r.2.2)

/-- Go: `handleFsSnapShotDelete`. -/
def handleFsSnapShotDelete {σ : Type} (p : Plugin σ) (msg : requestMsg) :
    Plugin σ × Returned :=
  match jsonDecode msg.Params Shape.fsSnapShotDeleteArgs with
  | (_, some uE) => (p, .values .null (some (invalidArgs msg.Method uE)))
  | (args, none) =>
    p.call "File.FsSnapShotDelete"
      (p.cb.File.FsSnapShotDelete.map fun f => f [args.field "Fs", args.field "Ss"])
      fun p1 r => (p1, .values (jobJson r.1) r.2)

/-- Go: `handleFsSnapShots`. -/
def handleFsSnapShots {σ : Type} (p : Plugin σ) (msg : requestMsg) : Plugin σ × Returned :=
  match jsonDecode msg.Params Shape.fsSnapShotArgs with
  | (_, some uE) => (p, .values .null (some (invalidArgs msg.Method uE)))
  | (args, none) =>
    p.call "File.FsSnapShots" (p.cb.File.FsSnapShots.map fun f => f [args.field "Fs"])
      fun p1 r => (p1, .values r.1 r.2)

/-- Go: `handleFsSnapShotRestore`. -/
def handleFsSnapShotRestore {σ : Type} (p : Plugin σ) (msg : requestMsg) :
    Plugin σ × Returned :=
  match jsonDecode msg.Params Shape.fsSnapShotRestoreArgs with
  | (_, some uE) => (p, .values .null (some (invalidArgs msg.Method uE)))
  | (args, none) =>
    p.call "File.FsSnapShotRestore"
      (p.cb.File.FsSnapShotRestore.map fun f =>
        f [args.field "Fs", args.field "Ss", args.field "All", args.field "Files",
          args.field "RestoreFiles"])
      fun p1 r => (p1, .values (jobJson r.1) r.2)

/-- Go: `handleFsHasChildDep`. -/
def handleFsHasChildDep {σ : Type} (p : Plugin σ) (msg : requestMsg) : Plugin σ × Returned :=
  match jsonDecode msg.Params Shape.fsHasChildDepsArgs with
  | (_, some uE) => (p, .values .null (some (invalidArgs msg.Method uE)))
  | (args, none) =>
    p.call "File.FsHasChildDep"
      (p.cb.File.FsHasChildDep.map fun f => f [args.field "Fs", args.field "Files"])
      fun p1 r => (p1, .values r.1 r.2)

/-- Go: `handleFsChildDepRm`. -/
def handleFsChildDepRm {σ : Type} (p : Plugin σ) (msg : requestMsg) : Plugin σ × Returned :=
  match jsonDecode msg.Params Shape.fsHasChildDepsArgs with
  | (_, some uE) => (p, .values .null (some (invalidArgs msg.Method uE)))
  | (args, none) =>
    p.call "File.FsChildDepRm"
      (p.cb.File.FsChildDepRm.map fun f => f [args.field "Fs", args.field "Files"])
      fun p1 r => (p1, .values (jobJson r.1) r.2)

/-- Go: `handleNfsExports`. -/
def handleNfsExports {σ : Type} (p : Plugin σ) (msg : requestMsg) : Plugin σ × Returned :=
  match jsonDecode msg.Params Shape.search with
  | (_, some uE) => (p, .values .null (some (invalidArgs msg.Method uE)))
  | (s, none) =>
    p.call "Nfs.Exports" (p.cb.Nfs.Exports.map fun f => f (searchArgs s))
      fun p1 r => (p1, .values r.1 r.2)

/-- The `NfsAccess` value `handleExportFs` builds from its arguments. -/
def nfsAccess (a : GoValue) : GoValue :=
  .struct [("Root", a.field "Root"), ("Rw", a.field "Rw"), ("Ro", a.field "Ro"),
    ("AnonUID", a.field "AnonUID"), ("AnonGID", a.field "AnonGID")]

/-- Go: `handleExportFs`.  `*a.FsID` is evaluated before `FileSystems` is called and
panics when `fs_id` was null or absent.  The file system handed to `FsExport` is given
by its JSON form. -/
def handleExportFs {σ : Type} (p : Plugin σ) (msg : requestMsg) : Plugin σ × Returned :=
  match jsonDecode msg.Params Shape.exportArgs with
  | (_, some uE) => (p, .values .null (some (invalidArgs msg.Method uE)))
  | (a, none) =>
    match a.field "FsID" with
    | .ref (.str fsID) =>
      p.call "File.FileSystems" (p.cb.File.FileSystems.map fun f => f [.str "id", .str fsID])
        fun p1 r =>
          match r.2 with
          | some err => (p1, .values .null (some err))
          | none =>
            match r.1.getD [] with
            | [fs] =>
              p1.call "Nfs.FsExport"
                (p1.cb.Nfs.FsExport.map fun f =>
                  f [addressOf (.given fs), a.field "Path", addressOf (nfsAccess a),
                    a.field "AuthType", a.field "Options"])
                fun p2 x => (p2, .values x.1 x.2)
            | fss =>
              (p1, .values .null (some (.lsm ⟨errors.NotFoundFs,
                "file system with ID=" ++ fsID ++ " not found " ++ toString fss.length ++ "!",
                ""⟩)))
    | _ => (p, .panic .nilDereference)

/-- Go: `handleFsUnexport`. -/
def handleFsUnexport {σ : Type} (p : Plugin σ) (msg : requestMsg) : Plugin σ × Returned :=
  match jsonDecode msg.Params Shape.unexportArgs with
  | (_, some uE) => (p, .values .null (some (invalidArgs msg.Method uE)))
  | (args, none) =>
    p.call "Nfs.FsUnExport" (p.cb.Nfs.FsUnExport.map fun f => f [args.field "Export"])
      fun p1 err => (p1, .values .null err)

/-- Go: `handleExportAuthTypes`. -/
def handleExportAuthTypes {σ : Type} (p : Plugin σ) (_msg : requestMsg) :
    Plugin σ × Returned :=
  p.call "Nfs.ExportAuthTypes" (p.cb.Nfs.ExportAuthTypes.map fun f => f [])
    fun p1 r => (p1, .values r.1 r.2)

/-- Go: `handleVolRaidCreate`. -/
def handleVolRaidCreate {σ : Type} (p : Plugin σ) (msg : requestMsg) : Plugin σ × Returned :=
  match jsonDecode msg.Params Shape.volRaidCreateArgs with
  | (_, some uE) => (p, .values .null (some (invalidArgs msg.Method uE)))
  | (args, none) =>
    p.call "Hba.VolRaidCreate"
      (p.cb.Hba.VolRaidCreate.map fun f =>
        f [args.field "Name", args.field "Type", args.field "Disks", args.field "StripSize"])
      fun p1 r => (p1, .values r.1 r.2)

/-- Go: `handleVolRaidCreateCapGet`.  A nil result next to a nil error makes
`result.Types` panic. -/
def handleVolRaidCreateCapGet {σ : Type} (p : Plugin σ) (msg : requestMsg) :
    Plugin σ × Returned :=
  match jsonDecode msg.Params Shape.volRaidCreateCapGetArgs with
  | (_, some uE) => (p, .values .null (some (invalidArgs msg.Method uE)))
  | (args, none) =>
    p.call "Hba.VolRaidCreateCapGet"
      (p.cb.Hba.VolRaidCreateCapGet.map fun f => f [args.field "Sys"])
      fun p1 r =>
        match r.2 with
        | some err => (p1, .values .null (some err))
        | none =>
          match r.1 with
          | none => (p1, .panic .nilDereference)
          | some result => (p1, .values (.arr [result.Types, result.StripeSizes]) none)

/-- Go: `handlePoolMemberInfo`. -/
def handlePoolMemberInfo {σ : Type} (p : Plugin σ) (msg : requestMsg) :
    Plugin σ × Returned :=
  match jsonDecode msg.Params Shape.poolMemberInfoArgs with
  | (_, some uE) => (p, .values .null (some (invalidArgs msg.Method uE)))
  | (args, none) =>
    p.call "Hba.PoolMemberInfo" (p.cb.Hba.PoolMemberInfo.map fun f => f [args.field "Pool"])
      fun p1 r =>
        match r.2 with
        | some err => (p1, .values .null (some err))
        | none =>
          match r.1 with
          | none => (p1, .panic .nilDereference)
          | some result =>
            (p1, .values (.arr [.num result.Raid, .num result.Member, result.ID]) none)

/-- Go: `handleVolRaidInfo`; the five values are converted to `int32`. -/
def handleVolRaidInfo {σ : Type} (p : Plugin σ) (msg : requestMsg) : Plugin σ × Returned :=
  match jsonDecode msg.Params Shape.volRaidInfoArgs with
  | (_, some uE) => (p, .values .null (some (invalidArgs msg.Method uE)))
  | (args, none) =>
    p.call "Hba.VolRaidInfo" (p.cb.Hba.VolRaidInfo.map fun f => f [args.field "Volume"])
      fun p1 r =>
        match r.2 with
        | some err => (p1, .values .null (some err))
        | none =>
          match r.1 with
          | none => (p1, .panic .nilDereference)
          | some result =>
            (p1, .values (.arr [.num (toInt32 result.Type'), .num (toInt32 result.StripSize),
              .num (toInt32 result.DiskCount), .num (toInt32 result.MinIOSize),
              .num (toInt32 result.OptIOSize)]) none)

/-- Go: `handleBatteries`. -/
def handleBatteries {σ : Type} (p : Plugin σ) (_msg : requestMsg) : Plugin σ × Returned :=
  p.call "Hba.Batteries" (p.cb.Hba.Batteries.map fun f => f [])
    fun p1 r => (p1, .values r.1 r.2)

/-- Go: `handleSystemReadCachePctSet`. -/
def handleSystemReadCachePctSet {σ : Type} (p : Plugin σ) (msg : requestMsg) :
    Plugin σ × Returned :=
  match jsonDecode msg.Params Shape.sysReadCachePctArgs with
  | (_, some uE) => (p, .values .null (some (invalidArgs msg.Method uE)))
  | (args, none) =>
    p.call "Cache.SysReadCachePctSet"
      (p.cb.Cache.SysReadCachePctSet.map fun f => f [args.field "System", args.field "Percent"])
      fun p1 err => (p1, .values .null err)

/-- Go: `handleVolCacheInfo`. -/
def handleVolCacheInfo {σ : Type} (p : Plugin σ) (msg : requestMsg) : Plugin σ × Returned :=
  match jsonDecode msg.Params Shape.volCacheInfoArgs with
  | (_, some uE) => (p, .values .null (some (invalidArgs msg.Method uE)))
  | (args, none) =>
    p.call "Cache.VolCacheInfo" (p.cb.Cache.VolCacheInfo.map fun f => f [args.field "Volume"])
      fun p1 r =>
        match r.2 with
        | some err => (p1, .values .null (some err))
        | none =>
          match r.1 with
          | none => (p1, .panic .nilDereference)
          | some info =>
            (p1, .values (.arr [.num info.WriteSetting, .num info.WriteStatus,
              .num info.ReadSetting, .num info.ReadStatus, .num info.PhysicalDiskStatus]) none)

/-- Go: `handleVolPhyDiskCacheSet`. -/
def handleVolPhyDiskCacheSet {σ : Type} (p : Plugin σ) (msg : requestMsg) :
    Plugin σ × Returned :=
  match jsonDecode msg.Params Shape.volPhyDiskCacheSetArgs with
  | (_, some uE) => (p, .values .null (some (invalidArgs msg.Method uE)))
  | (args, none) =>
    p.call "Cache.VolPhyDiskCacheSet"
      (p.cb.Cache.VolPhyDiskCacheSet.map fun f => f [args.field "Volume", args.field "Pdc"])
      fun p1 err => (p1, .values .null err)

/-- Go: `handleVolWriteCacheSet`. -/
def handleVolWriteCacheSet {σ : Type} (p : Plugin σ) (msg : requestMsg) :
    Plugin σ × Returned :=
  match jsonDecode msg.Params Shape.volWriteCacheSetArgs with
  | (_, some uE) => (p, .values .null (some (invalidArgs msg.Method uE)))
  | (args, none) =>
    p.call "Cache.VolWriteCacheSet"
      (p.cb.Cache.VolWriteCacheSet.map fun f => f [args.field "Volume", args.field "Wcp"])
      fun p1 err => (p1, .values .null err)

/-- Go: `handleVolReadCacheSet`. -/
def handleVolReadCacheSet {σ : Type} (p : Plugin σ) (msg : requestMsg) :
    Plugin σ × Returned :=
  match jsonDecode msg.Params Shape.volReadCacheSetArgs with
  | (_, some uE) => (p, .values .null (some (invalidArgs msg.Method uE)))
  | (args, none) =>
    p.call "Cache.VolReadCacheSet"
      (p.cb.Cache.VolReadCacheSet.map fun f => f [args.field "Volume", args.field "Rcp"])
      fun p1 err => (p1, .values .null err)
/-- The handler as a function: what calling this `handler` value does. -/
def Handler.run {σ : Type} : Handler → Plugin σ → requestMsg → Plugin σ × Returned
  | .handlePluginInfo => Lsm.handlePluginInfo
  | .handleRegister => Lsm.handleRegister
  | .handleUnRegister => Lsm.handleUnRegister
  | .handleSystems => Lsm.handleSystems
  | .handleCapabilities => Lsm.handleCapabilities
  | .handleTmoSet => Lsm.handleTmoSet
  | .handleTmoGet => Lsm.handleTmoGet
  | .handlePools => Lsm.handlePools
  | .handleJobStatus => Lsm.handleJobStatus
  | .handleJobFree => Lsm.handleJobFree
  | .handleVolumeCreate => Lsm.handleVolumeCreate
  | .handleVolumeDelete => Lsm.handleVolumeDelete
  | .handleVolumes => Lsm.handleVolumes
  | .handleDisks => Lsm.handleDisks
  | .handleVolumeReplicate => Lsm.handleVolumeReplicate
  | .handleVolumeReplicateRange => Lsm.handleVolumeReplicateRange
  | .handleVolRepRangeBlockSize => Lsm.handleVolRepRangeBlockSize
  | .handleVolumeResize => Lsm.handleVolumeResize
  | .handleVolumeEnable => Lsm.handleVolumeEnable
  | .handleVolumeDisable => Lsm.handleVolumeDisable
  | .handleVolumeMask => Lsm.handleVolumeMask
  | .handleVolumeUnMask => Lsm.handleVolumeUnMask
  | .handleVolHasChildDep => Lsm.handleVolHasChildDep
  | .handleVolChildDepRm => Lsm.handleVolChildDepRm
  | .handleVolsMaskedToAg => Lsm.handleVolsMaskedToAg
  | .handleAccessGroups => Lsm.handleAccessGroups
  | .handleAccessGroupCreate => Lsm.handleAccessGroupCreate
  | .handleAccessGroupDelete => Lsm.handleAccessGroupDelete
  | .handleAccessGroupInitAdd => Lsm.handleAccessGroupInitAdd
  | .handleAccessGroupInitDelete => Lsm.handleAccessGroupInitDelete
  | .handleAgsGrantedToVol => Lsm.handleAgsGrantedToVol
  | .handleIscsiChapAuthSet => Lsm.handleIscsiChapAuthSet
  | .handleTargetPorts => Lsm.handleTargetPorts
  | .handleVolIdentLedOn => Lsm.handleVolIdentLedOn
  | .handleVolIdentLedOff => Lsm.handleVolIdentLedOff
  | .handleFs => Lsm.handleFs
  | .handleFsCreate => Lsm.handleFsCreate
  | .handleFsDelete => Lsm.handleFsDelete
  | .handleFsResize => Lsm.handleFsResize
  | .handleFsClone => Lsm.handleFsClone
  | .handleFsFileClone => Lsm.handleFsFileClone
  | .handleFsSnapShotCreate => Lsm.handleFsSnapShotCreate
  | .handleFsSnapShotDelete => Lsm.handleFsSnapShotDelete
  | .handleFsSnapShots => Lsm.handleFsSnapShots
  | .handleFsSnapShotRestore => Lsm.handleFsSnapShotRestore
  | .handleFsHasChildDep => Lsm.handleFsHasChildDep
  | .handleFsChildDepRm => Lsm.handleFsChildDepRm
  | .handleNfsExports => Lsm.handleNfsExports
  | .handleExportFs => Lsm.handleExportFs
  | .handleFsUnexport => Lsm.handleFsUnexport
  | .handleExportAuthTypes => Lsm.handleExportAuthTypes
  | .handleVolRaidCreate => Lsm.handleVolRaidCreate
  | .handleVolRaidCreateCapGet => Lsm.handleVolRaidCreateCapGet
  | .handlePoolMemberInfo => Lsm.handlePoolMemberInfo
  | .handleVolRaidInfo => Lsm.handleVolRaidInfo
  | .handleBatteries => Lsm.handleBatteries
  | .handleSystemReadCachePctSet => Lsm.handleSystemReadCachePctSet
  | .handleVolCacheInfo => Lsm.handleVolCacheInfo
  | .handleVolPhyDiskCacheSet => Lsm.handleVolPhyDiskCacheSet
  | .handleVolWriteCacheSet => Lsm.handleVolWriteCacheSet
  | .handleVolReadCacheSet => Lsm.handleVolReadCacheSet

/-- Go: `nilAssign(present, cb)`.  `present` is a callback wrapped in an interface, so
`present == nil || reflect.ValueOf(present).IsNil()` holds exactly for a nil callback. -/
def nilAssign {α : Type} (present : Option α) (cb : Handler) : Option Handler :=
  match present with
  | none => none
  | some _ => some cb

/-- Go: `buildTable(c)`; a nil entry of the map is `none`. -/
def buildTable {σ : Type} (c : PluginCallBacks σ) : List (String × Option Handler) :=
  [("plugin_info", some .handlePluginInfo),
    ("plugin_register", nilAssign c.Mgmt.PluginRegister .handleRegister),
    ("plugin_unregister", nilAssign c.Mgmt.PluginUnregister .handleUnRegister),
    ("systems", nilAssign c.Mgmt.Systems .handleSystems),
    ("capabilities", nilAssign c.Mgmt.Capabilities .handleCapabilities),
    ("time_out_set", nilAssign c.Mgmt.TimeOutSet .handleTmoSet),
    ("time_out_get", nilAssign c.Mgmt.TimeOutGet .handleTmoGet),
    ("pools", nilAssign c.Mgmt.Pools .handlePools),
    ("job_status", nilAssign c.Mgmt.JobStatus .handleJobStatus),
    ("job_free", nilAssign c.Mgmt.JobFree .handleJobFree),
    ("volume_create", nilAssign c.San.VolumeCreate .handleVolumeCreate),
    ("volume_delete", nilAssign c.San.VolumeDelete .handleVolumeDelete),
    ("volumes", nilAssign c.San.Volumes .handleVolumes),
    ("disks", nilAssign c.San.Disks .handleDisks),
    ("volume_replicate", nilAssign c.San.VolumeReplicate .handleVolumeReplicate),
    ("volume_replicate_range",
      nilAssign c.San.VolumeReplicateRange .handleVolumeReplicateRange),
    ("volume_replicate_range_block_size",
      nilAssign c.San.VolumeRepRangeBlkSize .handleVolRepRangeBlockSize),
    ("volume_resize", nilAssign c.San.VolumeResize .handleVolumeResize),
    ("volume_enable", nilAssign c.San.VolumeEnable .handleVolumeEnable),
    ("volume_disable", nilAssign c.San.VolumeDisable .handleVolumeDisable),
    ("volume_mask", nilAssign c.San.VolumeMask .handleVolumeMask),
    ("volume_unmask", nilAssign c.San.VolumeUnMask .handleVolumeUnMask),
    ("volume_child_dependency", nilAssign c.San.VolHasChildDep .handleVolHasChildDep),
    ("volume_child_dependency_rm", nilAssign c.San.VolChildDepRm .handleVolChildDepRm),
    ("volumes_accessible_by_access_group",
      nilAssign c.San.VolsMaskedToAg .handleVolsMaskedToAg),
    ("access_groups", nilAssign c.San.AccessGroups .handleAccessGroups),
    ("access_group_create", nilAssign c.San.AccessGroupCreate .handleAccessGroupCreate),
    ("access_group_delete", nilAssign c.San.AccessGroupDelete .handleAccessGroupDelete),
    ("access_group_initiator_add",
      nilAssign c.San.AccessGroupInitAdd .handleAccessGroupInitAdd),
    ("access_group_initiator_delete",
      nilAssign c.San.AccessGroupInitDelete .handleAccessGroupInitDelete),
    ("access_groups_granted_to_volume",
      nilAssign c.San.AgsGrantedToVol .handleAgsGrantedToVol),
    ("iscsi_chap_auth", nilAssign c.San.IscsiChapAuthSet .handleIscsiChapAuthSet),
    ("target_ports", nilAssign c.San.TargetPorts .handleTargetPorts),
    ("volume_ident_led_on", nilAssign c.San.VolIdentLedOn .handleVolIdentLedOn),
    ("volume_ident_led_off", nilAssign c.San.VolIdentLedOn .handleVolIdentLedOff),
    ("fs", nilAssign c.File.FileSystems .handleFs),
    ("fs_create", nilAssign c.File.FsCreate .handleFsCreate),
    ("fs_delete", nilAssign c.File.FsDelete .handleFsDelete),
    ("fs_resize", nilAssign c.File.FsResize .handleFsResize),
    ("fs_clone", nilAssign c.File.FsClone .handleFsClone),
    ("fs_file_clone", nilAssign c.File.FsFileClone .handleFsFileClone),
    ("fs_snapshot_create", nilAssign c.File.FsSnapShotCreate .handleFsSnapShotCreate),
    ("fs_snapshot_delete", nilAssign c.File.FsSnapShotDelete .handleFsSnapShotDelete),
    ("fs_snapshots", nilAssign c.File.FsSnapShots .handleFsSnapShots),
    ("fs_snapshot_restore", nilAssign c.File.FsSnapShotRestore .handleFsSnapShotRestore),
    ("fs_child_dependency", nilAssign c.File.FsHasChildDep .handleFsHasChildDep),
    ("fs_child_dependency_rm", nilAssign c.File.FsChildDepRm .handleFsChildDepRm),
    ("exports", nilAssign c.Nfs.Exports .handleNfsExports),
    ("export_fs", nilAssign c.Nfs.FsExport .handleExportFs),
    ("export_remove", nilAssign c.Nfs.FsUnExport .handleFsUnexport),
    ("export_auth", nilAssign c.Nfs.ExportAuthTypes .handleExportAuthTypes),
    ("volume_raid_create", nilAssign c.Hba.VolRaidCreate .handleVolRaidCreate),
    ("volume_raid_create_cap_get",
      nilAssign c.Hba.VolRaidCreateCapGet .handleVolRaidCreateCapGet),
    ("pool_member_info", nilAssign c.Hba.PoolMemberInfo .handlePoolMemberInfo),
    ("volume_raid_info", nilAssign c.Hba.VolRaidInfo .handleVolRaidInfo),
    ("batteries", nilAssign c.Hba.Batteries .handleBatteries),
    ("system_read_cache_pct_update",
      nilAssign c.Cache.SysReadCachePctSet .handleSystemReadCachePctSet),
    ("volume_cache_info", nilAssign c.Cache.VolCacheInfo .handleVolCacheInfo),
    ("volume_physical_disk_cache_update",
      nilAssign c.Cache.VolPhyDiskCacheSet .handleVolPhyDiskCacheSet),
    ("volume_write_cache_policy_update",
      nilAssign c.Cache.VolWriteCacheSet .handleVolWriteCacheSet),
    ("volume_read_cache_policy_update",
      nilAssign c.Cache.VolReadCacheSet .handleVolReadCacheSet)]

/-! ## Plugin side: `ipc.go` and `plugin.go`, serving requests -/

/-- Go: `transPort.readRequest`. -/
def transPort.readRequest (t : Port) : Port × Except GoError requestMsg :=
  match t.recv with
  | (t1, .readError requestError) =>
    (t1, .error (commError ("Error reading from unix domain socket " ++ requestError ++ "\n")))
  | (t1, .headerError requestError) =>
    (t1, .error (commError ("Error reading from unix domain socket " ++ requestError ++ "\n")))
  | (t1, .frame _ (.error requestUnmarsal)) =>
    (t1, .error (.lsm ⟨errors.TransPortInvalidArg,
      "Unparsable request from client " ++ requestUnmarsal ++ "\n", ""⟩))
  | (t1, .frame _ (.ok j)) =>
    match requestMsg.store j requestMsg.zero with
    | (_, some requestUnmarsal) =>
      (t1, .error (.lsm ⟨errors.TransPortInvalidArg,
        "Unparsable request from client " ++ requestUnmarsal.Error ++ "\n", ""⟩))
    | (what, none) => (t1, .ok what)

/-- Go: `transPort.sendIt`, for a message that is serialized already. -/
def transPort.sendIt (t : Port) (msg : Outgoing) : Port × Option GoError :=
  match t.send msg with
  | (t1, some sendError) =>
    (t1, some (commError ("Error writing to unix domain socket " ++ sendError ++ "\n")))
  | (t1, none) => (t1, none)

/-- Go: `transPort.sendResponse(response)`; the response is a JSON value already, so
`json.Marshal(msg)` cannot fail. -/
def transPort.sendResponse (t : Port) (response : Json) : Port × Option GoError :=
  transPort.sendIt t (.response response)

/-- Go: `transPort.sendError(err)`. -/
def transPort.sendError (t : Port) (err : GoError) : Port × Option GoError :=
  transPort.sendIt t (.failure err)

/-- Go: `transPort.close`: `t.uds.Close()`. -/
def transPort.close (t : Port) : Port := { t with trace := t.trace ++ [.closed] }

/-- Go: `noSupport(tp, method)`. -/
def noSupport (tp : Port) (method : String) : Port :=
  (transPort.sendError tp
    (.lsm ⟨errors.NoSupport, "method " ++ method ++ " not supported", ""⟩)).1

/-- How `Plugin.Run` ends: a communication error of `readRequest`, an error that is no
`LsmError`, the teardown after `plugin_unregister` (the connection is closed), or a
panic in a handler, which ends the process. -/
inductive RunEnd
  | communication (lsmError : LsmError)
  | unexpected (err : GoError)
  | unregistered
  | panicked (p : Panic)
  deriving DecidableEq, Repr

/-- Go: `(*Plugin).Run`.  `fuel` bounds the number of rounds of the loop; the second
component is `none` when the loop is still running after `fuel` rounds.  The messages
of `fmt.Printf` go to the standard output of the plugin. -/
def Plugin.Run {σ : Type} : Nat → Plugin σ → Plugin σ × Option RunEnd
  | 0, p => (p, none)
  | fuel + 1, p =>
    match transPort.readRequest p.tp with
    | (t1, .error (.lsm lsmError)) =>
      if lsmError.Code ≠ errors.TransPortComunication then
        Plugin.Run fuel { p with tp := (transPort.sendError t1 (.lsm lsmError)).1 }
      else ({ p with tp := t1 }, some (.communication lsmError))
    | (t1, .error err) => ({ p with tp := t1 }, some (.unexpected err))
    | (t1, .ok request) =>
      match p.callTable.lookup request.Method with
      | some (some f) =>
        match f.run { p with tp := t1, journal := p.journal ++ [.handler request.Method] }
            request with
        | (p1, .panic pn) => (p1, some (.panicked pn))
        | (p1, .values response err) =>
          let t2 :=
            match err with
            | some e => (transPort.sendError p1.tp e).1
            | none => (transPort.sendResponse p1.tp response).1
          if request.Method = "plugin_unregister" then
            ({ p1 with tp := transPort.close t2 }, some .unregistered)
          else Plugin.Run fuel { p1 with tp := t2 }
      | _ => Plugin.Run fuel { p with tp := noSupport t1 request.Method }

/-! ## Plugin side: vocabulary of the statements -/

/-- The frame `i` is a well-formed request envelope that `readRequest` decodes into
`req`. -/
def Incoming.request (i : Incoming) (req : requestMsg) : Prop :=
  ∃ raw j, i = .frame raw (.ok j) ∧ requestMsg.store j requestMsg.zero = (req, none)

/-- The port after `i` was received and the message `m` was sent in reply, `rest` being
what is still to arrive. -/
def Port.served (t : Port) (i : Incoming) (m : Outgoing) (rest : List Incoming) : Port :=
  ⟨rest, t.sendErrs.tail, t.trace ++ [.received i] ++ [.sent m]⟩

/-- The error response of `noSupport` for `method`. -/
def unsupported (method : String) : Outgoing :=
  .failure (.lsm ⟨errors.NoSupport, "method " ++ method ++ " not supported", ""⟩)

/-- The struct into which a handler unmarshals `msg.Params`; `none` for the handlers
that do not look at the parameters. -/
def Handler.argType : Handler → Option GoType
  | .handlePluginInfo => none
  | .handleRegister => some Shape.PluginRegister
  | .handleUnRegister => none
  | .handleSystems => none
  | .handleCapabilities => some Shape.capArgs
  | .handleTmoSet => some Shape.tmoSetArgs
  | .handleTmoGet => none
  | .handlePools => some Shape.search
  | .handleJobStatus => some Shape.jobArgs
  | .handleJobFree => some Shape.jobArgs
  | .handleVolumeCreate => some Shape.volumeCreateArgs
  | .handleVolumeDelete => some Shape.volumeDeleteArgs
  | .handleVolumes => some Shape.search
  | .handleDisks => none
  | .handleVolumeReplicate => some Shape.volumeReplicateArgs
  | .handleVolumeReplicateRange => some Shape.volumeReplicateRangeArgs
  | .handleVolRepRangeBlockSize => some Shape.repRangeBlockSizeArgs
  | .handleVolumeResize => some Shape.volumeResizeArgs
  | .handleVolumeEnable => some Shape.volumeArgument
  | .handleVolumeDisable => some Shape.volumeArgument
  | .handleVolumeMask => some Shape.maskArgs
  | .handleVolumeUnMask => some Shape.maskArgs
  | .handleVolHasChildDep => some Shape.volumeArg
  | .handleVolChildDepRm => some Shape.volumeArg
  | .handleVolsMaskedToAg => some Shape.argsAg
  | .handleAccessGroups => none
  | .handleAccessGroupCreate => some Shape.agCreateArgs
  | .handleAccessGroupDelete => some Shape.agDeleteArgs
  | .handleAccessGroupInitAdd => some Shape.accessGroupInitArgs
  | .handleAccessGroupInitDelete => some Shape.accessGroupInitArgs
  | .handleAgsGrantedToVol => some Shape.argsVol
  | .handleIscsiChapAuthSet => some Shape.argsIscsi
  | .handleTargetPorts => none
  | .handleVolIdentLedOn => some Shape.volumeArg
  | .handleVolIdentLedOff => some Shape.volumeArg
  | .handleFs => some Shape.search
  | .handleFsCreate => some Shape.fsCreateArgs
  | .handleFsDelete => some Shape.fsDeleteArgs
  | .handleFsResize => some Shape.fsResizeArgs
  | .handleFsClone => some Shape.fsCloneArgs
  | .handleFsFileClone => some Shape.fsFileCloneArgs
  | .handleFsSnapShotCreate => some Shape.fsSnapShotCreateArgs
  | .handleFsSnapShotDelete => some Shape.fsSnapShotDeleteArgs
  | .handleFsSnapShots => some Shape.fsSnapShotArgs
  | .handleFsSnapShotRestore => some Shape.fsSnapShotRestoreArgs
  | .handleFsHasChildDep => some Shape.fsHasChildDepsArgs
  | .handleFsChildDepRm => some Shape.fsHasChildDepsArgs
  | .handleNfsExports => some Shape.search
  | .handleExportFs => some Shape.exportArgs
  | .handleFsUnexport => some Shape.unexportArgs
  | .handleExportAuthTypes => none
  | .handleVolRaidCreate => some Shape.volRaidCreateArgs
  | .handleVolRaidCreateCapGet => some Shape.volRaidCreateCapGetArgs
  | .handlePoolMemberInfo => some Shape.poolMemberInfoArgs
  | .handleVolRaidInfo => some Shape.volRaidInfoArgs
  | .handleBatteries => none
  | .handleSystemReadCachePctSet => some Shape.sysReadCachePctArgs
  | .handleVolCacheInfo => some Shape.volCacheInfoArgs
  | .handleVolPhyDiskCacheSet => some Shape.volPhyDiskCacheSetArgs
  | .handleVolWriteCacheSet => some Shape.volWriteCacheSetArgs
  | .handleVolReadCacheSet => some Shape.volReadCacheSetArgs

/-- The request envelope a client writes for `method` with the parameters `params`. -/
def requestFrame (method : String) (params : Json) : Incoming :=
  .frame (Json.text (.obj [("method", .str method), ("id", .num 100), ("params", params)]))
    (.ok (.obj [("method", .str method), ("id", .num 100), ("params", params)]))

/-- A plugin with the callbacks `cb` and the table `buildTable` makes of them, whose
peer will send `requests`; every `send` succeeds. -/
def pluginWith (cb : PluginCallBacks Unit) (requests : List Incoming) : Plugin Unit :=
  ⟨⟨requests, [], []⟩, cb, buildTable cb, "sim", "1.0", (), []⟩

/-- The event is a response frame put on the wire, a result or an error. -/
def Event.isResponse : Event → Bool
  | .sent (.response _) => true
  | .sent (.failure _) => true
  | _ => false

/-- The event is the receipt of a frame. -/
def Event.isFrame : Event → Bool
  | .received (.frame _ _) => true
  | _ => false

/-- The plugin as the handler of `method` finds it: the frame `i` has been received and
`Run` is about to execute the handler. -/
def Plugin.dispatched {σ : Type} (p : Plugin σ) (i : Incoming) (rest : List Incoming)
    (method : String) : Plugin σ :=
  { p with
    tp := ⟨rest, p.tp.sendErrs, p.tp.trace ++ [.received i]⟩
    journal := p.journal ++ [.handler method] }

/-- The response `Run` sends for what a handler returned: the error when there is one,
the result otherwise. -/
def replyOf (response : Json) (err : Option GoError) : Outgoing :=
  match err with
  | some e => .failure e
  | none => .response response

/-- Callbacks of a plugin that exports file systems: `FileSystems` finds no file system
and `FsExport` returns nothing; both are supplied. -/
def exportCallbacks : PluginCallBacks Unit :=
  { File := { FileSystems := some fun _ s => (s, some [], none) }
    Nfs := { FsExport := some fun _ s => (s, .null, none) } }

/-- Callbacks of a plugin that supplies `VolIdentLedOn` and not `VolIdentLedOff`. -/
def ledOnCallbacks : PluginCallBacks Unit :=
  { San := { VolIdentLedOn := some fun _ s => (s, none) } }

/-- Callbacks of a plugin that supplies `VolIdentLedOff` and not `VolIdentLedOn`. -/
def ledOffCallbacks : PluginCallBacks Unit :=
  { San := { VolIdentLedOff := some fun _ s => (s, none) } }

/-- Callbacks of a plugin that supplies `VolumeCreate`, which starts the job `JOB_1`. -/
def createCallbacks : PluginCallBacks Unit :=
  { San := { VolumeCreate := some fun _ s => (s, .null, some "JOB_1", none) } }

/-- An `export_fs` request whose parameters hold no `fs_id`. -/
def exportRequest : Incoming := requestFrame "export_fs" (.obj [("flags", .num 0)])

/-- A `volume_ident_led_off` request for the sample volume. -/
def ledOffRequest : Incoming :=
  requestFrame "volume_ident_led_off" (.obj [("volume", sampleVolumeJson), ("flags", .num 0)])

/-- A `volume_create` request whose `size_bytes` is a string. -/
def badCreateRequest : Incoming :=
  requestFrame "volume_create"
    (.obj [("pool", samplePoolJson), ("volume_name", .str "v1"), ("size_bytes", .str "big"),
      ("provisioning", .num 3), ("flags", .num 0)])

/-- What a handler may change of the plugin: the state of the callbacks, and the
journal, which it may extend. -/
def Plugin.sameWiring {σ : Type} (p q : Plugin σ) : Prop :=
  q.tp = p.tp ∧ q.cb = p.cb ∧ q.callTable = p.callTable ∧ q.desc = p.desc ∧ q.ver = p.ver ∧
    ∃ steps, q.journal = p.journal ++ steps

/-- The event is a call of `Close` on the socket. -/
def Event.isClose : Event → Bool
  | .closed => true
  | _ => false

/-- The port after one call of `recv`. -/
def Port.received (t : Port) : Port :=
  ⟨t.incoming.tail, t.sendErrs, t.trace ++ [.received t.nextReply]⟩

/-- The events of a run of `Run`, by the way the run ends.  Every round in which the
loop goes on is a frame received followed by one response sent.  A run that is still
going has nothing after its rounds; a run that ends on a communication error has the
receipt of something that is no frame; a run that ends in the teardown has a frame
received, one response sent and the call of `Close`; a run that ends in a panic has a
frame received and no response to it. -/
inductive Answered : Option RunEnd → List Event → Prop
  | running : Answered none []
  | communication (i : Incoming) (lsmError : LsmError)
    (h : Event.isFrame (.received i) = false) :
    Answered (some (.communication lsmError)) [.received i]
  | unregistered (i : Incoming) (m : Outgoing) (hi : Event.isFrame (.received i) = true)
    (hm : Event.isResponse (.sent m) = true) :
    Answered (some .unregistered) [.received i, .sent m, .closed]
  | panicked (i : Incoming) (pn : Panic) (hi : Event.isFrame (.received i) = true) :
    Answered (some (.panicked pn)) [.received i]
  | round (e : Option RunEnd) (i : Incoming) (m : Outgoing) (rest : List Event)
    (hi : Event.isFrame (.received i) = true) (hm : Event.isResponse (.sent m) = true)
    (h : Answered e rest) : Answered e (.received i :: .sent m :: rest)

/-- The response envelope `sendResponse` writes for the result `r`: the members `id`
and `result`, in the order `json.Marshal` gives the keys of a map. -/
def resultFrame (r : Json) : Incoming :=
  .frame (Json.text (.obj [("id", .num 100), ("result", r)]))
    (.ok (.obj [("id", .num 100), ("result", r)]))

/-- Callbacks of a plugin that supplies `VolumeDelete`, which deletes the volume at
once and returns no job. -/
def deleteCallbacks : PluginCallBacks Unit :=
  { San := { VolumeDelete := some fun _ s => (s, none, none) } }

/-- A `volume_delete` request for the sample volume. -/
def deleteRequest : Incoming :=
  requestFrame "volume_delete" (.obj [("volume", sampleVolumeJson), ("flags", .num 0)])

/-- Whether `Run` ended in a panic of a handler. -/
def endsInPanic : Option RunEnd → Bool
  | some (.panicked _) => true
  | _ => false

/-- Whether `Run` ended in the teardown after `plugin_unregister`. -/
def endsInTeardown : Option RunEnd → Bool
  | some .unregistered => true
  | _ => false

/-- Callbacks of a plugin that supplies `PluginUnregister`, which returns no error. -/
def unregisterCallbacks : PluginCallBacks Unit :=
  { Mgmt := { PluginUnregister := some fun _ s => (s, none) } }

/-- A `plugin_unregister` request. -/
def unregisterRequest : Incoming :=
  requestFrame "plugin_unregister" (.obj [("flags", .num 0)])

/-! ## `client.go` and `lib.go`: operations that check their arguments

A `[]string` is given by `Option (List String)`, `none` being the nil slice. -/

/-- The destination `&v` of `json.Unmarshal` for a variable of the Go type `t`. -/
def GoType.target (t : GoType) : Target GoValue := ⟨GoType.store ⟨"", []⟩ t⟩

/-- The elements of a `[]string`; a nil slice has none. -/
def elems (s : Option (List String)) : List String := s.getD []

/-- The JSON form of a `[]string`: `null` for the nil slice. -/
def stringsJson : Option (List String) → Json
  | none => .null
  | some items => .arr (items.map Json.str)

/-- Go: `contains(s, v)`. -/
def contains (s : Option (List String)) (v : String) : Bool :=
  (elems s).any fun a => a = v

/-- Go: `emptySliceIfNil(provided)`. -/
def emptySliceIfNil (provided : Option (List String)) : Option (List String) :=
  match provided with
  | some items => some items
  | none => some []

/-- Go: `paramError(msg)`. -/
def paramError (msg : String) : GoError := .lsm ⟨errors.InvalidArgument, msg, ""⟩

/-- The constant `Raid1` of type `RaidType`. -/
def Raid1 : Int := 1
/-- The constant `Raid5`. -/
def Raid5 : Int := 5
/-- The constant `Raid6`. -/
def Raid6 : Int := 6
/-- The constant `Raid10`. -/
def Raid10 : Int := 10
/-- The constant `Raid50`. -/
def Raid50 : Int := 50
/-- The constant `Raid60`. -/
def Raid60 : Int := 60

/-- Go: `ClientConnection.VolRaidCreate(name, raidType, disks, stripSize)`; the disks
are given by their JSON forms. -/
def ClientConnection.VolRaidCreate (c : ClientConnection) (name : String) (raidType : Int)
    (disks : List Json) (stripSize : Nat) :
    ClientConnection × Option Volume × Option GoError :=
  if disks.length = 0 then (c, none, some (paramError "no disks included"))
  else if raidType = Raid1 ∧ disks.length ≠ 2 then
    (c, none, some (paramError "RAID 1 only allows 2 disks"))
  else if raidType = Raid5 ∧ disks.length < 3 then
    (c, none, some (paramError "RAID 5 requires 3 or more disks"))
  else if raidType = Raid6 ∧ disks.length < 4 then
    (c, none, some (paramError "RAID 6 requires 4 or more disks"))
  else if raidType = Raid10 ∧ (disks.length % 2 ≠ 0 ∨ disks.length < 4) then
    (c, none, some (paramError "RAID 10 requires even disks count and 4 or more disks"))
  else if raidType = Raid50 ∧ (disks.length % 2 ≠ 0 ∨ disks.length < 6) then
    (c, none, some (paramError "RAID 50 requires even disks count and 6 or more disks"))
  else if raidType = Raid60 ∧ (disks.length % 2 ≠ 0 ∨ disks.length < 8) then
    (c, none, some (paramError "RAID 60 requires even disks count and 8 or more disks"))
  else
    let args := [("name", Json.str name), ("raid_type", Json.num raidType),
      ("disks", Json.arr disks), ("strip_size", Json.num stripSize)]
    match transPort.invoke c.tp "volume_raid_create" args (some ⟨Volume.store⟩) Volume.zero with
    | (t1, _, some err) => ({ c with tp := t1 }, none, some err)
    | (t1, returnedVolume, none) => ({ c with tp := t1 }, some returnedVolume, none)

/-- The struct `NfsAccess`. -/
structure NfsAccess where
  Root : Option (List String)
  Rw : Option (List String)
  Ro : Option (List String)
  AnonUID : Int
  AnonGID : Int

/-- The struct `FileSystem`. -/
structure FileSystem where
  Class : String
  ID : String
  Name : String
  TotalSpace : Nat
  FreeSpace : Nat
  PluginData : Option String
  SystemID : String
  PoolID : String

/-- Go: `ClientConnection.FsExport(fs, exportPath, access, authType, options)`.  Each of
the two loops returns at the first host that fails its test. -/
def ClientConnection.FsExport (c : ClientConnection) (fs : FileSystem)
    (exportPath : Option String) (access : NfsAccess) (authType options : Option String) :
    ClientConnection × Option GoValue × Option GoError :=
  if (elems access.Ro).length = 0 ∧ (elems access.Rw).length = 0 then
    (c, none, some (.lsm ⟨errors.InvalidArgument,
      "at least 1 host should exist in access.ro or access.rw", ""⟩))
  else
    match (elems access.Root).find? fun i => !contains access.Rw i && !contains access.Ro i with
    | some i =>
      (c, none, some (.lsm ⟨errors.InvalidArgument, "host \x27" ++ i ++
        "\x27 contained in access.root should also be in access.rw or access.ro", ""⟩))
    | none =>
      match (elems access.Rw).find? fun i => contains access.Ro i with
      | some i =>
        (c, none, some (.lsm ⟨errors.InvalidArgument,
          "host \x27" ++ i ++ "\x27 in both access.ro and access.rw", ""⟩))
      | none =>
        let args := [("fs_id", Json.str fs.ID), ("export_path", jobJson exportPath),
          ("root_list", stringsJson (emptySliceIfNil access.Ro)),
          ("rw_list", stringsJson (emptySliceIfNil access.Rw)),
          ("ro_list", stringsJson (emptySliceIfNil access.Ro)),
          ("anon_uid", Json.num access.AnonUID), ("anon_gid", Json.num access.AnonGID),
          ("auth_type", jobJson authType), ("options", jobJson options)]
        match transPort.invoke c.tp "export_fs" args (some Shape.NfsExport.target)
            Shape.NfsExport.zero with
        | (t1, _, some err) => ({ c with tp := t1 }, none, some err)
        | (t1, nfsExport, none) => ({ c with tp := t1 }, some nfsExport, none)

/-- The parameters `invoke` puts on the wire for `args`. -/
def paramsOf (args : List (String × Json)) : Json := .obj (setKey args "flags" (.num 0))

/-- An access specification that passes the checks of `FsExport`: `hostA` may write and
is a root host, and no host is read-only. -/
def sampleAccess : NfsAccess := ⟨some ["hostA"], some ["hostA"], none, -1, -1⟩

/-- The file system of the export scenario. -/
def sampleFs : FileSystem := ⟨"FileSystem", "FS1", "fs1", 1024, 512, none, "S1", "P1"⟩

/-- The JSON form of `sampleFs`. -/
def sampleFsJson : Json :=
  .obj [("class", .str "FileSystem"), ("id", .str "FS1"), ("name", .str "fs1"),
    ("total_space", .num 1024), ("free_space", .num 512), ("plugin_data", .null),
    ("system_id", .str "S1"), ("pool_id", .str "P1")]

/-- Callbacks of a plugin that exports file systems and keeps, as its state, the
arguments of the last `FsExport` call: `FileSystems` finds the sample file system. -/
def recordingCallbacks : PluginCallBacks (List GoValue) :=
  { File := { FileSystems := some fun _ s => (s, some [sampleFsJson], none) }
    Nfs := { FsExport := some fun args _ => (args, .null, none) } }

/-! ## `lib.go`: `validateInitID` and the regular expression for a WWPN -/

/-- A regular expression of package `regexp`, as far as `validateInitID` needs it: the
empty expression, a character class given by its ranges, concatenation, alternation and
`?`.  A repetition `x{n}` is the concatenation of `n` copies of `x` (`Regex.times`). -/
inductive Regex
  | empty
  | cls (ranges : List (Char × Char))
  | cat (a b : Regex)
  | alt (a b : Regex)
  | opt (a : Regex)

/-- The expression `x{n}`. -/
def Regex.times (x : Regex) : Nat → Regex
  | 0 => .empty
  | n + 1 => .cat x (x.times n)

/-- The expression that matches the one character `c`. -/
def Regex.chr (c : Char) : Regex := .cls [(c, c)]

/-- Whether the character is in one of the ranges of a class. -/
def inRanges (ranges : List (Char × Char)) (c : Char) : Bool :=
  ranges.any fun r => r.1 ≤ c && c ≤ r.2

/-- Whether the whole of `s` matches the expression. -/
def Regex.matches : Regex → List Char → Bool
  | .empty, s => s.isEmpty
  | .cls ranges, s =>
    match s with
    | [c] => inRanges ranges c
    | _ => false
  | .cat a b, s =>
    (List.range (s.length + 1)).any fun k => a.matches (s.take k) && b.matches (s.drop k)
  | .alt a b, s => a.matches s || b.matches s
  | .opt a, s => s.isEmpty || a.matches s

/-- The class `[0-9A-Fa-f]`. -/
def hexClass : Regex := .cls [('0', '9'), ('A', 'F'), ('a', 'f')]

/-- The class `[\.:\-]`. -/
def separatorClass : Regex := .cls [('.', '.'), (':', ':'), ('-', '-')]

/-- The pattern of `validateInitID`,
`^(0x|0X)?([0-9A-Fa-f]{2})(([\.:\-])?[0-9A-Fa-f]{2}){7}$`, without its anchors: the
pattern sets no flag, so `^` and `$` match at the two ends of the text only and
`regexp.Match` holds exactly when the whole text matches what stands between them. -/
def wwpnPattern : Regex :=
  .cat (.opt (.alt (.cat (.chr '0') (.chr 'x')) (.cat (.chr '0') (.chr 'X'))))
    (.cat (hexClass.times 2)
      ((Regex.cat (.opt separatorClass) (hexClass.times 2)).times 7))

/-- Go: `regexp.Match` for the pattern of `validateInitID`; the pattern compiles, so
there is no error. -/
def regexpMatch (pattern : Regex) (b : List Char) : Bool := pattern.matches b

/-- Go: `strings.HasPrefix(s, prefix)`. -/
def strings.HasPrefix (s : String) (pre : String) : Bool := pre.toList.isPrefixOf s.toList

/-- The constant `InitiatorTypeWwpn`. -/
def InitiatorTypeWwpn : Int := 2

/-- The constant `InitiatorTypeIscsiIqn`. -/
def InitiatorTypeIscsiIqn : Int := 5

/-- Go: `validateInitID(initID, initType)`; `none` is the nil error. -/
def validateInitID (initID : String) (initType : Int) : Option GoError :=
  if initType = InitiatorTypeWwpn then
    if !regexpMatch wwpnPattern initID.toList then
      some (.lsm ⟨errors.InvalidArgument,
        "initID invalid for InitiatorTypeWwpn: " ++ initID, ""⟩)
    else none
  else if initType = InitiatorTypeIscsiIqn then
    if !strings.HasPrefix initID "iqn" && !strings.HasPrefix initID "eui" &&
        !strings.HasPrefix initID "naa" then
      some (.lsm ⟨errors.InvalidArgument,
        "initID invalid for InitiatorTypeIscsiIqn: " ++ initID, ""⟩)
    else none
  else some (.lsm ⟨errors.InvalidArgument, "invalid initType: " ++ toString initType, ""⟩)

/-- Go: `ClientConnection.AccessGroupCreate(name, initID, initType, system)`; the system
is given by its JSON form. -/
def ClientConnection.AccessGroupCreate (c : ClientConnection) (name initID : String)
    (initType : Int) (system : Json) : ClientConnection × Option GoValue × Option GoError :=
  match validateInitID initID initType with
  | some check => (c, none, some check)
  | none =>
    let args := [("name", Json.str name), ("init_id", Json.str initID),
      ("init_type", Json.num initType), ("system", system)]
    match transPort.invoke c.tp "access_group_create" args (some Shape.AccessGroup.target)
        Shape.AccessGroup.zero with
    | (t1, _, some err) => ({ c with tp := t1 }, none, some err)
    | (t1, accessGroup, none) => ({ c with tp := t1 }, some accessGroup, none)

/-- Go: `initSetup(initID, initType, accessGroup)`; the access group is given by its
JSON form. -/
def initSetup (initID : String) (initType : Int) (accessGroup : Json) :
    List (String × Json) × Option GoError :=
  ([("access_group", accessGroup), ("init_id", Json.str initID),
    ("init_type", Json.num initType)], validateInitID initID initType)

/-- Go: `ClientConnection.AccessGroupInitAdd(ag, initID, initType)`. -/
def ClientConnection.AccessGroupInitAdd (c : ClientConnection) (ag : Json) (initID : String)
    (initType : Int) : ClientConnection × Option GoValue × Option GoError :=
  match initSetup initID initType ag with
  | (_, some setupErr) => (c, none, some setupErr)
  | (args, none) =>
    match transPort.invoke c.tp "access_group_initiator_add" args
        (some Shape.AccessGroup.target) Shape.AccessGroup.zero with
    | (t1, _, some err) => ({ c with tp := t1 }, none, some err)
    | (t1, accessGroup, none) => ({ c with tp := t1 }, some accessGroup, none)

/-- Go: `ClientConnection.AccessGroupInitDelete(ag, initID, initType)`. -/
def ClientConnection.AccessGroupInitDelete (c : ClientConnection) (ag : Json)
    (initID : String) (initType : Int) :
    ClientConnection × Option GoValue × Option GoError :=
  match initSetup initID initType ag with
  | (_, some setupErr) => (c, none, some setupErr)
  | (args, none) =>
    match transPort.invoke c.tp "access_group_initiator_delete" args
        (some Shape.AccessGroup.target) Shape.AccessGroup.zero with
    | (t1, _, some err) => ({ c with tp := t1 }, none, some err)
    | (t1, accessGroup, none) => ({ c with tp := t1 }, some accessGroup, none)

/-- A hexadecimal digit. -/
def isHexDigit (c : Char) : Prop :=
  ('0' ≤ c ∧ c ≤ '9') ∨ ('A' ≤ c ∧ c ≤ 'F') ∨ ('a' ≤ c ∧ c ≤ 'f')

/-- A group of a WWPN after the first: two hexadecimal digits, optionally preceded by
a single `.`, `:` or `-`. -/
def isWwpnGroup (g : List Char) : Prop :=
  ∃ a b, isHexDigit a ∧ isHexDigit b ∧
    (g = [a, b] ∨ g = ['.', a, b] ∨ g = [':', a, b] ∨ g = ['-', a, b])

/-- The shape of a WWPN in words: an optional `0x` or `0X`, then eight groups of two
hexadecimal digits, each group after the first optionally preceded by a single `.`, `:`
or `-`, and nothing before or after. -/
def isWwpn (s : List Char) : Prop :=
  ∃ (lead : List Char) (a b : Char) (groups : List (List Char)),
    (lead = [] ∨ lead = ['0', 'x'] ∨ lead = ['0', 'X']) ∧ isHexDigit a ∧ isHexDigit b ∧
    groups.length = 7 ∧ (∀ g ∈ groups, isWwpnGroup g) ∧
    s = lead ++ [a, b] ++ groups.flatten

/-- The text starts with `iqn`, `eui` or `naa`. -/
def isIqn (s : List Char) : Prop :=
  ∃ rest, s = ['i', 'q', 'n'] ++ rest ∨ s = ['e', 'u', 'i'] ++ rest ∨
    s = ['n', 'a', 'a'] ++ rest

/-- The disk counts that `VolRaidCreate` is to refuse, in words: no disk at all; for
RAID 1 a count other than 2; for RAID 5 fewer than 3; for RAID 6 fewer than 4; for
RAID 10, 50 and 60 an odd count or fewer than 4, 6 and 8. -/
def raidCountRejected (raidType : Int) (count : Nat) : Prop :=
  count = 0 ∨ (raidType = 1 ∧ count ≠ 2) ∨ (raidType = 5 ∧ count < 3) ∨
    (raidType = 6 ∧ count < 4) ∨ (raidType = 10 ∧ (count % 2 = 1 ∨ count < 4)) ∨
    (raidType = 50 ∧ (count % 2 = 1 ∨ count < 6)) ∨
    (raidType = 60 ∧ (count % 2 = 1 ∨ count < 8))

/-- The request `VolRaidCreate` sends. -/
def raidCreateRequest (name : String) (raidType : Int) (disks : List Json) (stripSize : Nat) :
    Outgoing :=
  requestOf "volume_raid_create" [("name", .str name), ("raid_type", .num raidType),
    ("disks", .arr disks), ("strip_size", .num stripSize)]

/-- The events of one call of `invoke` that sends the request `m`: the request whose
`send` failed, or the request followed by the receipt of `i`. -/
def isExchange (m : Outgoing) (i : Incoming) (evs : List Event) : Prop :=
  (∃ e, evs = [.sendFailed m e]) ∨ evs = [.sent m, .received i]

/-- A plugin with the callbacks `recordingCallbacks`, whose peer will send `requests`;
every `send` succeeds. -/
def recordingPlugin (requests : List Incoming) : Plugin (List GoValue) :=
  ⟨⟨requests, [], []⟩, recordingCallbacks, buildTable recordingCallbacks, "sim", "1.0", [], []⟩

/-- The parameters of the `export_fs` request that `FsExport` sends for `sampleFs`, the
path `/mnt/fs1` and `sampleAccess`. -/
def sampleExportParams : List (String × Json) :=
  [("fs_id", .str "FS1"), ("export_path", .str "/mnt/fs1"), ("root_list", .arr []),
    ("rw_list", .arr [.str "hostA"]), ("ro_list", .arr []), ("anon_uid", .num (-1)),
    ("anon_gid", .num (-1)), ("auth_type", .null), ("options", .null), ("flags", .num 0)]

/-! ## Byte layer: lemmas -/

/-- Value accumulated by the digit fold. -/
def valFrom (acc : Nat) (s : List Nat) : Nat := s.foldl (fun a c => a * 10 + (c - 48)) acc

theorem decimalValue_eq (s : List Nat) : decimalValue s = valFrom 0 s := rfl

theorem valFrom_append (acc : Nat) (s r : List Nat) :
    valFrom acc (s ++ r) = valFrom (valFrom acc s) r := by
  simp [valFrom, List.foldl_append]

theorem valFrom_ge (s : List Nat) : ∀ acc, acc ≤ valFrom acc s := by
  induction s with
  | nil => intro acc; simp [valFrom]
  | cons c cs ih =>
    intro acc
    have h := ih (acc * 10 + (c - 48))
    simp only [valFrom, List.foldl_cons] at h ⊢
    omega

theorem valFrom_replicate_zero (k : Nat) : valFrom 0 (List.replicate k 48) = 0 := by
  induction k with
  | zero => rfl
  | succ k ih => simpa [valFrom, List.replicate_succ] using ih

theorem decimalDigits_spec : ∀ fuel n, n < fuel →
    (∀ d ∈ decimalDigits fuel n, d < 10) ∧
    valFrom 0 ((decimalDigits fuel n).map (fun d => 48 + d)) = n ∧
    1 ≤ (decimalDigits fuel n).length := by
  intro fuel
  induction fuel with
  | zero => intro n h; omega
  | succ f ih =>
    intro n h
    unfold decimalDigits
    by_cases h10 : n < 10
    · simp [h10, valFrom]
    · have hlt : n / 10 < f := by omega
      obtain ⟨h1, h2, h3⟩ := ih (n / 10) hlt
      simp only [h10, if_false]
      refine ⟨?_, ?_, ?_⟩
      · intro d hd
        rcases List.mem_append.mp hd with hd | hd
        · exact h1 d hd
        · simp at hd; omega
      · rw [List.map_append, valFrom_append, h2]
        simp [valFrom]
        omega
      · simp

theorem decimalDigits_length : ∀ fuel n k, n < fuel → n < 10 ^ (k + 1) →
    (decimalDigits fuel n).length ≤ k + 1 := by
  intro fuel
  induction fuel with
  | zero => intro n k h; omega
  | succ f ih =>
    intro n k h hk
    unfold decimalDigits
    by_cases h10 : n < 10
    · simp [h10]
    · simp only [h10, if_false, List.length_append, List.length_singleton]
      cases k with
      | zero => simp at hk; omega
      | succ k =>
        have hlt : n / 10 < f := by omega
        have hk2 : n / 10 < 10 ^ (k + 1) := by
          rw [Nat.div_lt_iff_lt_mul (by norm_num)]
          rw [pow_succ] at hk
          exact hk
        have := ih (n / 10) k hlt hk2
        omega

theorem itoa_allDigits (n : Nat) : allDigits (itoa n) := by
  intro c hc
  unfold itoa at hc
  obtain ⟨d, hd, rfl⟩ := List.mem_map.mp hc
  have := (decimalDigits_spec (n + 1) n (by omega)).1 d hd
  show (48 : Nat) ≤ 48 + d ∧ 48 + d ≤ (57 : Nat)
  omega

theorem sprintf010d_allDigits (n : Nat) : allDigits (sprintf010d n) := by
  intro c hc
  unfold sprintf010d at hc
  rcases List.mem_append.mp hc with h | h
  · have h48 : c = 48 := (List.mem_replicate.mp h).2
    rw [h48]
    exact ⟨Nat.le_refl 48, by decide⟩
  · exact itoa_allDigits n c h

theorem sprintf010d_value (n : Nat) : decimalValue (sprintf010d n) = n := by
  rw [decimalValue_eq]
  unfold sprintf010d
  rw [valFrom_append, valFrom_replicate_zero]
  exact (decimalDigits_spec (n + 1) n (by omega)).2.1

theorem sprintf010d_length (n : Nat) (h : n < 10 ^ 10) : (sprintf010d n).length = 10 := by
  have h1 : (itoa n).length ≤ 10 := by
    unfold itoa
    rw [List.length_map]
    exact decimalDigits_length (n + 1) n 9 (by omega) h
  unfold sprintf010d
  rw [List.length_append, List.length_replicate]
  omega

theorem sprintf010d_length_ge (n : Nat) : 10 ≤ (sprintf010d n).length := by
  unfold sprintf010d
  rw [List.length_append, List.length_replicate]
  omega

theorem parseUintLoop_ok (s : List Nat) : ∀ acc, allDigits s → valFrom acc s < 2 ^ 32 →
    parseUintLoop 32 s acc = .ok (valFrom acc s) := by
  induction s with
  | nil => intro acc _ _; rfl
  | cons c cs ih =>
    intro acc hd hv
    have hc : 48 ≤ c ∧ c ≤ 57 := hd c (List.mem_cons_self c cs)
    have hcs : allDigits cs := fun x hx => hd x (List.mem_cons_of_mem c hx)
    have hstep : valFrom acc (c :: cs) = valFrom (acc * 10 + (c - 48)) cs := rfl
    rw [hstep] at hv ⊢
    have hge := valFrom_ge cs (acc * 10 + (c - 48))
    have hpow : (2 : Nat) ^ 32 = 4294967296 := by norm_num
    have hpow64 : (2 : Nat) ^ 64 = 18446744073709551616 := by norm_num
    rw [hpow] at hv
    have h10 : acc * 10 % 2 ^ 64 = acc * 10 := by rw [hpow64]; omega
    have h1 : (acc * 10 + (c - 48)) % 2 ^ 64 = acc * 10 + (c - 48) := by rw [hpow64]; omega
    unfold parseUintLoop
    simp only [hc, and_self, if_true, h10, h1]
    rw [if_neg (by rw [hpow64]; omega), if_neg (by rw [hpow]; omega)]
    exact ih _ hcs (by rw [hpow]; exact hv)

theorem parseUintLoop_range (s : List Nat) : ∀ acc, allDigits s → acc < 2 ^ 32 →
    2 ^ 32 ≤ valFrom acc s → parseUintLoop 32 s acc = .error .outOfRange := by
  induction s with
  | nil =>
    intro acc _ h1 h2
    simp only [valFrom, List.foldl_nil] at h2
    omega
  | cons c cs ih =>
    intro acc hd hacc hv
    have hc : 48 ≤ c ∧ c ≤ 57 := hd c (List.mem_cons_self c cs)
    have hcs : allDigits cs := fun x hx => hd x (List.mem_cons_of_mem c hx)
    have hstep : valFrom acc (c :: cs) = valFrom (acc * 10 + (c - 48)) cs := rfl
    rw [hstep] at hv
    have hpow : (2 : Nat) ^ 32 = 4294967296 := by norm_num
    have hpow64 : (2 : Nat) ^ 64 = 18446744073709551616 := by norm_num
    rw [hpow] at hacc
    have h10 : acc * 10 % 2 ^ 64 = acc * 10 := by rw [hpow64]; omega
    have h1 : (acc * 10 + (c - 48)) % 2 ^ 64 = acc * 10 + (c - 48) := by rw [hpow64]; omega
    unfold parseUintLoop
    simp only [hc, and_self, if_true, h10, h1]
    rw [if_neg (by rw [hpow64]; omega)]
    by_cases hbig : acc * 10 + (c - 48) < 2 ^ 32
    · rw [if_neg (by rw [hpow] at hbig ⊢; omega)]
      exact ih _ hcs hbig hv
    · rw [if_pos (by rw [hpow] at hbig ⊢; omega)]

theorem ParseUint_ok (s : List Nat) (hne : s ≠ []) (hd : allDigits s)
    (hv : decimalValue s < 2 ^ 32) : ParseUint s 32 = .ok (decimalValue s) := by
  unfold ParseUint
  rw [if_neg hne]
  exact parseUintLoop_ok s 0 hd hv

theorem ParseUint_range (s : List Nat) (hd : allDigits s)
    (hv : 2 ^ 32 ≤ decimalValue s) : ParseUint s 32 = .error .outOfRange := by
  have hne : s ≠ [] := by
    rintro rfl
    simp [decimalValue] at hv
  unfold ParseUint
  rw [if_neg hne]
  exact parseUintLoop_range s 0 hd (by norm_num) hv

theorem writeExactLoop_ok : ∀ fuel (c : Conn) (buf : List Nat) (written : Nat),
    c.writesReliable → written ≤ buf.length → buf.length - written ≤ fuel →
    ∃ c1, writeExactLoop fuel c buf written = some (c1, none) ∧
      c1.outbox = c.outbox ++ buf.drop written ∧ c1.inbox = c.inbox ∧
      c1.rd = c.rd ∧ c1.wr = c.wr ∧ c1.reads = c.reads := by
  intro fuel
  induction fuel with
  | zero =>
    intro c buf written _ hle hfuel
    have : written = buf.length := by omega
    subst this
    exact ⟨c, by simp [writeExactLoop], by simp, rfl, rfl, rfl, rfl⟩
  | succ f ih =>
    intro c buf written hrel hle hfuel
    unfold writeExactLoop
    by_cases hlt : written < buf.length
    · rw [if_pos hlt]
      obtain ⟨n, hn, hstep⟩ := hrel c.writes
      have hlen : (buf.drop written).length = buf.length - written := List.length_drop _ _
      have hmin : 1 ≤ min n (buf.drop written).length := by
        rw [hlen]; omega
      simp only [Conn.Write, hstep]
      have hrel1 : Conn.writesReliable
          { c with outbox := c.outbox ++ (buf.drop written).take n, writes := c.writes + 1 } :=
        hrel
      obtain ⟨c1, h1, h2, h3, h4, h5, h6⟩ :=
        ih { c with outbox := c.outbox ++ (buf.drop written).take n, writes := c.writes + 1 }
          buf (written + min n (buf.drop written).length) hrel1
          (by rw [hlen]; omega) (by rw [hlen]; omega)
      refine ⟨c1, h1, ?_, h3, h4, h5, h6⟩
      rw [h2]
      simp only [List.append_assoc]
      congr 1
      rw [hlen]
      by_cases hn2 : n ≤ buf.length - written
      · rw [Nat.min_eq_left hn2, ← List.drop_drop]
        exact List.take_append_drop n (buf.drop written)
      · have hn3 : buf.length - written ≤ n := by omega
        rw [Nat.min_eq_right hn3]
        have : written + (buf.length - written) = buf.length := by omega
        rw [this, List.drop_length, List.append_nil]
        exact List.take_of_length_le (by rw [hlen]; exact hn3)
    · have : written = buf.length := by omega
      subst this
      rw [if_neg hlt]
      exact ⟨c, rfl, by simp, rfl, rfl, rfl, rfl⟩

theorem readExactLoop_ok : ∀ fuel (c : Conn) (buf : List Nat) (current : Nat),
    c.readsReliable → current ≤ buf.length → buf.length - current ≤ c.inbox.length →
    buf.length - current ≤ fuel →
    ∃ c1, readExactLoop fuel c buf current =
        some (c1, buf.take current ++ c.inbox.take (buf.length - current), none) ∧
      c1.inbox = c.inbox.drop (buf.length - current) ∧ c1.outbox = c.outbox ∧
      c1.rd = c.rd ∧ c1.wr = c.wr ∧ c1.writes = c.writes := by
  intro fuel
  induction fuel with
  | zero =>
    intro c buf current _ hle _ hfuel
    have : current = buf.length := by omega
    subst this
    exact ⟨c, by simp [readExactLoop], by simp, rfl, rfl, rfl, rfl⟩
  | succ f ih =>
    intro c buf current hrel hle hin hfuel
    unfold readExactLoop
    by_cases hlt : current < buf.length
    · rw [if_pos hlt]
      obtain ⟨n, hn, hstep⟩ := hrel c.reads
      simp only [Conn.Read, hstep]
      generalize hk : min n (if buf.length - current > tmpBufSize then tmpBufSize
        else buf.length - current) = k
      have hk1 : 1 ≤ k := by
        rw [← hk]; unfold tmpBufSize; split <;> omega
      have hk2 : k ≤ buf.length - current := by
        rw [← hk]; unfold tmpBufSize; split <;> omega
      have htake : (c.inbox.take k).length = k := by
        rw [List.length_take]; omega
      have hrel1 : Conn.readsReliable
          { c with inbox := c.inbox.drop k, reads := c.reads + 1 } := hrel
      have hcopy : copyAt buf current (c.inbox.take k) =
          buf.take current ++ c.inbox.take k ++ buf.drop (current + k) := by
        have e : (c.inbox.take k).take (buf.length - current) = c.inbox.take k :=
          List.take_of_length_le (by rw [htake]; exact hk2)
        unfold copyAt
        rw [e, htake]
      have hcl : (copyAt buf current (c.inbox.take k)).length = buf.length := by
        rw [hcopy]
        simp only [List.length_append, List.length_take, List.length_drop]
        omega
      obtain ⟨c1, h1, h2, h3, h4, h5, h6⟩ :=
        ih { c with inbox := c.inbox.drop k, reads := c.reads + 1 }
          (copyAt buf current (c.inbox.take k)) (current + (c.inbox.take k).length) hrel1
          (by rw [hcl, htake]; omega)
          (by rw [hcl, htake]; simp only [List.length_drop]; omega)
          (by rw [hcl, htake]; omega)
      refine ⟨c1, ?_, ?_, h3, h4, h5, h6⟩
      · rw [h1, hcl, htake, hcopy]
        congr 2
        have e1 : (buf.take current ++ c.inbox.take k ++ buf.drop (current + k)).take
            (current + k) = buf.take current ++ c.inbox.take k := by
          apply List.take_left'
          simp only [List.length_append, List.length_take]
          omega
        rw [e1, List.append_assoc]
        congr 1
        simp only
        have e2 : buf.length - current = k + (buf.length - (current + k)) := by omega
        rw [e2, List.take_add]
      · rw [h2, hcl, htake]
        simp only [List.drop_drop]
        congr 1
        omega
    · have : current = buf.length := by omega
      subst this
      rw [if_neg hlt]
      exact ⟨c, by simp, by simp, rfl, rfl, rfl, rfl⟩

theorem steadyConn_reads (inbox : List Nat) (k : Nat) (hk : 1 ≤ k) :
    (steadyConn inbox k).readsReliable := fun _ => ⟨k, hk, rfl⟩

theorem steadyConn_writes (inbox : List Nat) (k : Nat) (hk : 1 ≤ k) :
    (steadyConn inbox k).writesReliable := fun _ => ⟨k, hk, rfl⟩

theorem send_ok (fuel : Nat) (t : transPort) (msg : List Nat) (hw : t.uds.writesReliable)
    (hfuel : (sprintf010d msg.length).length + msg.length ≤ fuel) :
    ∃ t1, transPort.send fuel t msg = some (t1, none) ∧
      t1.uds.outbox = t.uds.outbox ++ sprintf010d msg.length ++ msg ∧
      t1.uds.inbox = t.uds.inbox ∧ t1.uds.rd = t.uds.rd ∧ t1.uds.wr = t.uds.wr := by
  obtain ⟨c1, h1, h2, h3, h4, h5, _⟩ :=
    writeExactLoop_ok fuel t.uds (sprintf010d msg.length ++ msg) 0 hw (Nat.zero_le _)
      (by simpa using hfuel)
  refine ⟨{ t with uds := c1 }, ?_, ?_, h3, h4, h5⟩
  · simp only [transPort.send, writeExact, h1]
  · simp only [h2, List.drop_zero, List.append_assoc]

theorem readHeader_ok (fuel : Nat) (c : Conn) (hdr body : List Nat) (hr : c.readsReliable)
    (hin : c.inbox = hdr ++ body) (hlen : hdr.length = 10) (hfuel : 10 ≤ fuel) :
    ∃ c1, readExact fuel c (List.replicate headerLen 0) = some (c1, hdr, none) ∧
      c1.inbox = body ∧ c1.outbox = c.outbox ∧ c1.rd = c.rd ∧ c1.wr = c.wr := by
  have hl : (List.replicate headerLen 0).length = 10 := by simp [headerLen]
  obtain ⟨c1, h1, h2, h3, h4, h5, _⟩ :=
    readExactLoop_ok fuel c (List.replicate headerLen 0) 0 hr (Nat.zero_le _)
      (by rw [hl, hin, List.length_append]; omega) (by rw [hl]; exact hfuel)
  refine ⟨c1, ?_, ?_, h3, h4, h5⟩
  · rw [readExact, h1, hl, hin]
    simp only [List.take_zero, List.nil_append, Nat.sub_zero]
    rw [List.take_left' hlen]
  · rw [h2, hl, hin]
    simp only [Nat.sub_zero]
    rw [List.drop_left' hlen]

theorem recv_ok (fuel : Nat) (t : transPort) (hdr body : List Nat)
    (hr : t.uds.readsReliable) (hin : t.uds.inbox = hdr ++ body) (hlen : hdr.length = 10)
    (hd : allDigits hdr) (hv : decimalValue hdr < 2 ^ 32)
    (hbody : decimalValue hdr ≤ body.length)
    (hfuel : 10 ≤ fuel ∧ decimalValue hdr ≤ fuel) :
    ∃ t1, transPort.recv fuel t = some (t1, body.take (decimalValue hdr), none) ∧
      t1.uds.inbox = body.drop (decimalValue hdr) ∧ t1.uds.outbox = t.uds.outbox ∧
      t1.uds.rd = t.uds.rd ∧ t1.uds.wr = t.uds.wr := by
  obtain ⟨c1, h1, h2, h3, h4, h5⟩ := readHeader_ok fuel t.uds hdr body hr hin hlen hfuel.1
  have hne : hdr ≠ [] := by
    intro h; rw [h] at hlen; simp at hlen
  have hr1 : c1.readsReliable := by
    intro i; rw [h4]; exact hr i
  have hl : (List.replicate (decimalValue hdr) 0).length = decimalValue hdr := by simp
  obtain ⟨c2, k1, k2, k3, k4, k5, _⟩ :=
    readExactLoop_ok fuel c1 (List.replicate (decimalValue hdr) 0) 0 hr1 (Nat.zero_le _)
      (by rw [hl, h2]; exact hbody) (by rw [hl]; exact hfuel.2)
  refine ⟨{ t with uds := c2 }, ?_, ?_, ?_, ?_, ?_⟩
  · simp only [transPort.recv, h1, ParseUint_ok hdr hne hd hv]
    simp only [readExact, k1, hl, h2, List.take_zero, List.nil_append, Nat.sub_zero,
      Option.map_none']
  · simp only [k2, hl, h2, Nat.sub_zero]
  · simp only [k3, h3]
  · simp only [k4, h4]
  · simp only [k5, h5]

theorem recv_range (fuel : Nat) (t : transPort) (hdr body : List Nat)
    (hr : t.uds.readsReliable) (hin : t.uds.inbox = hdr ++ body) (hlen : hdr.length = 10)
    (hd : allDigits hdr) (hv : 2 ^ 32 ≤ decimalValue hdr) (hfuel : 10 ≤ fuel) :
    ∃ t1, transPort.recv fuel t = some (t1, [], some (.header .outOfRange)) ∧
      t1.uds.inbox = body := by
  obtain ⟨c1, h1, h2, _, _, _⟩ := readHeader_ok fuel t.uds hdr body hr hin hlen hfuel
  refine ⟨{ t with uds := c1 }, ?_, h2⟩
  simp only [transPort.recv, h1, ParseUint_range hdr hd hv]

theorem roundtrip_range (fuel k : Nat) (P : List Nat) (hk : 1 ≤ k) (hlo : 2 ^ 32 ≤ P.length)
    (hhi : P.length < 10 ^ 10) (hfuel : 10 + P.length ≤ fuel) :
    ∃ t1, transPort.send fuel ⟨steadyConn [] k, false⟩ P = some (t1, none) ∧
      ∃ r1, transPort.recv fuel ⟨t1.uds.peer (fun _ => .xfer k), false⟩ =
        some (r1, [], some (.header .outOfRange)) := by
  have hl := sprintf010d_length P.length hhi
  obtain ⟨t1, h1, h2, _⟩ := send_ok fuel ⟨steadyConn [] k, false⟩ P
    (steadyConn_writes [] k hk) (by rw [hl]; exact hfuel)
  refine ⟨t1, h1, ?_⟩
  have hin : (⟨t1.uds.peer (fun _ => .xfer k), false⟩ : transPort).uds.inbox =
      sprintf010d P.length ++ P := by
    show t1.uds.outbox = _
    rw [h2]
    rfl
  obtain ⟨r1, k1, _⟩ := recv_range fuel ⟨t1.uds.peer (fun _ => .xfer k), false⟩
    (sprintf010d P.length) P (fun _ => ⟨k, hk, rfl⟩) hin hl (sprintf010d_allDigits _)
    (by rw [sprintf010d_value]; exact hlo) (by omega)
  exact ⟨r1, k1⟩

theorem send_long_header (fuel k : Nat) (P : List Nat) (hk : 1 ≤ k)
    (hP : P.length = 10000000000) (hfuel : 11 + P.length = fuel) :
    ∃ t1, transPort.send fuel ⟨steadyConn [] k, false⟩ P = some (t1, none) ∧
      t1.uds.outbox = [49, 48, 48, 48, 48, 48, 48, 48, 48, 48, 48] ++ P ∧
      ¬ ∃ hdr : List Nat, hdr.length = 10 ∧ t1.uds.outbox = hdr ++ P := by
  have hhdr : sprintf010d 10000000000 = [49, 48, 48, 48, 48, 48, 48, 48, 48, 48, 48] := by
    decide
  obtain ⟨t1, h1, h2, _⟩ := send_ok fuel ⟨steadyConn [] k, false⟩ P
    (steadyConn_writes [] k hk) (by rw [hP, hhdr, ← hfuel, hP]; rfl)
  rw [hP, hhdr] at h2
  have h3 : t1.uds.outbox = [49, 48, 48, 48, 48, 48, 48, 48, 48, 48, 48] ++ P := by
    rw [h2]; rfl
  refine ⟨t1, h1, h3, ?_⟩
  rintro ⟨hdr, hl, he⟩
  have := congrArg List.length he
  rw [h3, List.length_append, List.length_append, hl] at this
  simp at this

/-! ## Frame codec: the claims -/

/-- C1 (amended): for every payload `P` of fewer than 2^32 bytes, `transPort.send`
on a reliable stream writes a frame from which `transPort.recv`, reading it through
any reliable read schedule, returns exactly `P` and no error, leaving nothing unread. -/
theorem send_recv_roundtrip (fuel : Nat) (t : transPort) (P : List Nat)
    (hw : t.uds.writesReliable) (hP : P.length < 2 ^ 32) (hfuel : 10 + P.length ≤ fuel) :
    ∃ t1 frame, transPort.send fuel t P = some (t1, none) ∧
      t1.uds.outbox = t.uds.outbox ++ frame ∧
      ∀ r : transPort, r.uds.inbox = frame → r.uds.readsReliable →
        ∃ r1, transPort.recv fuel r = some (r1, P, none) ∧ r1.uds.inbox = [] := by
  have hP10 : P.length < 10 ^ 10 := by
    have : (2 : Nat) ^ 32 < 10 ^ 10 := by norm_num
    omega
  have hl := sprintf010d_length P.length hP10
  obtain ⟨t1, h1, h2, _⟩ := send_ok fuel t P hw (by rw [hl]; exact hfuel)
  refine ⟨t1, sprintf010d P.length ++ P, h1, by rw [h2, List.append_assoc], ?_⟩
  intro r hin hr
  have hv := sprintf010d_value P.length
  obtain ⟨r1, k1, k2, _⟩ := recv_ok fuel r (sprintf010d P.length) P hr hin hl
    (sprintf010d_allDigits _) (by rw [hv]; exact hP) (by rw [hv]) (by rw [hv]; omega)
  refine ⟨r1, ?_, ?_⟩
  · rw [k1, hv, List.take_length]
  · rw [k2, hv, List.drop_length]

/-- Witness of C1: the two-byte payload `hi` on a stream that moves three bytes per call. -/
theorem send_recv_roundtrip_witness :
    (steadyConn [] 3).writesReliable ∧
    ∃ t1 frame, transPort.send 12 ⟨steadyConn [] 3, false⟩ [104, 105] = some (t1, none) ∧
      t1.uds.outbox = (steadyConn [] 3).outbox ++ frame ∧
      ∀ r : transPort, r.uds.inbox = frame → r.uds.readsReliable →
        ∃ r1, transPort.recv 12 r = some (r1, [104, 105], none) ∧ r1.uds.inbox = [] :=
  ⟨steadyConn_writes [] 3 (by decide),
    send_recv_roundtrip 12 ⟨steadyConn [] 3, false⟩ [104, 105]
      (steadyConn_writes [] 3 (by decide)) (by norm_num) (by decide)⟩

/-- C1 as stated fails: a payload of 2^32 bytes is framed by `transPort.send` under the
header `4294967296`, which `transPort.recv` rejects with a range error. -/
theorem send_recv_roundtrip_counterexample :
    ∃ t1, transPort.send 4294967306 ⟨steadyConn [] 1024, false⟩
        (List.replicate 4294967296 0) = some (t1, none) ∧
      ∃ r1, transPort.recv 4294967306 ⟨t1.uds.peer (fun _ => .xfer 1024), false⟩ =
        some (r1, [], some (.header .outOfRange)) :=
  roundtrip_range 4294967306 1024 (List.replicate 4294967296 0) (by decide)
    (by rw [List.length_replicate]; norm_num) (by rw [List.length_replicate]; norm_num)
    (by rw [List.length_replicate])

/-- C2 (amended): for every payload shorter than 10^10 bytes and every schedule of
partial writes that accepts at least one byte per call, the bytes `transPort.send`
appends to the stream are a header of exactly ten ASCII digits whose decimal value is
the payload length, followed by the payload, once and in order. -/
theorem send_writes_header_then_payload (fuel : Nat) (t : transPort) (msg : List Nat)
    (hw : t.uds.writesReliable) (hlen : msg.length < 10 ^ 10)
    (hfuel : 10 + msg.length ≤ fuel) :
    ∃ t1 hdr, transPort.send fuel t msg = some (t1, none) ∧
      t1.uds.outbox = t.uds.outbox ++ hdr ++ msg ∧
      hdr.length = 10 ∧ allDigits hdr ∧ decimalValue hdr = msg.length := by
  have hl := sprintf010d_length msg.length hlen
  obtain ⟨t1, h1, h2, _⟩ := send_ok fuel t msg hw (by rw [hl]; exact hfuel)
  exact ⟨t1, sprintf010d msg.length, h1, h2, hl, sprintf010d_allDigits _,
    sprintf010d_value _⟩

/-- Witness of C2: three payload bytes written one byte per `Write` call. -/
theorem send_writes_header_then_payload_witness :
    (steadyConn [] 1).writesReliable ∧
    ∃ t1 hdr, transPort.send 13 ⟨steadyConn [] 1, false⟩ [1, 2, 3] = some (t1, none) ∧
      t1.uds.outbox = (steadyConn [] 1).outbox ++ hdr ++ [1, 2, 3] ∧
      hdr.length = 10 ∧ allDigits hdr ∧ decimalValue hdr = [1, 2, 3].length :=
  ⟨steadyConn_writes [] 1 (by decide),
    send_writes_header_then_payload 13 ⟨steadyConn [] 1, false⟩ [1, 2, 3]
      (steadyConn_writes [] 1 (by decide)) (by norm_num) (by decide)⟩

/-- C2 as stated fails: for a payload of 10^10 bytes `transPort.send` writes the
eleven-character header `10000000000`, so what reaches the stream is not a
ten-character header followed by the payload. -/
theorem send_writes_header_then_payload_counterexample :
    ∃ t1, transPort.send 10000000011 ⟨steadyConn [] 1024, false⟩
        (List.replicate 10000000000 0) = some (t1, none) ∧
      t1.uds.outbox = [49, 48, 48, 48, 48, 48, 48, 48, 48, 48, 48] ++
        List.replicate 10000000000 0 ∧
      ¬ ∃ hdr : List Nat, hdr.length = 10 ∧
        t1.uds.outbox = hdr ++ List.replicate 10000000000 0 :=
  send_long_header 10000000011 1024 (List.replicate 10000000000 0) (by decide)
    (by rw [List.length_replicate]) (by rw [List.length_replicate])

/-- C3 (amended): for every stream that starts with ten decimal digits encoding a
length `n` below 2^32, followed by at least `n` bytes, and for every read schedule that
delivers at least one byte per call, `transPort.recv` returns exactly the `n` bytes
after the header and no error, and leaves the stream at byte `10 + n`. -/
theorem recv_returns_frame (fuel : Nat) (t : transPort) (hdr body : List Nat)
    (hr : t.uds.readsReliable) (hin : t.uds.inbox = hdr ++ body) (hlen : hdr.length = 10)
    (hd : allDigits hdr) (hv : decimalValue hdr < 2 ^ 32)
    (hbody : decimalValue hdr ≤ body.length)
    (hfuel : 10 ≤ fuel ∧ decimalValue hdr ≤ fuel) :
    ∃ t1, transPort.recv fuel t = some (t1, body.take (decimalValue hdr), none) ∧
      (body.take (decimalValue hdr)).length = decimalValue hdr ∧
      t1.uds.inbox = t.uds.inbox.drop (10 + decimalValue hdr) ∧
      t1.uds.inbox = body.drop (decimalValue hdr) ∧
      t1.uds.readsReliable := by
  obtain ⟨t1, h1, h2, _, h4, _⟩ := recv_ok fuel t hdr body hr hin hlen hd hv hbody hfuel
  refine ⟨t1, h1, ?_, ?_, h2, ?_⟩
  · rw [List.length_take]; omega
  · rw [h2, hin, ← hlen, ← List.drop_drop, List.drop_left]
  · intro i; rw [h4]; exact hr i

/-- Witness of C3: header `0000000002`, two payload bytes and the first byte of a
following frame, delivered one byte per `Read` call. -/
theorem recv_returns_frame_witness :
    (steadyConn [48, 48, 48, 48, 48, 48, 48, 48, 48, 50, 7, 8, 48] 1).readsReliable ∧
    ∃ t1, transPort.recv 10
        ⟨steadyConn [48, 48, 48, 48, 48, 48, 48, 48, 48, 50, 7, 8, 48] 1, false⟩ =
        some (t1, [7, 8, 48].take (decimalValue [48, 48, 48, 48, 48, 48, 48, 48, 48, 50]),
          none) ∧
      ([7, 8, 48].take (decimalValue [48, 48, 48, 48, 48, 48, 48, 48, 48, 50])).length =
        decimalValue [48, 48, 48, 48, 48, 48, 48, 48, 48, 50] ∧
      t1.uds.inbox = (steadyConn [48, 48, 48, 48, 48, 48, 48, 48, 48, 50, 7, 8, 48] 1).inbox.drop
        (10 + decimalValue [48, 48, 48, 48, 48, 48, 48, 48, 48, 50]) ∧
      t1.uds.inbox = [7, 8, 48].drop (decimalValue [48, 48, 48, 48, 48, 48, 48, 48, 48, 50]) ∧
      t1.uds.readsReliable :=
  ⟨steadyConn_reads _ 1 (by decide),
    recv_returns_frame 10
      ⟨steadyConn [48, 48, 48, 48, 48, 48, 48, 48, 48, 50, 7, 8, 48] 1, false⟩
      [48, 48, 48, 48, 48, 48, 48, 48, 48, 50] [7, 8, 48]
      (steadyConn_reads _ 1 (by decide)) rfl rfl (by decide) (by decide) (by decide)
      (by decide)⟩

/-- C3 as stated fails: the ten-digit header `4294967296` followed by 2^32 bytes is
refused by `transPort.recv` with a range error; no payload is returned and only the
header is consumed. -/
theorem recv_returns_frame_counterexample :
    ∃ t1, transPort.recv 10
        ⟨steadyConn ([52, 50, 57, 52, 57, 54, 55, 50, 57, 54] ++
          List.replicate 4294967296 0) 1, false⟩ =
        some (t1, [], some (.header .outOfRange)) ∧
      t1.uds.inbox = List.replicate 4294967296 0 :=
  recv_range 10 _ [52, 50, 57, 52, 57, 54, 55, 50, 57, 54] (List.replicate 4294967296 0)
    (steadyConn_reads _ 1 (by decide)) rfl rfl (by decide) (by decide) (by decide)

/-! ## Message layer: lemmas -/

/-- Key matching folds the long s (U+017F) to `s` and the Kelvin sign (U+212A) to `k`,
as `encoding/json` does, besides the ASCII capitals. -/
theorem keyIs_folds :
    keyIs "re\u017Fult" "result" = true ∧ keyIs "RESULT" "result" = true ∧
    keyIs "\u212Aey" "key" = true ∧ keyIs "param\u017F" "params" = true ∧
    keyIs "resu1t" "result" = false := by
  decide

theorem Port.send_sendsSucceed (t : Port) (m : Outgoing) (hs : t.sendsSucceed) :
    t.send m = (⟨t.incoming, t.sendErrs.tail, t.trace ++ [.sent m]⟩, none) := by
  unfold Port.send
  match h : t.sendErrs with
  | [] => simp
  | none :: rest => simp
  | some e :: rest =>
    have := hs (some e) (by rw [h]; exact List.mem_cons_self _ _)
    simp at this

theorem Port.exchanged_sendsSucceed (t : Port) (m : Outgoing) (i : Incoming)
    (rest : List Incoming) (hs : t.sendsSucceed) : (t.exchanged m i rest).sendsSucceed := by
  intro e he
  exact hs e (List.mem_of_mem_tail he)

theorem Port.exchanged_trace (t : Port) (m : Outgoing) (i : Incoming)
    (rest : List Incoming) :
    (t.exchanged m i rest).trace = t.trace ++ [.sent m, .received i] := by
  simp [Port.exchanged]

theorem okReply_carries (r : Json) : (okReply r).carries r :=
  ⟨_, _, ⟨100, none, some r⟩, rfl, rfl, rfl, rfl⟩

theorem invoke_exchange {α : Type} (t : Port) (cmd : String) (args : List (String × Json))
    (result : Option (Target α)) (cur : α) (i : Incoming) (rest : List Incoming)
    (hs : t.sendsSucceed) (hin : t.incoming = i :: rest) :
    (transPort.invoke t cmd args result cur).1 = t.exchanged (requestOf cmd args) i rest := by
  unfold transPort.invoke
  simp only [Port.send_sendsSucceed t _ hs, Port.recv, hin]
  unfold Port.exchanged requestOf
  cases i with
  | readError e => simp
  | headerError e => simp
  | frame raw parsed =>
    cases parsed with
    | error e => simp
    | ok j =>
      simp only
      split
      · simp
      · split
        · simp
        · split
          · cases result with
            | none => simp
            | some p =>
              simp only
              split
              · simp
              · split <;> simp
          · simp

theorem invoke_frame {α : Type} (t : Port) (cmd : String) (args : List (String × Json))
    (result : Option (Target α)) (cur : α) (raw : String) (j : Json) (what : responseMsg)
    (rest : List Incoming) (hs : t.sendsSucceed)
    (hin : t.incoming = .frame raw (.ok j) :: rest)
    (hdec : responseMsg.store j responseMsg.zero = (what, none)) :
    transPort.invoke t cmd args result cur =
      match what.Error with
      | some e => (t.exchanged (requestOf cmd args) (.frame raw (.ok j)) rest, cur, some (.lsm e))
      | none =>
        match what.Result with
        | some r =>
          match result with
          | none => (t.exchanged (requestOf cmd args) (.frame raw (.ok j)) rest, cur, none)
          | some p =>
            if r.isNull then
              (t.exchanged (requestOf cmd args) (.frame raw (.ok j)) rest, cur, none)
            else
              match p.store r cur with
              | (v, some _) =>
                (t.exchanged (requestOf cmd args) (.frame raw (.ok j)) rest, v,
                  some (pluginBug ("Plugin returned unexpected response form for ("
                    ++ cmd ++ ") data (" ++ r.text ++ ")")))
              | (v, none) =>
                (t.exchanged (requestOf cmd args) (.frame raw (.ok j)) rest, v, none)
        | none =>
          (t.exchanged (requestOf cmd args) (.frame raw (.ok j)) rest, cur,
            some (pluginBug ("Unexpected response from plugin " ++ raw ++ "\n"))) := by
  unfold transPort.invoke
  simp only [Port.send_sendsSucceed t _ hs, Port.recv, hin, hdec]
  rfl

theorem invoke_error {α : Type} (t : Port) (cmd : String) (args : List (String × Json))
    (result : Option (Target α)) (cur : α) (i : Incoming) (e : LsmError)
    (rest : List Incoming) (hs : t.sendsSucceed) (hin : t.incoming = i :: rest)
    (hi : i.carriesError e) :
    transPort.invoke t cmd args result cur =
      (t.exchanged (requestOf cmd args) i rest, cur, some (.lsm e)) := by
  obtain ⟨raw, j, what, rfl, hdec, herr⟩ := hi
  rw [invoke_frame t cmd args result cur raw j what rest hs hin hdec, herr]

theorem invoke_nil (t : Port) (cmd : String) (args : List (String × Json))
    (i : Incoming) (r : Json) (rest : List Incoming) (hs : t.sendsSucceed)
    (hin : t.incoming = i :: rest) (hi : i.carries r) :
    transPort.invoke t cmd args (none : Option (Target Unit)) () =
      (t.exchanged (requestOf cmd args) i rest, (), none) := by
  obtain ⟨raw, j, what, rfl, hdec, herr, hres⟩ := hi
  rw [invoke_frame t cmd args none () raw j what rest hs hin hdec, herr, hres]

theorem invoke_null {α : Type} (t : Port) (cmd : String) (args : List (String × Json))
    (result : Option (Target α)) (cur : α) (i : Incoming)
    (rest : List Incoming) (hs : t.sendsSucceed) (hin : t.incoming = i :: rest)
    (hi : i.carries .null) :
    transPort.invoke t cmd args result cur =
      (t.exchanged (requestOf cmd args) i rest, cur, none) := by
  obtain ⟨raw, j, what, rfl, hdec, herr, hres⟩ := hi
  rw [invoke_frame t cmd args result cur raw j what rest hs hin hdec, herr, hres]
  cases result with
  | none => rfl
  | some p => simp [Json.isNull]

theorem invoke_value {α : Type} (t : Port) (cmd : String) (args : List (String × Json))
    (p : Target α) (cur v : α) (i : Incoming) (r : Json)
    (rest : List Incoming) (hs : t.sendsSucceed) (hin : t.incoming = i :: rest)
    (hi : i.carries r) (hr : r.isNull = false) (hstore : p.store r cur = (v, none)) :
    transPort.invoke t cmd args (some p) cur =
      (t.exchanged (requestOf cmd args) i rest, v, none) := by
  obtain ⟨raw, j, what, rfl, hdec, herr, hres⟩ := hi
  rw [invoke_frame t cmd args (some p) cur raw j what rest hs hin hdec, herr, hres]
  simp [hr, hstore]

theorem JobFree_ok (c : ClientConnection) (jobID : String) (i : Incoming) (r : Json)
    (rest : List Incoming) (hs : c.tp.sendsSucceed) (hin : c.tp.incoming = i :: rest)
    (hi : i.carries r) :
    c.JobFree jobID = ({ c with tp := c.tp.exchanged (freeRequest jobID) i rest }, none) := by
  unfold ClientConnection.JobFree
  simp only [invoke_nil c.tp "job_free" _ i r rest hs hin hi]
  rfl

theorem JobStatus_inProgress {α : Type} (c : ClientConnection) (jobID : String)
    (rr : Option (Target α)) (cur : α) (i : Incoming) (rest : List Incoming)
    (hs : c.tp.sendsSucceed) (hin : c.tp.incoming = i :: rest) (hi : inProgressReply i) :
    ∃ pc, c.JobStatus jobID rr cur =
      ({ c with tp := c.tp.exchanged (statusRequest jobID) i rest }, cur,
        JobStatusInprogress, pc, none) := by
  obtain ⟨pct, tail, hp, hc⟩ := hi
  have hinv := invoke_value c.tp "job_status" [("job_id", Json.str jobID)] ⟨Raw3.store⟩
    ⟨none, none, none⟩ ⟨some (.num 1), some pct, tail.get? 0⟩ i _ rest hs hin hc rfl rfl
  unfold ClientConnection.JobStatus
  simp only [hinv]
  rcases hp with rfl | ⟨p, hp, rfl⟩
  · exact ⟨0, rfl⟩
  · refine ⟨p, ?_⟩
    have hlt : p < 256 := by omega
    simp [jsonUnmarshal, storeUint, JobStatusInprogress, hlt, statusRequest]

theorem JobStatus_complete {α : Type} (c : ClientConnection) (jobID : String)
    (p : Target α) (cur v : α) (i : Incoming) (pct X : Json) (tail : List Json)
    (rest : List Incoming)
    (hs : c.tp.sendsSucceed) (hin : c.tp.incoming = i :: rest)
    (hi : i.carries (.arr (.num 2 :: pct :: X :: tail))) (hX : X.isNull = false)
    (hstore : p.store X cur = (v, none)) :
    c.JobStatus jobID (some p) cur =
      ({ c with tp := c.tp.exchanged (statusRequest jobID) i rest }, v,
        JobStatusComplete, 100, none) := by
  have hinv := invoke_value c.tp "job_status" [("job_id", Json.str jobID)] ⟨Raw3.store⟩
    ⟨none, none, none⟩ ⟨some (.num 2), some pct, some X⟩ i _ rest hs hin hi rfl rfl
  have hnn : RawMessage.notNullText (some X) = true := by
    cases X <;> simp_all [RawMessage.notNullText, Json.isNull]
  unfold ClientConnection.JobStatus
  simp only [hinv]
  simp [jsonUnmarshal, storeUint, JobStatusInprogress, JobStatusComplete, hnn, hstore,
    statusRequest]

theorem pollTrace_append (jobID : String) (xs ys : List Incoming) :
    pollTrace jobID (xs ++ ys) = pollTrace jobID xs ++ pollTrace jobID ys := by
  induction xs with
  | nil => rfl
  | cons x xs ih => simp [pollTrace, ih]

theorem requestCount_append (method : String) (xs ys : List Event) :
    requestCount method (xs ++ ys) = requestCount method xs + requestCount method ys := by
  simp [requestCount, List.countP_append]

theorem requestCount_pollTrace_status (jobID : String) (is : List Incoming) :
    requestCount "job_status" (pollTrace jobID is) = is.length := by
  induction is with
  | nil => rfl
  | cons i is ih =>
    have h : requestCount "job_status" (pollTrace jobID (i :: is)) =
        requestCount "job_status" (pollTrace jobID is) + 1 := by
      simp [requestCount, pollTrace, List.countP_cons, Event.isRequest, statusRequest,
        requestOf]
    rw [h, ih, List.length_cons]

theorem requestCount_pollTrace_free (jobID : String) (is : List Incoming) :
    requestCount "job_free" (pollTrace jobID is) = 0 := by
  induction is with
  | nil => rfl
  | cons i is ih =>
    have h : requestCount "job_free" (pollTrace jobID (i :: is)) =
        requestCount "job_free" (pollTrace jobID is) := by
      simp [requestCount, pollTrace, List.countP_cons, Event.isRequest, statusRequest,
        requestOf]
    rw [h, ih]

theorem JobWait_completes {α : Type} (jobID : String) (p : Target α) (cur v : α)
    (done free : Incoming) (pct X r : Json) (tail : List Json) (rest : List Incoming)
    (hdone : done.carries (.arr (.num 2 :: pct :: X :: tail))) (hX : X.isNull = false)
    (hstore : p.store X cur = (v, none)) (hfree : free.carries r) :
    ∀ (prog : List Incoming) (fuel : Nat) (c : ClientConnection),
      c.tp.sendsSucceed → c.tp.incoming = prog ++ done :: free :: rest →
      (∀ i ∈ prog, inProgressReply i) → prog.length + 1 ≤ fuel →
      ∃ c1, ClientConnection.JobWait fuel c jobID (some p) cur = (c1, v, some none) ∧
        c1.tp.trace = c.tp.trace ++ pollTrace jobID (prog ++ [done]) ++
          [.sent (freeRequest jobID), .received free] ∧
        c1.tp.incoming = rest ∧ c1.tp.sendsSucceed := by
  intro prog
  induction prog with
  | nil =>
    intro fuel c hs hin _ hfuel
    obtain ⟨f, rfl⟩ : ∃ f, fuel = f + 1 := ⟨fuel - 1, by omega⟩
    have hst := JobStatus_complete c jobID p cur v done pct X tail (free :: rest) hs
      (by simpa using hin) hdone hX hstore
    have hs1 := Port.exchanged_sendsSucceed c.tp (statusRequest jobID) done (free :: rest) hs
    have hfr := JobFree_ok
      { c with tp := (c.tp.exchanged (statusRequest jobID) done (free :: rest)) }
      jobID free r rest hs1 rfl hfree
    refine ⟨{ c with tp := ((c.tp.exchanged (statusRequest jobID) done
      (free :: rest)).exchanged (freeRequest jobID) free rest) }, ?_, ?_, ?_, ?_⟩
    · unfold ClientConnection.JobWait
      simp only [hst]
      simp only [JobStatusComplete, JobStatusInprogress, Nat.reduceEqDiff, if_false, if_true]
      simp only [JobStatusComplete] at hfr
      rw [hfr]
    · simp [Port.exchanged, pollTrace]
    · rfl
    · exact Port.exchanged_sendsSucceed _ _ _ _ hs1
  | cons i prog ih =>
    intro fuel c hs hin hprog hfuel
    obtain ⟨f, rfl⟩ : ∃ f, fuel = f + 1 := ⟨fuel - 1, by simp at hfuel; omega⟩
    obtain ⟨pc, hst⟩ := JobStatus_inProgress c jobID (some p) cur i
      (prog ++ done :: free :: rest) hs (by simpa using hin)
      (hprog i (List.mem_cons_self _ _))
    have hs1 := Port.exchanged_sendsSucceed c.tp (statusRequest jobID) i
      (prog ++ done :: free :: rest) hs
    obtain ⟨c1, h1, h2, h3, h4⟩ := ih f
      { c with tp := (c.tp.exchanged (statusRequest jobID) i (prog ++ done :: free :: rest)) }
      hs1 rfl (fun x hx => hprog x (List.mem_cons_of_mem _ hx))
      (by simp at hfuel; omega)
    refine ⟨c1, ?_, ?_, h3, h4⟩
    · unfold ClientConnection.JobWait
      simp only [hst]
      simp only [JobStatusInprogress, if_true]
      exact h1
    · rw [h2]
      simp [Port.exchanged, pollTrace]

theorem invoke_eq {α : Type} (t : Port) (cmd : String) (args : List (String × Json))
    (result : Option (Target α)) (cur : α) :
    (∃ e rest, t.sendErrs = some e :: rest ∧
      transPort.invoke t cmd args result cur =
        (⟨t.incoming, rest, t.trace ++ [.sendFailed (requestOf cmd args) e]⟩, cur,
          some (commError ("Error writing to unix domain socket " ++ e ++ "\n")))) ∨
    ((∀ e rest, t.sendErrs ≠ some e :: rest) ∧
      transPort.invoke t cmd args result cur =
        (⟨t.incoming.tail, t.sendErrs.tail,
            t.trace ++ [.sent (requestOf cmd args)] ++ [.received t.nextReply]⟩,
          replyOutcome cmd result cur t.nextReply)) := by
  have hrecv : ∀ t1 : Port, t1.recv.1 =
      ⟨t1.incoming.tail, t1.sendErrs, t1.trace ++ [.received t1.nextReply]⟩ ∧
      t1.recv.2 = t1.nextReply := by
    intro t1
    unfold Port.recv Port.nextReply
    cases t1.incoming <;> exact ⟨rfl, rfl⟩
  have hout : ∀ (t2 : Port) (i : Incoming),
      (match (t2, i) with
        | (t2, .readError replyError) =>
          (t2, cur,
            some (commError ("Error reading from unix domain socket " ++ replyError ++ "\n")))
        | (t2, .headerError replyError) =>
          (t2, cur,
            some (commError ("Error reading from unix domain socket " ++ replyError ++ "\n")))
        | (t2, .frame _ (.error replyUnmarsal)) =>
          (t2, cur,
            some (pluginBug ("Unparsable response from plugin " ++ replyUnmarsal ++ "\n")))
        | (t2, .frame reply (.ok j)) =>
          match responseMsg.store j responseMsg.zero with
          | (_, some replyUnmarsal) =>
            (t2, cur, some (pluginBug
              ("Unparsable response from plugin " ++ replyUnmarsal.Error ++ "\n")))
          | (what, none) =>
            match what.Error with
            | some e => (t2, cur, some (.lsm e))
            | none =>
              match what.Result with
              | some r =>
                match result with
                | none => (t2, cur, none)
                | some p =>
                  if r.isNull then (t2, cur, none)
                  else
                    match p.store r cur with
                    | (v, some _) =>
                      (t2, v, some (pluginBug
                        ("Plugin returned unexpected response form for ("
                        ++ cmd ++ ") data (" ++ r.text ++ ")")))
                    | (v, none) => (t2, v, none)
              | none =>
                (t2, cur,
                  some (pluginBug ("Unexpected response from plugin " ++ reply ++ "\n"))))
        = (t2, replyOutcome cmd result cur i) := by
    intro t2 i
    unfold replyOutcome
    cases i with
    | readError e => rfl
    | headerError e => rfl
    | frame raw parsed =>
      cases parsed with
      | error e => rfl
      | ok j =>
        simp only
        split
        · rfl
        · split
          · rfl
          · split
            · cases result with
              | none => rfl
              | some p =>
                simp only
                split
                · rfl
                · split <;> rfl
            · rfl
  unfold transPort.invoke
  simp only
  cases hse : t.sendErrs with
  | nil =>
    right
    refine ⟨by simp, ?_⟩
    simp only [Port.send, hse]
    have h1 := hrecv ⟨t.incoming, [], t.trace ++ [.sent (.request cmd (setKey args "flags"
      (.num 0)))]⟩
    rw [← Prod.mk.eta (p := Port.recv _), h1.1, h1.2, hout]
    rfl
  | cons e rest =>
    cases e with
    | none =>
      right
      refine ⟨by simp, ?_⟩
      simp only [Port.send, hse]
      have h1 := hrecv ⟨t.incoming, rest, t.trace ++ [.sent (.request cmd (setKey args "flags"
        (.num 0)))]⟩
      rw [← Prod.mk.eta (p := Port.recv _), h1.1, h1.2, hout]
      rfl
    | some e =>
      left
      refine ⟨e, rest, rfl, ?_⟩
      simp only [Port.send, hse]
      rfl

theorem JobStatus_eq {α : Type} (c : ClientConnection) (jobID : String)
    (rr : Option (Target α)) (cur : α) :
    c.JobStatus jobID rr cur =
      ({ c with tp := (transPort.invoke c.tp "job_status" [("job_id", Json.str jobID)]
          (some ⟨Raw3.store⟩) ⟨none, none, none⟩).1 },
        statusOutcome rr cur
          (transPort.invoke c.tp "job_status" [("job_id", Json.str jobID)]
            (some ⟨Raw3.store⟩) ⟨none, none, none⟩).2.1
          (transPort.invoke c.tp "job_status" [("job_id", Json.str jobID)]
            (some ⟨Raw3.store⟩) ⟨none, none, none⟩).2.2) := by
  unfold ClientConnection.JobStatus statusOutcome
  simp only
  generalize transPort.invoke c.tp "job_status" [("job_id", Json.str jobID)]
    (some ⟨Raw3.store⟩) ⟨none, none, none⟩ = inv
  obtain ⟨t1, result, err⟩ := inv
  cases err with
  | some e => rfl
  | none =>
    simp only
    split
    · rfl
    · split
      · split <;> rfl
      · split
        · split <;> rfl
        · split
          · split <;> rfl
          · rfl

theorem statusOutcome_noerr {α : Type} (rr : Option (Target α)) (cur cur1 : α)
    (i : Incoming) (st : JobStatusType) (pc : Nat)
    (h : statusOutcome rr cur
        (replyOutcome "job_status" (some ⟨Raw3.store⟩) ⟨none, none, none⟩ i).1
        (replyOutcome "job_status" (some ⟨Raw3.store⟩) ⟨none, none, none⟩ i).2 =
      (cur1, st, pc, none)) :
    i.jobState = some st ∧ (st = JobStatusInprogress ∨ st = JobStatusComplete) := by
  cases i with
  | readError e => simp [replyOutcome, statusOutcome] at h
  | headerError e => simp [replyOutcome, statusOutcome] at h
  | frame raw parsed =>
    cases parsed with
    | error e => simp [replyOutcome, statusOutcome] at h
    | ok j =>
      simp only [Incoming.jobState]
      simp only [replyOutcome] at h
      rcases hdec : responseMsg.store j responseMsg.zero with ⟨what, err⟩
      rw [hdec] at h
      cases err with
      | some e => simp [statusOutcome] at h
      | none =>
        simp only at h ⊢
        rcases hE : what.Error with _ | e
        · rw [hE] at h
          simp only at h ⊢
          rcases hR : what.Result with _ | r
          · rw [hR] at h; simp [statusOutcome] at h
          · rw [hR] at h
            simp only at h ⊢
            cases r with
            | null => simp [Json.isNull, statusOutcome, jsonUnmarshal] at h
            | bool b => simp [Json.isNull, statusOutcome, Raw3.store] at h
            | num z => simp [Json.isNull, statusOutcome, Raw3.store] at h
            | real l => simp [Json.isNull, statusOutcome, Raw3.store] at h
            | str s => simp [Json.isNull, statusOutcome, Raw3.store] at h
            | obj m => simp [Json.isNull, statusOutcome, Raw3.store] at h
            | arr items =>
              cases items with
              | nil => simp [Json.isNull, statusOutcome, Raw3.store, jsonUnmarshal] at h
              | cons s rest =>
                cases s with
                | null =>
                  simp [Json.isNull, statusOutcome, Raw3.store, jsonUnmarshal, storeUint,
                    JobStatusInprogress, JobStatusComplete, JobStatusError] at h
                | bool b =>
                  simp [Json.isNull, statusOutcome, Raw3.store, jsonUnmarshal, storeUint] at h
                | real l =>
                  simp [Json.isNull, statusOutcome, Raw3.store, jsonUnmarshal, storeUint] at h
                | str s =>
                  simp [Json.isNull, statusOutcome, Raw3.store, jsonUnmarshal, storeUint] at h
                | obj m =>
                  simp [Json.isNull, statusOutcome, Raw3.store, jsonUnmarshal, storeUint] at h
                | arr a =>
                  simp [Json.isNull, statusOutcome, Raw3.store, jsonUnmarshal, storeUint] at h
                | num z =>
                  by_cases hz : 0 ≤ z ∧ z < 2 ^ 32
                  · simp only [Json.isNull, statusOutcome, Raw3.store, jsonUnmarshal, storeUint,
                      Bool.false_eq_true, if_false, List.get?, hz, and_self, if_true] at h ⊢
                    by_cases h1 : z.toNat = JobStatusInprogress
                    · rw [if_pos h1] at h
                      split at h
                      · simp at h
                      · simp only [Prod.mk.injEq] at h
                        exact ⟨by rw [h.2.1], Or.inl (by rw [← h.2.1, h1])⟩
                    · rw [if_neg h1] at h
                      by_cases h2 : z.toNat = JobStatusComplete
                      · rw [if_pos h2] at h
                        split at h
                        · simp only [Prod.mk.injEq] at h
                          exact ⟨by rw [h.2.1], Or.inr (by rw [← h.2.1, h2])⟩
                        · simp only [Prod.mk.injEq] at h
                          exact ⟨by rw [h.2.1], Or.inr (by rw [← h.2.1, h2])⟩
                      · rw [if_neg h2] at h
                        split at h
                        · split at h <;> simp at h
                        · simp at h
                  · have hz2 : ¬(0 ≤ z ∧ z < 4294967296) := by
                      have e : (2 : Int) ^ 32 = 4294967296 := by norm_num
                      rw [e] at hz
                      exact hz
                    simp only [Json.isNull, statusOutcome, Raw3.store, jsonUnmarshal, storeUint,
                      Bool.false_eq_true, if_false, List.get?] at h
                    norm_num only at h
                    rw [if_neg hz2] at h
                    simp at h
        · rw [hE] at h; simp [statusOutcome] at h

theorem JobStatus_trace {α : Type} (c : ClientConnection) (jobID : String)
    (rr : Option (Target α)) (cur : α) :
    (∃ e, (c.JobStatus jobID rr cur).1.tp.trace =
        c.tp.trace ++ [.sendFailed (statusRequest jobID) e] ∧
      (c.JobStatus jobID rr cur).2.2.2.2 ≠ none) ∨
    ((c.JobStatus jobID rr cur).1.tp.trace =
        c.tp.trace ++ [.sent (statusRequest jobID), .received c.tp.nextReply] ∧
      ((c.JobStatus jobID rr cur).2.2.2.2 = none →
        c.tp.nextReply.jobState = some (c.JobStatus jobID rr cur).2.2.1 ∧
        ((c.JobStatus jobID rr cur).2.2.1 = JobStatusInprogress ∨
          (c.JobStatus jobID rr cur).2.2.1 = JobStatusComplete))) := by
  rw [JobStatus_eq]
  rcases invoke_eq c.tp "job_status" [("job_id", Json.str jobID)] (some ⟨Raw3.store⟩)
    (⟨none, none, none⟩ : Raw3) with ⟨e, rest, _, h⟩ | ⟨_, h⟩
  · left
    refine ⟨e, ?_, ?_⟩
    · rw [h]; rfl
    · rw [h]; simp [statusOutcome]
  · right
    rw [h]
    refine ⟨by simp [statusRequest], ?_⟩
    intro hn
    exact statusOutcome_noerr rr cur _ c.tp.nextReply _ _ (by
      rw [← hn])

theorem JobFree_trace (c : ClientConnection) (jobID : String) :
    (∃ e, (c.JobFree jobID).1.tp.trace = c.tp.trace ++ [.sendFailed (freeRequest jobID) e]) ∨
    ((c.JobFree jobID).1.tp.trace =
        c.tp.trace ++ [.sent (freeRequest jobID), .received c.tp.nextReply]) := by
  unfold ClientConnection.JobFree
  simp only
  rcases invoke_eq c.tp "job_free" [("job_id", Json.str jobID)] (none : Option (Target Unit))
    () with ⟨e, rest, _, h⟩ | ⟨_, h⟩
  · left
    exact ⟨e, by rw [h]; rfl⟩
  · right
    rw [h]
    simp [freeRequest]

theorem requestCount_freeExchange (jobID : String) (frees : List Event)
    (h : isFreeExchange jobID frees) : requestCount "job_free" frees = 1 := by
  rcases h with ⟨e, rfl⟩ | ⟨f, rfl⟩ <;>
    simp [requestCount, Event.isRequest, freeRequest, requestOf]

theorem requestCount_statusPoll (jobID : String) (i : Incoming) :
    requestCount "job_free" [.sent (statusRequest jobID), .received i] = 0 := by
  simp [requestCount, Event.isRequest, statusRequest, requestOf]

theorem requestCount_statusFailed (jobID e : String) :
    requestCount "job_free" [.sendFailed (statusRequest jobID) e] = 0 := by
  simp [requestCount, Event.isRequest, statusRequest, requestOf]

theorem JobWait_shape {α : Type} (jobID : String) (rr : Option (Target α)) :
    ∀ (fuel : Nat) (c : ClientConnection) (cur : α),
      ∃ hist frees,
        (ClientConnection.JobWait fuel c jobID rr cur).1.tp.trace =
          c.tp.trace ++ hist ++ frees ∧
        requestCount "job_free" hist = 0 ∧
        (frees = [] ∨
          ∃ i, hist.getLast? = some (.received i) ∧
            i.jobState = some JobStatusComplete ∧ isFreeExchange jobID frees) := by
  intro fuel
  induction fuel with
  | zero =>
    intro c cur
    exact ⟨[], [], by simp [ClientConnection.JobWait], rfl, Or.inl rfl⟩
  | succ f ih =>
    intro c cur
    have htr := JobStatus_trace c jobID rr cur
    unfold ClientConnection.JobWait
    rcases hjs : c.JobStatus jobID rr cur with ⟨c1, cur1, st, pc, err⟩
    rw [hjs] at htr
    simp only at htr
    cases err with
    | some e =>
      simp only
      rcases htr with ⟨e2, h1, _⟩ | ⟨h1, _⟩
      · exact ⟨[.sendFailed (statusRequest jobID) e2], [], by rw [h1]; simp,
          requestCount_statusFailed jobID e2, Or.inl rfl⟩
      · exact ⟨[.sent (statusRequest jobID), .received c.tp.nextReply], [],
          by rw [h1]; simp, requestCount_statusPoll jobID _, Or.inl rfl⟩
    | none =>
      rcases htr with ⟨e2, _, h2⟩ | ⟨h1, h2⟩
      · exact absurd rfl h2
      · obtain ⟨hstate, hst⟩ := h2 rfl
        simp only
        rcases hst with rfl | rfl
        · rw [if_pos rfl]
          obtain ⟨hist, frees, k1, k2, k3⟩ := ih c1 cur1
          refine ⟨[.sent (statusRequest jobID), .received c.tp.nextReply] ++ hist, frees,
            ?_, ?_, ?_⟩
          · rw [k1, h1]; simp
          · rw [requestCount_append, requestCount_statusPoll, k2]
          · rcases k3 with rfl | ⟨i, g1, g2, g3⟩
            · exact Or.inl rfl
            · refine Or.inr ⟨i, ?_, g2, g3⟩
              have hne : hist ≠ [] := by
                intro h0; rw [h0] at g1; simp at g1
              rw [List.getLast?_append_of_ne_nil _ hne]
              exact g1
        · rw [if_neg (by decide), if_pos rfl]
          have hfr := JobFree_trace c1 jobID
          refine ⟨[.sent (statusRequest jobID), .received c.tp.nextReply],
            (c1.JobFree jobID).1.tp.trace.drop c1.tp.trace.length, ?_, ?_, ?_⟩
          · have hsame : ∀ x : ClientConnection × Option GoError,
                (match x with
                  | (c2, some freeError) =>
                    (c2, cur1, some (some (pluginBug ("We successfully waited for job " ++
                      jobID ++ ", but got an error freeing it: " ++ freeError.Error))))
                  | (c2, none) => (c2, cur1, some none)).1 = x.1 := by
              intro x
              obtain ⟨c2, _ | e⟩ := x <;> rfl
            rw [hsame]
            rcases hfr with ⟨e, hf⟩ | hf <;> rw [hf, h1] <;> simp
          · exact requestCount_statusPoll jobID _
          · refine Or.inr ⟨c.tp.nextReply, by simp, hstate, ?_⟩
            rcases hfr with ⟨e, hf⟩ | hf
            · left; exact ⟨e, by rw [hf]; simp⟩
            · right; exact ⟨c1.tp.nextReply, by rw [hf]; simp⟩

/-! ## Invocation engine and job lifecycle: the claims -/

theorem scripted_sendsSucceed (replies : List Incoming) : (scripted replies).tp.sendsSucceed := by
  intro e he
  simp [scripted] at he

/-- C4: for every response envelope whose error field holds a structured error `e`,
`transPort.invoke` returns exactly `e` (code, message and data), whatever the result
field holds and whatever destination was passed; the destination is left as it was and
the only events on the connection are the request and the receipt of that reply. -/
theorem invoke_returns_reply_error {α : Type} (t : Port) (cmd : String)
    (args : List (String × Json)) (result : Option (Target α)) (cur : α)
    (raw : String) (j : Json) (what : responseMsg) (e : LsmError) (rest : List Incoming)
    (hs : t.sendsSucceed) (hin : t.incoming = .frame raw (.ok j) :: rest)
    (hdec : responseMsg.store j responseMsg.zero = (what, none))
    (herr : what.Error = some e) :
    transPort.invoke t cmd args result cur =
        (t.exchanged (requestOf cmd args) (.frame raw (.ok j)) rest, cur, some (.lsm e)) ∧
      (t.exchanged (requestOf cmd args) (.frame raw (.ok j)) rest).trace =
        t.trace ++ [.sent (requestOf cmd args), .received (.frame raw (.ok j))] :=
  ⟨invoke_error t cmd args result cur _ e rest hs hin ⟨raw, j, what, rfl, hdec, herr⟩,
    Port.exchanged_trace t _ _ rest⟩

/-- Witness of C4: the reply carries error 205 "not found" next to a non-null result. -/
theorem invoke_returns_reply_error_witness :
    (scripted [notFoundReply]).tp.sendsSucceed ∧
    (transPort.invoke (scripted [notFoundReply]).tp "volume_delete" []
        (some ⟨RawMessage.store⟩) none =
      ((scripted [notFoundReply]).tp.exchanged (requestOf "volume_delete" [])
        notFoundReply [], none, some (.lsm ⟨205, "not found", "vol"⟩)) ∧
      ((scripted [notFoundReply]).tp.exchanged (requestOf "volume_delete" [])
        notFoundReply []).trace =
        (scripted [notFoundReply]).tp.trace ++
          [.sent (requestOf "volume_delete" []), .received notFoundReply]) :=
  ⟨scripted_sendsSucceed _,
    invoke_returns_reply_error _ "volume_delete" [] (some ⟨RawMessage.store⟩) none ""
      _ ⟨100, some ⟨205, "not found", "vol"⟩, some (.num 7)⟩ ⟨205, "not found", "vol"⟩ []
      (scripted_sendsSucceed _) rfl rfl rfl⟩

theorem responseMsg_fold_neither (members : List (String × Json)) :
    ∀ acc : responseMsg × Option GoError, neitherField members →
      acc.1.Error = none → acc.1.Result = none →
      (members.foldl responseMsg.storeMember acc).1.Error = none ∧
        (members.foldl responseMsg.storeMember acc).1.Result = none := by
  induction members with
  | nil => intro acc _ h1 h2; exact ⟨h1, h2⟩
  | cons m ms ih =>
    intro acc hn h1 h2
    have hres : keyIs m.1 "result" = false := hn.1 m (List.mem_cons_self _ _)
    have herr : keyIs m.1 "error" = true → m.2.isNull = true :=
      hn.2 m (List.mem_cons_self _ _)
    have hms : neitherField ms :=
      ⟨fun x hx => hn.1 x (List.mem_cons_of_mem _ hx),
        fun x hx => hn.2 x (List.mem_cons_of_mem _ hx)⟩
    rw [List.foldl_cons]
    apply ih _ hms
    · unfold responseMsg.storeMember
      split
      · exact h1
      · split
        · rename_i _ he
          simp [herr he]
        · simp [hres, h1]
    · unfold responseMsg.storeMember
      split
      · exact h2
      · split
        · rename_i _ he
          simp [herr he, h2]
        · simp [hres, h2]

theorem invoke_neither (t : Port) {α : Type} (cmd : String) (args : List (String × Json))
    (result : Option (Target α)) (cur : α) (raw : String) (j : Json)
    (rest : List Incoming) (hs : t.sendsSucceed)
    (hin : t.incoming = .frame raw (.ok j) :: rest)
    (hj : ∀ members, j = .obj members → neitherField members) :
    ∃ message, transPort.invoke t cmd args result cur =
      (t.exchanged (requestOf cmd args) (.frame raw (.ok j)) rest, cur,
        some (.lsm ⟨errors.PluginBug, message, ""⟩)) := by
  rcases hdec : responseMsg.store j responseMsg.zero with ⟨what, err⟩
  cases err with
  | some e =>
    refine ⟨"Unparsable response from plugin " ++ e.Error ++ "\n", ?_⟩
    unfold transPort.invoke
    simp only [Port.send_sendsSucceed t _ hs, Port.recv, hin, hdec]
    rfl
  | none =>
    have hw : what.Error = none ∧ what.Result = none := by
      cases j with
      | obj members =>
        have := responseMsg_fold_neither members (responseMsg.zero, none)
          (hj members rfl) rfl rfl
        simp only [responseMsg.store] at hdec
        rw [hdec] at this
        exact this
      | null =>
        simp only [responseMsg.store, Prod.mk.injEq] at hdec
        rw [← hdec.1]; exact ⟨rfl, rfl⟩
      | bool b => simp [responseMsg.store] at hdec
      | num z => simp [responseMsg.store] at hdec
      | real l => simp [responseMsg.store] at hdec
      | str s => simp [responseMsg.store] at hdec
      | arr a => simp [responseMsg.store] at hdec
    refine ⟨"Unexpected response from plugin " ++ raw ++ "\n", ?_⟩
    rw [invoke_frame t cmd args result cur raw j what rest hs hin hdec, hw.1, hw.2]
    rfl

/-- C5 (amended): a response envelope with no result member whose error member is null
or absent makes `transPort.invoke` fail with an `LsmError` of code `PluginBug`, for
every method and every destination; an envelope with a null error whose result member
is present as JSON null is a success: `invoke` returns no error and leaves the
destination as it was. -/
theorem invoke_neither_field_is_plugin_bug {α : Type} (t : Port) (cmd : String)
    (args : List (String × Json)) (result : Option (Target α)) (cur : α)
    (raw : String) (j : Json) (rest : List Incoming) (hs : t.sendsSucceed)
    (hin : t.incoming = .frame raw (.ok j) :: rest)
    (hj : ∀ members, j = .obj members → neitherField members) :
    (∃ message, transPort.invoke t cmd args result cur =
      (t.exchanged (requestOf cmd args) (.frame raw (.ok j)) rest, cur,
        some (.lsm ⟨errors.PluginBug, message, ""⟩))) ∧
    (∀ (t2 : Port) (i2 : Incoming) (rest2 : List Incoming), t2.sendsSucceed →
      t2.incoming = i2 :: rest2 → i2.carries .null →
      transPort.invoke t2 cmd args result cur =
        (t2.exchanged (requestOf cmd args) i2 rest2, cur, none)) :=
  ⟨invoke_neither t cmd args result cur raw j rest hs hin hj,
    fun t2 i2 rest2 hs2 hin2 hi2 => invoke_null t2 cmd args result cur i2 rest2 hs2 hin2 hi2⟩

theorem noResultJson_neither : ∀ members, noResultJson = .obj members → neitherField members := by
  intro members h
  simp only [noResultJson, Json.obj.injEq] at h
  subst h
  constructor
  · intro m hm
    simp only [List.mem_cons, List.mem_singleton, List.not_mem_nil, or_false] at hm
    rcases hm with rfl | rfl <;> decide
  · intro m hm _
    simp only [List.mem_cons, List.mem_singleton, List.not_mem_nil, or_false] at hm
    rcases hm with rfl | rfl
    · rename_i h; exact absurd h (by decide)
    · rfl

/-- Witness of C5: the envelope with a null error member and no result member. -/
theorem invoke_neither_field_is_plugin_bug_witness :
    (scripted [.frame "" (.ok noResultJson)]).tp.sendsSucceed ∧
    (∀ members, noResultJson = .obj members → neitherField members) ∧
    (∃ message, transPort.invoke (scripted [.frame "" (.ok noResultJson)]).tp "job_free" []
        (some ⟨Volume.store⟩) Volume.zero =
      ((scripted [.frame "" (.ok noResultJson)]).tp.exchanged (requestOf "job_free" [])
        (.frame "" (.ok noResultJson)) [], Volume.zero,
        some (.lsm ⟨errors.PluginBug, message, ""⟩))) ∧
    (∀ (t2 : Port) (i2 : Incoming) (rest2 : List Incoming), t2.sendsSucceed →
      t2.incoming = i2 :: rest2 → i2.carries .null →
      transPort.invoke t2 "job_free" [] (some ⟨Volume.store⟩) Volume.zero =
        (t2.exchanged (requestOf "job_free" []) i2 rest2, Volume.zero, none)) :=
  ⟨scripted_sendsSucceed _, noResultJson_neither,
    invoke_neither_field_is_plugin_bug (scripted [.frame "" (.ok noResultJson)]).tp
      "job_free" [] (some ⟨Volume.store⟩) Volume.zero "" noResultJson []
      (scripted_sendsSucceed _) rfl noResultJson_neither⟩

/-- C5 as stated fails: for the envelope with a null error and a null result `invoke`
returns no error, with a nil destination as well as with a `Volume` destination. -/
theorem invoke_neither_field_is_plugin_bug_counterexample :
    (transPort.invoke (scripted [bothNullReply]).tp "job_free" [("job_id", .str "JOB_1")]
        (none : Option (Target Unit)) ()).2.2 = none ∧
    (transPort.invoke (scripted [bothNullReply]).tp "volume_raid_create" []
        (some ⟨Volume.store⟩) Volume.zero).2 = (Volume.zero, none) := by
  constructor <;> rfl

/-- C6: when the `job_status` replies are `n` times InProgress followed by Complete
carrying a non-null result `X` that the destination accepts as `v`, and the `job_free`
request is answered without error, `getJobOrResult` with `sync = true` returns the
value `v`, no job token and no error; on the wire there are exactly `n + 1`
`job_status` requests, each followed by its reply, and then exactly one `job_free`
request, sent after the Complete reply was received. -/
theorem sync_resolution_completes {α : Type} (fuel : Nat) (c : ClientConnection)
    (J : String) (p : Target α) (cur v : α) (prog : List Incoming)
    (done free : Incoming) (pct X r : Json) (tail : List Json) (rest : List Incoming)
    (second : RawMessage)
    (hs : c.tp.sendsSucceed) (hin : c.tp.incoming = prog ++ done :: free :: rest)
    (hprog : ∀ i ∈ prog, inProgressReply i)
    (hdone : done.carries (.arr (.num 2 :: pct :: X :: tail))) (hX : X.isNull = false)
    (hstore : p.store X cur = (v, none)) (hfree : free.carries r)
    (hfuel : prog.length + 1 ≤ fuel) :
    ∃ c1, ClientConnection.getJobOrResult fuel c none ⟨some (.str J), second⟩ true (some p) cur =
        (c1, v, some (none, none)) ∧
      c1.tp.trace = c.tp.trace ++ pollTrace J (prog ++ [done]) ++
        [.sent (freeRequest J), .received free] ∧
      requestCount "job_status" (pollTrace J (prog ++ [done]) ++
        [.sent (freeRequest J), .received free]) = prog.length + 1 ∧
      requestCount "job_free" (pollTrace J (prog ++ [done]) ++
        [.sent (freeRequest J), .received free]) = 1 := by
  obtain ⟨c1, h1, h2, _, _⟩ := JobWait_completes J p cur v done free pct X r tail rest
    hdone hX hstore hfree prog fuel c hs hin hprog hfuel
  refine ⟨c1, ?_, h2, ?_, ?_⟩
  · unfold ClientConnection.getJobOrResult
    simp [jsonUnmarshal, storeString, h1]
  · rw [requestCount_append, requestCount_pollTrace_status]
    simp [requestCount, Event.isRequest, freeRequest, requestOf]
  · rw [requestCount_append, requestCount_pollTrace_free]
    simp [requestCount, Event.isRequest, freeRequest, requestOf]

theorem okReply_inProgress (p : Nat) (hp : p ≤ 255) (x : Json) :
    inProgressReply (okReply (.arr [.num 1, .num p, x])) :=
  ⟨.num p, [x], Or.inr ⟨p, hp, rfl⟩, okReply_carries _⟩

/-- Witness of C6: InProgress(10%), InProgress(55%), Complete(result = a volume). -/
theorem sync_resolution_completes_witness :
    (scripted sampleJobReplies).tp.sendsSucceed ∧
    ∃ c1, ClientConnection.getJobOrResult 3 (scripted sampleJobReplies) none
        ⟨some (.str "JOB_1"), some .null⟩ true (some ⟨Volume.store⟩) Volume.zero =
        (c1, sampleVolume, some (none, none)) ∧
      c1.tp.trace = (scripted sampleJobReplies).tp.trace ++
        pollTrace "JOB_1" ([okReply (.arr [.num 1, .num 10, .null]),
          okReply (.arr [.num 1, .num 55, .null])] ++
          [okReply (.arr [.num 2, .num 100, sampleVolumeJson])]) ++
        [.sent (freeRequest "JOB_1"), .received (okReply .null)] ∧
      requestCount "job_status" (pollTrace "JOB_1"
          ([okReply (.arr [.num 1, .num 10, .null]),
            okReply (.arr [.num 1, .num 55, .null])] ++
            [okReply (.arr [.num 2, .num 100, sampleVolumeJson])]) ++
        [.sent (freeRequest "JOB_1"), .received (okReply .null)]) =
          [okReply (.arr [.num 1, .num 10, .null]),
            okReply (.arr [.num 1, .num 55, .null])].length + 1 ∧
      requestCount "job_free" (pollTrace "JOB_1"
          ([okReply (.arr [.num 1, .num 10, .null]),
            okReply (.arr [.num 1, .num 55, .null])] ++
            [okReply (.arr [.num 2, .num 100, sampleVolumeJson])]) ++
        [.sent (freeRequest "JOB_1"), .received (okReply .null)]) = 1 :=
  ⟨scripted_sendsSucceed _,
    sync_resolution_completes 3 (scripted sampleJobReplies) "JOB_1" ⟨Volume.store⟩
      Volume.zero sampleVolume
      [okReply (.arr [.num 1, .num 10, .null]), okReply (.arr [.num 1, .num 55, .null])]
      (okReply (.arr [.num 2, .num 100, sampleVolumeJson])) (okReply .null)
      (.num 100) sampleVolumeJson .null [] [] (some .null)
      (scripted_sendsSucceed _) rfl
      (by
        intro i hi
        simp only [List.mem_cons, List.mem_singleton, List.not_mem_nil, or_false] at hi
        rcases hi with rfl | rfl
        · exact okReply_inProgress 10 (by decide) .null
        · exact okReply_inProgress 55 (by decide) .null)
      (okReply_carries _) rfl rfl (okReply_carries _) (by decide)⟩

/-- C7 fails on the code: for the `job_status` reply `[3, null, {code: 205, message:
"not found"}]` synchronous resolution returns no value and no job token, but the error
is the fixed `PluginBug` error of `JobStatus`, not the decoded error 205. -/
theorem sync_resolution_loses_job_error :
    (ClientConnection.getJobOrResult 5 (scripted [jobErrorReply]) none
        ⟨some (.str "JOB_1"), some .null⟩ true (some ⟨Volume.store⟩) Volume.zero).2 =
      (Volume.zero, some (none, some (.lsm ⟨errors.PluginBug,
        "job_status returned error status with no error information", ""⟩))) ∧
    LsmError.store (.obj [("code", .num 205), ("message", .str "not found"),
        ("data", .str "")]) LsmError.zero = (⟨205, "not found", ""⟩, none) := by
  constructor <;> rfl

/-- C8 fails on the code: for the reply `[null, V]` the null job token is stored into
the string `job` without error, so `VolumeCreate` with `sync = false` returns the job
token `""` and no volume, and with `sync = true` it sends a `job_status` request for
the job `""`. -/
theorem immediate_value_taken_for_job :
    (ClientConnection.VolumeCreate 5 (scripted [okReply (.arr [.null, sampleVolumeJson])])
        samplePoolJson "v1" 1073741824 3 false).2 = some (none, some "", none) ∧
    ((ClientConnection.VolumeCreate 5 (scripted [okReply (.arr [.null, sampleVolumeJson])])
        samplePoolJson "v1" 1073741824 3 true).1.tp.trace.drop 2).head? =
      some (.sent (statusRequest "")) ∧
    requestCount "job_status"
      (ClientConnection.VolumeCreate 5 (scripted [okReply (.arr [.null, sampleVolumeJson])])
        samplePoolJson "v1" 1073741824 3 true).1.tp.trace = 1 := by
  refine ⟨rfl, rfl, ?_⟩
  decide

theorem VolumeCreate_async_job (fuel : Nat) (c : ClientConnection) (pool : Json)
    (volumeName : String) (size : Nat) (provisioning : Int) (J : String)
    (i : Incoming) (tail : List Json) (rest : List Incoming)
    (hs : c.tp.sendsSucceed) (hin : c.tp.incoming = i :: rest)
    (hi : i.carries (.arr (.str J :: tail))) :
    ClientConnection.VolumeCreate fuel c pool volumeName size provisioning false =
      ({ c with tp := c.tp.exchanged (requestOf "volume_create"
          [("pool", pool), ("volume_name", Json.str volumeName),
            ("size_bytes", Json.num size), ("provisioning", Json.num provisioning)]) i rest },
        some (none, some J, none)) := by
  have hinv := invoke_value c.tp "volume_create"
    [("pool", pool), ("volume_name", Json.str volumeName),
      ("size_bytes", Json.num size), ("provisioning", Json.num provisioning)] ⟨Raw2.store⟩
    ⟨none, none⟩ ⟨some (.str J), tail.get? 0⟩ i _ rest hs hin hi rfl rfl
  unfold ClientConnection.VolumeCreate
  simp only [hinv]
  simp [ClientConnection.getJobOrResult, jsonUnmarshal, storeString, ensureExclusiveVol]

/-- C9: for a reply that carries a job token `J` and a caller that asked for
asynchronous behaviour, `getJobOrResult` and `getJobOrNone` return `J` and no error and
leave the connection as it is (no `job_status`, no `job_free`); `VolumeCreate` then
returns no volume, the token `J` and no error, the only events on the connection being
the `volume_create` request and its reply. -/
theorem async_job_token_returned {α : Type} (fuel : Nat) (c : ClientConnection) (J : String)
    (second : RawMessage) (result : Option (Target α)) (cur : α)
    (pool : Json) (volumeName : String) (size : Nat) (provisioning : Int)
    (i : Incoming) (tail : List Json) (rest : List Incoming)
    (hs : c.tp.sendsSucceed) (hin : c.tp.incoming = i :: rest)
    (hi : i.carries (.arr (.str J :: tail))) :
    ClientConnection.getJobOrResult fuel c none ⟨some (.str J), second⟩ false result cur =
        (c, cur, some (some J, none)) ∧
      ClientConnection.getJobOrNone fuel c none (some (.str J)) false =
        (c, some (some J, none)) ∧
      ensureExclusiveVol Volume.zero (some J) none = (none, some J, none) ∧
      ∃ c1, ClientConnection.VolumeCreate fuel c pool volumeName size provisioning false =
          (c1, some (none, some J, none)) ∧
        c1.tp.trace = c.tp.trace ++ [.sent (requestOf "volume_create"
          [("pool", pool), ("volume_name", Json.str volumeName),
            ("size_bytes", Json.num size), ("provisioning", Json.num provisioning)]),
          .received i] ∧
        requestCount "job_status" (c1.tp.trace.drop c.tp.trace.length) = 0 ∧
        requestCount "job_free" (c1.tp.trace.drop c.tp.trace.length) = 0 := by
  refine ⟨?_, ?_, rfl, _, VolumeCreate_async_job fuel c pool volumeName size provisioning J i
    tail rest hs hin hi, ?_, ?_, ?_⟩
  · simp [ClientConnection.getJobOrResult, jsonUnmarshal, storeString]
  · simp [ClientConnection.getJobOrNone, jsonUnmarshal, storeString]
  · exact Port.exchanged_trace _ _ _ _
  · simp [Port.exchanged, requestCount, Event.isRequest, requestOf]
  · simp [Port.exchanged, requestCount, Event.isRequest, requestOf]

/-- Witness of C9: the reply `["JOB_7", null]` to `volume_create`. -/
theorem async_job_token_returned_witness :
    (scripted [okReply (.arr [.str "JOB_7", .null])]).tp.sendsSucceed ∧
    (okReply (.arr [.str "JOB_7", .null])).carries (.arr (.str "JOB_7" :: [.null])) ∧
    (ClientConnection.getJobOrResult 0 (scripted [okReply (.arr [.str "JOB_7", .null])]) none
        ⟨some (.str "JOB_7"), some .null⟩ false (some ⟨Volume.store⟩) Volume.zero =
        (scripted [okReply (.arr [.str "JOB_7", .null])], Volume.zero,
          some (some "JOB_7", none)) ∧
      ClientConnection.getJobOrNone 0 (scripted [okReply (.arr [.str "JOB_7", .null])]) none
        (some (.str "JOB_7")) false =
        (scripted [okReply (.arr [.str "JOB_7", .null])], some (some "JOB_7", none)) ∧
      ensureExclusiveVol Volume.zero (some "JOB_7") none = (none, some "JOB_7", none) ∧
      ∃ c1, ClientConnection.VolumeCreate 0 (scripted [okReply (.arr [.str "JOB_7", .null])])
          samplePoolJson "v1" 1073741824 3 false = (c1, some (none, some "JOB_7", none)) ∧
        c1.tp.trace = (scripted [okReply (.arr [.str "JOB_7", .null])]).tp.trace ++
          [.sent (requestOf "volume_create"
            [("pool", samplePoolJson), ("volume_name", Json.str "v1"),
              ("size_bytes", Json.num (1073741824 : Nat)), ("provisioning", Json.num 3)]),
            .received (okReply (.arr [.str "JOB_7", .null]))] ∧
        requestCount "job_status" (c1.tp.trace.drop
          (scripted [okReply (.arr [.str "JOB_7", .null])]).tp.trace.length) = 0 ∧
        requestCount "job_free" (c1.tp.trace.drop
          (scripted [okReply (.arr [.str "JOB_7", .null])]).tp.trace.length) = 0) :=
  ⟨scripted_sendsSucceed _, okReply_carries _,
    async_job_token_returned 0 (scripted [okReply (.arr [.str "JOB_7", .null])]) "JOB_7"
      (some .null) (some ⟨Volume.store⟩) Volume.zero samplePoolJson "v1" 1073741824 3
      (okReply (.arr [.str "JOB_7", .null])) [.null] [] (scripted_sendsSucceed _) rfl
      (okReply_carries _)⟩

/-- C10: in every run of `JobWait`, whatever the peer replies and however long the run
lasts, the events of the run are a history without any `job_free` request, followed
either by nothing or by the events of a single `JobFree` call; in the second case the
last event of the history is the receipt of a `job_status` reply whose state is
Complete.  So `job_free` is requested at most once and only directly after a Complete
reply.  When a `JobStatus` call returns an error (the request failed, or the reply
announced state Error) `JobWait` returns that error at once and no `job_free` request
is among the events. -/
theorem job_free_only_after_complete {α : Type} (fuel : Nat) (c : ClientConnection)
    (jobID : String) (rr : Option (Target α)) (cur : α) :
    (∃ hist frees,
      (ClientConnection.JobWait fuel c jobID rr cur).1.tp.trace =
        c.tp.trace ++ hist ++ frees ∧
      requestCount "job_free" hist = 0 ∧
      requestCount "job_free" (hist ++ frees) ≤ 1 ∧
      (frees = [] ∨
        ∃ i, hist.getLast? = some (.received i) ∧
          i.jobState = some JobStatusComplete ∧ isFreeExchange jobID frees)) ∧
    (∀ c1 cur1 st pc err, c.JobStatus jobID rr cur = (c1, cur1, st, pc, some err) →
      ClientConnection.JobWait (fuel + 1) c jobID rr cur = (c1, cur1, some (some err)) ∧
      ∃ evs, c1.tp.trace = c.tp.trace ++ evs ∧ requestCount "job_free" evs = 0) ∧
    (c.tp.nextReply.jobState = some JobStatusError →
      (c.JobStatus jobID rr cur).2.2.2.2 ≠ none) := by
  refine ⟨?_, ?_, ?_⟩
  · obtain ⟨hist, frees, h1, h2, h3⟩ := JobWait_shape jobID rr fuel c cur
    refine ⟨hist, frees, h1, h2, ?_, h3⟩
    rw [requestCount_append, h2]
    rcases h3 with rfl | ⟨i, _, _, hf⟩
    · simp [requestCount]
    · rw [requestCount_freeExchange jobID frees hf]
  · intro c1 cur1 st pc err hjs
    have htr := JobStatus_trace c jobID rr cur
    rw [hjs] at htr
    simp only at htr
    constructor
    · rw [ClientConnection.JobWait, hjs]
    · rcases htr with ⟨e2, h1, _⟩ | ⟨h1, _⟩
      · exact ⟨_, h1, requestCount_statusFailed jobID e2⟩
      · exact ⟨_, h1, requestCount_statusPoll jobID _⟩
  · intro hstate hnone
    rcases JobStatus_trace c jobID rr cur with ⟨e2, _, h2⟩ | ⟨_, h2⟩
    · exact h2 hnone
    · obtain ⟨k1, k2⟩ := h2 hnone
      rw [hstate] at k1
      simp only [Option.some.injEq] at k1
      rw [← k1] at k2
      simp [JobStatusError, JobStatusInprogress, JobStatusComplete] at k2

/-- Witness of C10: for the `job_status` reply with state Error carrying error 205 the
`JobStatus` call returns an error, `JobWait` stops there, and no `job_free` request is
among the events of the run. -/
theorem job_free_only_after_complete_witness :
    (scripted [jobErrorReply]).tp.nextReply.jobState = some JobStatusError ∧
    ((scripted [jobErrorReply]).JobStatus "JOB_1" (some ⟨Volume.store⟩)
        Volume.zero).2.2.2.2 ≠ none ∧
    requestCount "job_free"
      (ClientConnection.JobWait 5 (scripted [jobErrorReply]) "JOB_1" (some ⟨Volume.store⟩)
        Volume.zero).1.tp.trace = 0 :=
  ⟨rfl,
    (job_free_only_after_complete 5 (scripted [jobErrorReply]) "JOB_1" (some ⟨Volume.store⟩)
      Volume.zero).2.2 rfl,
    by decide⟩

/-! ## Capabilities: lemmas -/

theorem toInt32_def (z : Int) : toInt32 z = (2147483648 + z) % 4294967296 - 2147483648 := by
  unfold toInt32; rfl

theorem toInt32_eq (z k : Int) (h0 : -2147483648 ≤ z - k * 4294967296)
    (h1 : z - k * 4294967296 < 2147483648) : toInt32 z = z - k * 4294967296 := by
  unfold toInt32; omega

theorem toInt32_lt (z : Int) : toInt32 z < 2147483648 := by
  unfold toInt32; omega

theorem sliceString_bounds (s : List Nat) (lo hi : Int)
    (h : lo < 0 ∨ hi < lo ∨ (s.length : Int) < hi) : sliceString s lo hi = .error .sliceBounds := by
  unfold sliceString
  rw [if_neg]
  omega

/-- The offset `int32(cap) * 2` for the ids of the four quarters of `uint32`. -/
theorem capIdx_cases (cap : Nat) (hcap : cap < 4294967296) :
    (cap < 1073741824 ∧ toInt32 (toInt32 cap * 2) = 2 * cap) ∨
    (1073741824 ≤ cap ∧ cap < 2147483648 ∧ toInt32 (toInt32 cap * 2) < 0) ∨
    (2147483648 ≤ cap ∧ cap < 3221225472 ∧
      toInt32 (toInt32 cap * 2) = 2 * (cap - 2147483648 : Int)) ∨
    (3221225472 ≤ cap ∧ toInt32 (toInt32 cap * 2) < 0) := by
  by_cases h1 : cap < 2147483648
  · have e1 : toInt32 cap = cap := by
      have := toInt32_eq cap 0 (by omega) (by omega); simpa using this
    rw [e1]
    by_cases h2 : cap < 1073741824
    · left
      refine ⟨h2, ?_⟩
      have := toInt32_eq ((cap : Int) * 2) 0 (by omega) (by omega)
      rw [this]; omega
    · right; left
      refine ⟨by omega, h1, ?_⟩
      have := toInt32_eq ((cap : Int) * 2) 1 (by omega) (by omega)
      rw [this]; omega
  · have e1 : toInt32 cap = cap - 4294967296 := by
      have := toInt32_eq cap 1 (by omega) (by omega); simpa using this
    rw [e1]
    by_cases h2 : cap < 3221225472
    · right; right; left
      refine ⟨by omega, h2, ?_⟩
      have := toInt32_eq (((cap : Int) - 4294967296) * 2) (-1) (by omega) (by omega)
      rw [this]; omega
    · right; right; right
      refine ⟨by omega, ?_⟩
      have := toInt32_eq (((cap : Int) - 4294967296) * 2) 0 (by omega) (by omega)
      rw [this]; omega




theorem take_two_drop (s : List Nat) (k : Nat) (h0 : k < s.length) (h1 : k + 1 < s.length) :
    List.take 2 (List.drop k s) = [s[k], s[k + 1]] := by
  rw [List.drop_eq_getElem_cons h0, List.drop_eq_getElem_cons h1]
  rfl

theorem sliceString_two (s : List Nat) (k : Nat) (h : k + 2 ≤ s.length) :
    ∃ a b, s[k]? = some a ∧ s[k + 1]? = some b ∧
      sliceString s k (k + 2) = .ok [a, b] := by
  have h0 : k < s.length := by omega
  have h1 : k + 1 < s.length := by omega
  refine ⟨s[k], s[k + 1], List.getElem?_eq_getElem h0, List.getElem?_eq_getElem h1, ?_⟩
  unfold sliceString
  have hc : (0 : Int) ≤ k ∧ (k : Int) ≤ k + 2 ∧ (k : Int) + 2 ≤ s.length := by omega
  rw [if_pos hc]
  have e1 : ((k : Int) + 2 - k).toNat = 2 := by omega
  rw [e1, Int.toNat_ofNat, take_two_drop s k h0 h1]


theorem IsSupported_of_slice (c : Capabilities) (cap : Nat) (lo hi : Int) (flag : List Nat)
    (e1 : toInt32 (toInt32 cap * 2) = lo) (e2 : toInt32 (lo + 2) = hi)
    (hs : sliceString c.Cap lo hi = .ok flag) :
    c.IsSupported cap = .ok (decide (flag = capSupported)) := by
  unfold Capabilities.IsSupported
  simp only [e1, e2, hs]
  by_cases h : flag = capSupported <;> simp [h]

theorem IsSupported_of_panic (c : Capabilities) (cap : Nat) (lo hi : Int) (p : Panic)
    (e1 : toInt32 (toInt32 cap * 2) = lo) (e2 : toInt32 (lo + 2) = hi)
    (hs : sliceString c.Cap lo hi = .error p) : c.IsSupported cap = .error p := by
  unfold Capabilities.IsSupported
  simp only [e1, e2, hs]

theorem IsSupported_inRange (c : Capabilities) (cap : Nat) (hlen : 2 * cap + 2 ≤ c.Cap.length)
    (hsmall : 2 * cap + 2 < 2147483648) :
    ∃ a b, c.Cap[2 * cap]? = some a ∧ c.Cap[2 * cap + 1]? = some b ∧
      c.IsSupported cap = .ok (decide (a = 48 ∧ b = 49)) := by
  obtain ⟨a, b, ha, hb, hs⟩ := sliceString_two c.Cap (2 * cap) hlen
  refine ⟨a, b, ha, hb, ?_⟩
  have e1 : toInt32 (toInt32 cap * 2) = ((2 * cap : Nat) : Int) := by
    rcases capIdx_cases cap (by omega) with h | h | h | h
    · rw [h.2]; omega
    all_goals omega
  have e2 : toInt32 (((2 * cap : Nat) : Int) + 2) = ((2 * cap : Nat) : Int) + 2 := by
    have := toInt32_eq (((2 * cap : Nat) : Int) + 2) 0 (by omega) (by omega)
    rw [this]; omega
  rw [IsSupported_of_slice c cap _ _ _ e1 e2 hs]
  congr 1
  simp [capSupported]

theorem IsSupported_outOfRange (c : Capabilities) (cap : Nat) (hcap : cap < 4294967296)
    (hwin : cap < 2147483648 ∨ 3221225472 ≤ cap) (hlen : c.Cap.length < 2 * cap + 2) :
    c.IsSupported cap = .error .sliceBounds := by
  have key : ∀ lo, toInt32 (toInt32 cap * 2) = lo →
      (lo < 0 ∨ toInt32 (lo + 2) < lo ∨ (c.Cap.length : Int) < toInt32 (lo + 2)) →
      c.IsSupported cap = .error .sliceBounds := fun lo e1 h =>
    IsSupported_of_panic c cap lo _ _ e1 rfl (sliceString_bounds _ _ _ h)
  rcases capIdx_cases cap hcap with h | h | h | h
  · apply key _ h.2
    right
    by_cases h2 : 2 * cap + 2 < 2147483648
    · right
      have := toInt32_eq (2 * (cap : Int) + 2) 0 (by omega) (by omega)
      rw [this]; omega
    · left
      have := toInt32_eq (2 * (cap : Int) + 2) 1 (by omega) (by omega)
      rw [this]; omega
  · exact key _ rfl (Or.inl h.2.2)
  · omega
  · exact key _ rfl (Or.inl h.2)

theorem capIdx_overflow : toInt32 (toInt32 (1073741823 : Nat) * 2) = 2147483646 := by
  rw [toInt32_def, toInt32_def]; decide

theorem capEnd_overflow : toInt32 ((2147483646 : Int) + 2) = -2147483648 := by
  rw [toInt32_def]; decide

theorem sliceString_overflow (s : List Nat) :
    sliceString s 2147483646 (-2147483648) = .error .sliceBounds :=
  sliceString_bounds _ _ _ (Or.inr (Or.inl (by decide)))

theorem IsSupported_overflow (c : Capabilities) :
    c.IsSupported 1073741823 = .error .sliceBounds :=
  IsSupported_of_panic c _ _ _ _ capIdx_overflow capEnd_overflow (sliceString_overflow c.Cap)

theorem capIdx_wrapped : toInt32 (toInt32 (2147483648 : Nat) * 2) = 0 := by
  rw [toInt32_def, toInt32_def]; decide

theorem capEnd_wrapped : toInt32 ((0 : Int) + 2) = 2 := by
  rw [toInt32_def]; decide

theorem IsSupported_wrapped :
    Capabilities.IsSupported ⟨"Capabilities", [48, 49]⟩ 2147483648 = .ok true :=
  IsSupported_of_slice ⟨"Capabilities", [48, 49]⟩ 2147483648 0 2 [48, 49]
    capIdx_wrapped capEnd_wrapped (by decide)

theorem IsSupportedSet_cons (c : Capabilities) (i : Nat) (rest : List Nat) :
    c.IsSupportedSet (i :: rest) =
      match c.IsSupported i with
      | .error p => .error p
      | .ok false => .ok false
      | .ok true => c.IsSupportedSet rest := by
  rw [Capabilities.IsSupportedSet]

theorem IsSupportedSet_true_iff (c : Capabilities) (caps : List Nat) :
    c.IsSupportedSet caps = .ok true ↔ ∀ i ∈ caps, c.IsSupported i = .ok true := by
  induction caps with
  | nil => exact ⟨fun _ i hi => absurd hi (List.not_mem_nil i), fun _ => rfl⟩
  | cons i rest ih =>
    rw [IsSupportedSet_cons]
    rcases h : c.IsSupported i with p | b
    · simp [h]
    · cases b
      · simp [h]
      · simp [h, ih]

theorem IsSupportedSet_stops (c : Capabilities) (pre : List Nat) (i : Nat) (post : List Nat)
    (hpre : ∀ j ∈ pre, c.IsSupported j = .ok true) (hi : c.IsSupported i = .ok false) :
    c.IsSupportedSet (pre ++ i :: post) = .ok false := by
  induction pre with
  | nil => rw [List.nil_append, IsSupportedSet_cons, hi]
  | cons j rest ih =>
    have hj := hpre j (List.mem_cons_self _ _)
    rw [List.cons_append, IsSupportedSet_cons, hj]
    exact ih (fun k hk => hpre k (List.mem_cons_of_mem _ hk))

theorem capIdx_zero : toInt32 (toInt32 (0 : Nat) * 2) = 0 := by
  rw [toInt32_def, toInt32_def]; decide

theorem capIdx_one : toInt32 (toInt32 (1 : Nat) * 2) = 2 := by
  rw [toInt32_def, toInt32_def]; decide

theorem capEnd_one : toInt32 ((2 : Int) + 2) = 4 := by
  rw [toInt32_def]; decide

/-! ## Capabilities: the claims -/

/-- C16 (amended): for every capability bitstring `s` and every capability id `c` with
`2*c + 2 <= len(s)` and `2*c + 2 < 2^31`, `IsSupported(c)` returns, without failing,
true if the two bytes of `s` at the offsets `2*c` and `2*c + 1` are `"01"` and false
for any other two bytes. -/
theorem is_supported_reads_flag (c : Capabilities) (cap : Nat)
    (hlen : 2 * cap + 2 ≤ c.Cap.length) (hsmall : 2 * cap + 2 < 2147483648) :
    ∃ a b, c.Cap[2 * cap]? = some a ∧ c.Cap[2 * cap + 1]? = some b ∧
      c.IsSupported cap = .ok (decide (a = 48 ∧ b = 49)) :=
  IsSupported_inRange c cap hlen hsmall

/-- Witness of C16: in the bitstring `"0100"` capability 0 is supported and capability
1 is not. -/
theorem is_supported_reads_flag_witness :
    (2 * 1 + 2 ≤ (Capabilities.mk "Capabilities" [48, 49, 48, 48]).Cap.length ∧
      2 * 1 + 2 < 2147483648) ∧
    ∃ a b, (Capabilities.mk "Capabilities" [48, 49, 48, 48]).Cap[2 * 1]? = some a ∧
      (Capabilities.mk "Capabilities" [48, 49, 48, 48]).Cap[2 * 1 + 1]? = some b ∧
      (Capabilities.mk "Capabilities" [48, 49, 48, 48]).IsSupported 1 =
        .ok (decide (a = 48 ∧ b = 49)) :=
  ⟨by decide, is_supported_reads_flag ⟨"Capabilities", [48, 49, 48, 48]⟩ 1 (by decide) (by decide)⟩

/-- C16 as stated fails: for a bitstring of 2^31 bytes and the capability id
`2^30 - 1` the offset `2*c + 2` equals the length, yet `capIdx + 2` overflows `int32`
and `IsSupported` panics instead of returning true or false. -/
theorem is_supported_reads_flag_counterexample :
    2 * 1073741823 + 2 ≤
        (Capabilities.mk "Capabilities" (List.replicate 2147483648 48)).Cap.length ∧
      (Capabilities.mk "Capabilities" (List.replicate 2147483648 48)).IsSupported 1073741823 =
        .error .sliceBounds := by
  refine ⟨?_, IsSupported_overflow _⟩
  show 2 * 1073741823 + 2 ≤ (List.replicate 2147483648 48).length
  rw [List.length_replicate]

/-- C17 (amended): for every capability bitstring `s` and every capability id `c`
below 2^31, or from `3 * 2^30` up to `2^32 - 1`, with `2*c + 2 > len(s)`,
`IsSupported(c)` panics with a slice-bounds failure and returns neither true nor
false; this covers the ids from 2^30 up to `2^31 - 1`, whose `int32` offset is
negative. -/
theorem is_supported_out_of_range_panics (c : Capabilities) (cap : Nat)
    (hcap : cap < 4294967296) (hwin : cap < 2147483648 ∨ 3221225472 ≤ cap)
    (hlen : c.Cap.length < 2 * cap + 2) :
    c.IsSupported cap = .error .sliceBounds ∧
      c.IsSupported cap ≠ .ok true ∧ c.IsSupported cap ≠ .ok false := by
  have h := IsSupported_outOfRange c cap hcap hwin hlen
  rw [h]
  exact ⟨rfl, by simp, by simp⟩

/-- Witness of C17: capability 2^30 on the bitstring `"01"`. -/
theorem is_supported_out_of_range_panics_witness :
    (1073741824 < 4294967296 ∧ (1073741824 < 2147483648 ∨ 3221225472 ≤ 1073741824) ∧
      (Capabilities.mk "Capabilities" [48, 49]).Cap.length < 2 * 1073741824 + 2) ∧
    ((Capabilities.mk "Capabilities" [48, 49]).IsSupported 1073741824 = .error .sliceBounds ∧
      (Capabilities.mk "Capabilities" [48, 49]).IsSupported 1073741824 ≠ .ok true ∧
      (Capabilities.mk "Capabilities" [48, 49]).IsSupported 1073741824 ≠ .ok false) :=
  ⟨by decide, is_supported_out_of_range_panics ⟨"Capabilities", [48, 49]⟩ 1073741824
    (by decide) (by decide) (by decide)⟩

/-- C17 as stated fails: for the capability id 2^31 the offset `int32(c) * 2` wraps to
0, so on the bitstring `"01"`, which is far shorter than `2*c + 2`, `IsSupported`
returns true instead of failing. -/
theorem is_supported_out_of_range_panics_counterexample :
    2147483648 < 4294967296 ∧
      (Capabilities.mk "Capabilities" [48, 49]).Cap.length < 2 * 2147483648 + 2 ∧
      (Capabilities.mk "Capabilities" [48, 49]).IsSupported 2147483648 = .ok true :=
  ⟨by decide, by decide, IsSupported_wrapped⟩

/-- C18: `IsSupportedSet` returns true exactly when `IsSupported` returns true for
every id of the list (so it is true for the empty list), and it stops at the first
unsupported id: when the ids before `i` are supported and `i` is not, the result is
false whatever follows `i`, ids that make `IsSupported` panic included. -/
theorem is_supported_set_all (c : Capabilities) (caps : List Nat) :
    (c.IsSupportedSet caps = .ok true ↔ ∀ i ∈ caps, c.IsSupported i = .ok true) ∧
    c.IsSupportedSet [] = .ok true ∧
    (∀ pre i post, caps = pre ++ i :: post → (∀ j ∈ pre, c.IsSupported j = .ok true) →
      c.IsSupported i = .ok false → c.IsSupportedSet caps = .ok false) :=
  ⟨IsSupportedSet_true_iff c caps, rfl,
    fun pre i post h hpre hi => h ▸ IsSupportedSet_stops c pre i post hpre hi⟩

/-- Witness of C18: on the bitstring `"0100"` the list `[0, 1, 7]` gives false although
`IsSupported(7)` panics, since the unsupported id 1 comes first. -/
theorem is_supported_set_all_witness :
    (Capabilities.mk "Capabilities" [48, 49, 48, 48]).IsSupported 7 = .error .sliceBounds ∧
    (Capabilities.mk "Capabilities" [48, 49, 48, 48]).IsSupportedSet [0, 1, 7] = .ok false :=
  ⟨IsSupported_outOfRange _ 7 (by decide) (by decide) (by decide),
    (is_supported_set_all ⟨"Capabilities", [48, 49, 48, 48]⟩ [0, 1, 7]).2.2 [0] 1 [7] rfl
      (by
        intro j hj
        simp only [List.mem_singleton] at hj
        subst hj
        exact IsSupported_of_slice _ 0 0 2 [48, 49] capIdx_zero capEnd_wrapped (by decide))
      (IsSupported_of_slice _ 1 2 4 [48, 48] capIdx_one capEnd_one (by decide))⟩

/-! ## Job status: further lemmas -/

theorem sendsSucceed_head (t : Port) (hs : t.sendsSucceed) :
    ∀ e rest, t.sendErrs ≠ some e :: rest := by
  intro e rest h
  have := hs (some e) (by rw [h]; exact List.mem_cons_self _ _)
  cases this

theorem invoke_reply {α : Type} (t : Port) (cmd : String) (args : List (String × Json))
    (result : Option (Target α)) (cur : α) (i : Incoming) (rest : List Incoming)
    (hs : t.sendsSucceed) (hin : t.incoming = i :: rest) :
    transPort.invoke t cmd args result cur =
      (t.exchanged (requestOf cmd args) i rest, replyOutcome cmd result cur i) := by
  rcases invoke_eq t cmd args result cur with ⟨e, r, h, _⟩ | ⟨_, h⟩
  · exact absurd h (sendsSucceed_head t hs e r)
  · rw [h]
    simp [Port.exchanged, Port.nextReply, hin]

theorem JobStatus_array {α : Type} (c : ClientConnection) (jobID : String)
    (rr : Option (Target α)) (cur : α) (i : Incoming) (items : List Json)
    (rest : List Incoming) (hs : c.tp.sendsSucceed) (hin : c.tp.incoming = i :: rest)
    (hi : i.carries (.arr items)) :
    c.JobStatus jobID rr cur =
      ({ c with tp := c.tp.exchanged (statusRequest jobID) i rest },
        statusOutcome rr cur ⟨items.get? 0, items.get? 1, items.get? 2⟩ none) := by
  have hinv := invoke_value c.tp "job_status" [("job_id", Json.str jobID)] ⟨Raw3.store⟩
    ⟨none, none, none⟩ ⟨items.get? 0, items.get? 1, items.get? 2⟩ i _ rest hs hin hi rfl rfl
  rw [JobStatus_eq, hinv]
  rfl

theorem statusOutcome_complete {α : Type} (rr : Option (Target α)) (cur : α)
    (pct payload : RawMessage) :
    statusOutcome rr cur ⟨some (.num 2), pct, payload⟩ none =
      if payload.notNullText ∧ rr.isSome then
        ((jsonUnmarshal payload rr cur).1, JobStatusComplete, 100, (jsonUnmarshal payload rr cur).2)
      else (cur, JobStatusComplete, 100, none) := by
  simp [statusOutcome, jsonUnmarshal, storeUint, JobStatusInprogress, JobStatusComplete]

theorem statusOutcome_invalid {α : Type} (rr : Option (Target α)) (cur : α)
    (pct payload : RawMessage) (z : Int) (h0 : 0 ≤ z) (h1 : z < 4294967296)
    (hz : z ≠ 1 ∧ z ≠ 2 ∧ z ≠ 3) :
    statusOutcome rr cur ⟨some (.num z), pct, payload⟩ none =
      (cur, JobStatusError, 0,
        some (pluginBug ("Invalid status type returned " ++ toString z.toNat))) := by
  have hr : 0 ≤ z ∧ z < 2 ^ 32 := ⟨h0, by norm_num; exact h1⟩
  have e1 : ¬ z.toNat = 1 := by omega
  have e2 : ¬ z.toNat = 2 := by omega
  have e3 : ¬ z.toNat = 3 := by omega
  simp only [statusOutcome, jsonUnmarshal, storeUint, hr, and_self, if_true,
    JobStatusInprogress, JobStatusComplete, JobStatusError, e1, e2, e3, if_false]

theorem statusOutcome_outOfRange {α : Type} (rr : Option (Target α)) (cur : α)
    (pct payload : RawMessage) (z : Int) (hz : z < 0 ∨ 4294967296 ≤ z) :
    statusOutcome rr cur ⟨some (.num z), pct, payload⟩ none =
      (cur, JobStatusError, 0,
        some (numberTypeError (toString z) "libstoragemgmt.JobStatusType")) := by
  have hr : ¬ (0 ≤ z ∧ z < 2 ^ 32) := by
    norm_num; omega
  simp only [statusOutcome, jsonUnmarshal, storeUint, hr, if_false]

theorem JobWait_error {α : Type} (fuel : Nat) (c c1 : ClientConnection) (jobID : String)
    (rr : Option (Target α)) (cur cur1 : α) (st : JobStatusType) (pc : Nat) (err : GoError)
    (h : c.JobStatus jobID rr cur = (c1, cur1, st, pc, some err)) :
    ClientConnection.JobWait (fuel + 1) c jobID rr cur = (c1, cur1, some (some err)) := by
  rw [ClientConnection.JobWait, h]

theorem JobFree_fails (c : ClientConnection) (jobID : String) (free : Incoming)
    (rest : List Incoming) (freeError : GoError) (hs : c.tp.sendsSucceed)
    (hin : c.tp.incoming = free :: rest)
    (hfree : (replyOutcome "job_free" (none : Option (Target Unit)) () free).2 =
      some freeError) :
    c.JobFree jobID =
      ({ c with tp := c.tp.exchanged (freeRequest jobID) free rest }, some freeError) := by
  unfold ClientConnection.JobFree
  simp only [invoke_reply c.tp "job_free" _ none () free rest hs hin, hfree]
  rfl

theorem JobWait_freeFails {α : Type} (jobID : String) (rr : Option (Target α))
    (done free : Incoming) (tail : List Json) (rest : List Incoming) (freeError : GoError)
    (hdone : done.carries (.arr (.num 2 :: tail)))
    (hfree : (replyOutcome "job_free" (none : Option (Target Unit)) () free).2 =
      some freeError) :
    ∀ (prog : List Incoming) (fuel : Nat) (c : ClientConnection) (cur v : α),
      c.tp.sendsSucceed → c.tp.incoming = prog ++ done :: free :: rest →
      (∀ i ∈ prog, inProgressReply i) → prog.length + 1 ≤ fuel →
      statusOutcome rr cur ⟨some (.num 2), tail.get? 0, tail.get? 1⟩ none =
        (v, JobStatusComplete, 100, none) →
      ∃ c1, ClientConnection.JobWait fuel c jobID rr cur =
          (c1, v, some (some (pluginBug ("We successfully waited for job " ++ jobID ++
            ", but got an error freeing it: " ++ freeError.Error)))) ∧
        c1.tp.trace = c.tp.trace ++ pollTrace jobID (prog ++ [done]) ++
          [.sent (freeRequest jobID), .received free] := by
  intro prog
  induction prog with
  | nil =>
    intro fuel c cur v hs hin _ hfuel hout
    obtain ⟨f, rfl⟩ : ∃ f, fuel = f + 1 := ⟨fuel - 1, by omega⟩
    have hst := JobStatus_array c jobID rr cur done (.num 2 :: tail) (free :: rest) hs
      (by simpa using hin) hdone
    have hs1 := Port.exchanged_sendsSucceed c.tp (statusRequest jobID) done (free :: rest) hs
    have hfr := JobFree_fails
      { c with tp := (c.tp.exchanged (statusRequest jobID) done (free :: rest)) }
      jobID free rest freeError hs1 rfl hfree
    refine ⟨{ c with tp := ((c.tp.exchanged (statusRequest jobID) done
      (free :: rest)).exchanged (freeRequest jobID) free rest) }, ?_, ?_⟩
    · have hout2 : statusOutcome rr cur
          ⟨(Json.num 2 :: tail).get? 0, (Json.num 2 :: tail).get? 1,
            (Json.num 2 :: tail).get? 2⟩ none = (v, JobStatusComplete, 100, none) := hout
      rw [hout2] at hst
      unfold ClientConnection.JobWait
      simp only [hst]
      simp only [JobStatusComplete, JobStatusInprogress, Nat.reduceEqDiff, if_false, if_true]
      simp only [JobStatusComplete] at hfr
      rw [hfr]
    · simp [Port.exchanged, pollTrace]
  | cons i prog ih =>
    intro fuel c cur v hs hin hprog hfuel hout
    obtain ⟨f, rfl⟩ : ∃ f, fuel = f + 1 := ⟨fuel - 1, by simp at hfuel; omega⟩
    obtain ⟨pc, hst⟩ := JobStatus_inProgress c jobID rr cur i
      (prog ++ done :: free :: rest) hs (by simpa using hin)
      (hprog i (List.mem_cons_self _ _))
    have hs1 := Port.exchanged_sendsSucceed c.tp (statusRequest jobID) i
      (prog ++ done :: free :: rest) hs
    obtain ⟨c1, h1, h2⟩ := ih f
      { c with tp := (c.tp.exchanged (statusRequest jobID) i (prog ++ done :: free :: rest)) }
      cur v hs1 rfl (fun x hx => hprog x (List.mem_cons_of_mem _ hx))
      (by simp at hfuel; omega) hout
    refine ⟨c1, ?_, ?_⟩
    · unfold ClientConnection.JobWait
      simp only [hst]
      simp only [JobStatusInprogress, if_true]
      exact h1
    · rw [h2]
      simp [Port.exchanged, pollTrace]

theorem JobWait_observed {α : Type} (fuel : Nat) (c c1 c2 : ClientConnection)
    (jobID : String) (rr : Option (Target α)) (cur cur1 : α) (pc : Nat)
    (freeError : GoError)
    (hst : c.JobStatus jobID rr cur = (c1, cur1, JobStatusComplete, pc, none))
    (hfree : c1.JobFree jobID = (c2, some freeError)) :
    ClientConnection.JobWait (fuel + 1) c jobID rr cur =
      (c2, cur1, some (some (pluginBug ("We successfully waited for job " ++ jobID ++
        ", but got an error freeing it: " ++ freeError.Error)))) := by
  unfold ClientConnection.JobWait
  simp only [hst]
  simp only [JobStatusComplete, JobStatusInprogress, Nat.reduceEqDiff, if_false, if_true]
  rw [hfree]

/-! ## Job status: the claims -/

/-- C11: when `JobStatus` reports Complete without error and the `JobFree` call that
follows returns an error `freeError`, whatever its cause, `JobWait` returns the
`LsmError` with code `PluginBug` whose message names the job and says that waiting
succeeded but freeing failed, and never nil.  In particular, after `n` InProgress
replies and a Complete reply, a reply to `job_free` that `invoke` turns into an error
makes `JobWait` return that `PluginBug` error, the `job_free` request having been sent
once, after the Complete reply. -/
theorem job_free_failure_is_reported {α : Type} (fuel : Nat) (c : ClientConnection)
    (jobID : String) (rr : Option (Target α)) (cur v : α) (prog : List Incoming)
    (done free : Incoming) (tail : List Json) (rest : List Incoming) (freeError : GoError)
    (hs : c.tp.sendsSucceed) (hin : c.tp.incoming = prog ++ done :: free :: rest)
    (hprog : ∀ i ∈ prog, inProgressReply i)
    (hdone : done.carries (.arr (.num 2 :: tail)))
    (hacc : statusOutcome rr cur ⟨some (.num 2), tail.get? 0, tail.get? 1⟩ none =
      (v, JobStatusComplete, 100, none))
    (hfree : (replyOutcome "job_free" (none : Option (Target Unit)) () free).2 =
      some freeError)
    (hfuel : prog.length + 1 ≤ fuel) :
    (∃ c1, ClientConnection.JobWait fuel c jobID rr cur =
        (c1, v, some (some (.lsm ⟨errors.PluginBug, "We successfully waited for job " ++
          jobID ++ ", but got an error freeing it: " ++ freeError.Error, ""⟩))) ∧
      c1.tp.trace = c.tp.trace ++ pollTrace jobID (prog ++ [done]) ++
        [.sent (freeRequest jobID), .received free]) ∧
    (∀ (k : Nat) (d d1 d2 : ClientConnection) (cur0 cur1 : α) (pc : Nat) (e : GoError),
      d.JobStatus jobID rr cur0 = (d1, cur1, JobStatusComplete, pc, none) →
      d1.JobFree jobID = (d2, some e) →
      ClientConnection.JobWait (k + 1) d jobID rr cur0 =
        (d2, cur1, some (some (.lsm ⟨errors.PluginBug, "We successfully waited for job " ++
          jobID ++ ", but got an error freeing it: " ++ e.Error, ""⟩)))) :=
  ⟨JobWait_freeFails jobID rr done free tail rest freeError hdone hfree prog fuel c cur v
      hs hin hprog hfuel hacc,
    fun k d d1 d2 cur0 cur1 pc e h1 h2 => JobWait_observed k d d1 d2 jobID rr cur0 cur1 pc e h1 h2⟩

/-- Witness of C11: InProgress(10%), Complete(a volume), and error 205 in reply to
`job_free`. -/
theorem job_free_failure_is_reported_witness :
    ∃ c1, ClientConnection.JobWait 2
        (scripted [okReply (.arr [.num 1, .num 10, .null]),
          okReply (.arr [.num 2, .num 100, sampleVolumeJson]), notFoundReply])
        "JOB_1" (some ⟨Volume.store⟩) Volume.zero =
        (c1, sampleVolume, some (some (.lsm ⟨errors.PluginBug,
          "We successfully waited for job " ++ "JOB_1" ++
            ", but got an error freeing it: " ++
            (GoError.lsm ⟨205, "not found", "vol"⟩).Error, ""⟩))) ∧
      c1.tp.trace =
        (scripted [okReply (.arr [.num 1, .num 10, .null]),
          okReply (.arr [.num 2, .num 100, sampleVolumeJson]), notFoundReply]).tp.trace ++
        pollTrace "JOB_1" ([okReply (.arr [.num 1, .num 10, .null])] ++
          [okReply (.arr [.num 2, .num 100, sampleVolumeJson])]) ++
        [.sent (freeRequest "JOB_1"), .received notFoundReply] :=
  (job_free_failure_is_reported 2
    (scripted [okReply (.arr [.num 1, .num 10, .null]),
      okReply (.arr [.num 2, .num 100, sampleVolumeJson]), notFoundReply])
    "JOB_1" (some ⟨Volume.store⟩) Volume.zero sampleVolume
    [okReply (.arr [.num 1, .num 10, .null])]
    (okReply (.arr [.num 2, .num 100, sampleVolumeJson])) notFoundReply
    [.num 100, sampleVolumeJson] [] (.lsm ⟨205, "not found", "vol"⟩)
    (scripted_sendsSucceed _) rfl
    (by
      intro i hi
      simp only [List.mem_singleton] at hi
      subst hi
      exact okReply_inProgress 10 (by decide) .null)
    (okReply_carries _) rfl rfl (by decide)).1

/-- C19 (amended): for every `job_status` reply whose encoded state is an integer other
than 1, 2 and 3, `JobStatus` fails: with an `LsmError` of code `PluginBug` when the
integer is in the range of `uint32`, and with the decoding error of `encoding/json`
when it is not.  `JobWait` returns that error at once, and the only events on the
connection are the `job_status` request and its reply: no `job_free` is sent. -/
theorem job_status_invalid_state {α : Type} (fuel : Nat) (c : ClientConnection)
    (jobID : String) (rr : Option (Target α)) (cur : α) (i : Incoming) (z : Int)
    (tail : List Json) (rest : List Incoming)
    (hs : c.tp.sendsSucceed) (hin : c.tp.incoming = i :: rest)
    (hi : i.carries (.arr (.num z :: tail))) (hz : z ≠ 1 ∧ z ≠ 2 ∧ z ≠ 3) :
    ∃ err, c.JobStatus jobID rr cur =
        ({ c with tp := c.tp.exchanged (statusRequest jobID) i rest }, cur,
          JobStatusError, 0, some err) ∧
      ClientConnection.JobWait (fuel + 1) c jobID rr cur =
        ({ c with tp := c.tp.exchanged (statusRequest jobID) i rest }, cur,
          some (some err)) ∧
      (c.tp.exchanged (statusRequest jobID) i rest).trace =
        c.tp.trace ++ [.sent (statusRequest jobID), .received i] ∧
      requestCount "job_free" [.sent (statusRequest jobID), .received i] = 0 ∧
      (0 ≤ z ∧ z < 4294967296 → err = .lsm ⟨errors.PluginBug,
        "Invalid status type returned " ++ toString z.toNat, ""⟩) ∧
      (z < 0 ∨ 4294967296 ≤ z →
        err = .other ("json: cannot unmarshal number " ++ toString z ++
          " into Go value of type " ++ "libstoragemgmt.JobStatusType")) := by
  have hst := JobStatus_array c jobID rr cur i (.num z :: tail) rest hs hin hi
  have key : ∀ err, statusOutcome rr cur ⟨some (.num z), tail.get? 0, tail.get? 1⟩ none =
      (cur, JobStatusError, 0, some err) →
      c.JobStatus jobID rr cur =
        ({ c with tp := c.tp.exchanged (statusRequest jobID) i rest }, cur,
          JobStatusError, 0, some err) := by
    intro err h
    rw [hst]
    exact congrArg _ h
  by_cases hr : 0 ≤ z ∧ z < 4294967296
  · have h1 := key _ (statusOutcome_invalid rr cur (tail.get? 0) (tail.get? 1) z hr.1 hr.2 hz)
    exact ⟨_, h1, JobWait_error fuel c _ jobID rr cur cur _ _ _ h1,
      Port.exchanged_trace _ _ _ _, requestCount_statusPoll jobID i, fun _ => rfl,
      fun h => by omega⟩
  · have hr2 : z < 0 ∨ 4294967296 ≤ z := by omega
    have h1 := key _ (statusOutcome_outOfRange rr cur (tail.get? 0) (tail.get? 1) z hr2)
    exact ⟨_, h1, JobWait_error fuel c _ jobID rr cur cur _ _ _ h1,
      Port.exchanged_trace _ _ _ _, requestCount_statusPoll jobID i, fun h => absurd h hr,
      fun _ => rfl⟩

/-- Witness of C19: the state 7. -/
theorem job_status_invalid_state_witness :
    ∃ err, (scripted [okReply (.arr [.num 7, .null, .null])]).JobStatus "JOB_1"
        (some ⟨Volume.store⟩) Volume.zero =
        ({ scripted [okReply (.arr [.num 7, .null, .null])] with
            tp := (scripted [okReply (.arr [.num 7, .null, .null])]).tp.exchanged
              (statusRequest "JOB_1") (okReply (.arr [.num 7, .null, .null])) [] },
          Volume.zero, JobStatusError, 0, some err) ∧
      ClientConnection.JobWait (0 + 1) (scripted [okReply (.arr [.num 7, .null, .null])])
          "JOB_1" (some ⟨Volume.store⟩) Volume.zero =
        ({ scripted [okReply (.arr [.num 7, .null, .null])] with
            tp := (scripted [okReply (.arr [.num 7, .null, .null])]).tp.exchanged
              (statusRequest "JOB_1") (okReply (.arr [.num 7, .null, .null])) [] },
          Volume.zero, some (some err)) ∧
      ((scripted [okReply (.arr [.num 7, .null, .null])]).tp.exchanged
          (statusRequest "JOB_1") (okReply (.arr [.num 7, .null, .null])) []).trace =
        (scripted [okReply (.arr [.num 7, .null, .null])]).tp.trace ++
          [.sent (statusRequest "JOB_1"), .received (okReply (.arr [.num 7, .null, .null]))] ∧
      requestCount "job_free"
        [.sent (statusRequest "JOB_1"), .received (okReply (.arr [.num 7, .null, .null]))] = 0 ∧
      ((0 : Int) ≤ 7 ∧ (7 : Int) < 4294967296 → err = .lsm ⟨errors.PluginBug,
        "Invalid status type returned " ++ toString (7 : Int).toNat, ""⟩) ∧
      ((7 : Int) < 0 ∨ 4294967296 ≤ (7 : Int) →
        err = .other ("json: cannot unmarshal number " ++ toString (7 : Int) ++
          " into Go value of type " ++ "libstoragemgmt.JobStatusType")) :=
  job_status_invalid_state 0 (scripted [okReply (.arr [.num 7, .null, .null])]) "JOB_1"
    (some ⟨Volume.store⟩) Volume.zero (okReply (.arr [.num 7, .null, .null])) 7
    [.null, .null] [] (scripted_sendsSucceed _) rfl (okReply_carries _) (by decide)

/-- C19 as stated fails: for the encoded state -1 the error of `JobStatus` is the
decoding error of `encoding/json`, not an `LsmError`. -/
theorem job_status_invalid_state_counterexample :
    ((scripted [okReply (.arr [.num (-1), .null, .null])]).JobStatus "JOB_1"
        (some ⟨Volume.store⟩) Volume.zero).2.2.2.2 =
      some (.other ("json: cannot unmarshal number -1 into Go value of type " ++
        "libstoragemgmt.JobStatusType")) := by
  rfl

/-- C20: for every `job_status` reply with state Complete, `JobStatus` returns state
Complete and percent 100.  When the caller supplied a destination and the payload is
present and not JSON null, the payload is decoded into the destination and the result
of that decoding is the error returned; when the payload is JSON null or no destination
was supplied, the destination is left as it was and no error is returned. -/
theorem job_status_complete_payload {α : Type} (c : ClientConnection) (jobID : String)
    (rr : Option (Target α)) (cur : α) (i : Incoming) (tail : List Json)
    (rest : List Incoming) (hs : c.tp.sendsSucceed) (hin : c.tp.incoming = i :: rest)
    (hi : i.carries (.arr (.num 2 :: tail))) :
    (c.JobStatus jobID rr cur).1 =
        { c with tp := c.tp.exchanged (statusRequest jobID) i rest } ∧
      (c.JobStatus jobID rr cur).2.2.1 = JobStatusComplete ∧
      (c.JobStatus jobID rr cur).2.2.2.1 = 100 ∧
      (∀ p X, rr = some p → tail.get? 1 = some X → X.isNull = false →
        (c.JobStatus jobID rr cur).2.1 = (p.store X cur).1 ∧
          (c.JobStatus jobID rr cur).2.2.2.2 = (p.store X cur).2) ∧
      (rr = none ∨ tail.get? 1 = some .null →
        (c.JobStatus jobID rr cur).2.1 = cur ∧ (c.JobStatus jobID rr cur).2.2.2.2 = none) := by
  rw [JobStatus_array c jobID rr cur i (.num 2 :: tail) rest hs hin hi]
  have h := statusOutcome_complete rr cur (tail.get? 0) (tail.get? 1)
  have h2 : statusOutcome rr cur ⟨(Json.num 2 :: tail).get? 0, (Json.num 2 :: tail).get? 1,
      (Json.num 2 :: tail).get? 2⟩ none =
      if RawMessage.notNullText (tail.get? 1) ∧ rr.isSome then
        ((jsonUnmarshal (tail.get? 1) rr cur).1, JobStatusComplete, 100,
          (jsonUnmarshal (tail.get? 1) rr cur).2)
      else (cur, JobStatusComplete, 100, none) := h
  rw [h2]
  refine ⟨rfl, ?_, ?_, ?_, ?_⟩
  · split <;> rfl
  · split <;> rfl
  · intro p X hp hX hnull
    subst hp
    have hnn : RawMessage.notNullText (some X) = true := by
      cases X <;> simp_all [RawMessage.notNullText, Json.isNull]
    rw [hX]
    simp [hnn, jsonUnmarshal]
  · rintro (h | h)
    · simp [h]
    · rw [h]
      simp [RawMessage.notNullText]

/-- Witness of C20: a Complete reply carrying the sample volume, decoded into a
`Volume` destination. -/
theorem job_status_complete_payload_witness :
    (scripted [okReply (.arr [.num 2, .num 100, sampleVolumeJson])]).JobStatus "JOB_1"
        (some ⟨Volume.store⟩) Volume.zero =
      ({ scripted [okReply (.arr [.num 2, .num 100, sampleVolumeJson])] with
          tp := (scripted [okReply (.arr [.num 2, .num 100, sampleVolumeJson])]).tp.exchanged
            (statusRequest "JOB_1") (okReply (.arr [.num 2, .num 100, sampleVolumeJson])) [] },
        sampleVolume, JobStatusComplete, 100, none) := by
  have h := job_status_complete_payload
    (scripted [okReply (.arr [.num 2, .num 100, sampleVolumeJson])]) "JOB_1"
    (some ⟨Volume.store⟩) Volume.zero (okReply (.arr [.num 2, .num 100, sampleVolumeJson]))
    [.num 100, sampleVolumeJson] [] (scripted_sendsSucceed _) rfl (okReply_carries _)
  obtain ⟨h1, h2, h3, h4, _⟩ := h
  have h5 := h4 ⟨Volume.store⟩ sampleVolumeJson rfl rfl rfl
  exact Prod.ext h1 (Prod.ext h5.1 (Prod.ext h2 (Prod.ext h3 h5.2)))

/-! ## Plugin side: lemmas -/

theorem readRequest_frame (t : Port) (i : Incoming) (req : requestMsg)
    (rest : List Incoming) (hin : t.incoming = i :: rest) (hi : i.request req) :
    transPort.readRequest t = (⟨rest, t.sendErrs, t.trace ++ [.received i]⟩, .ok req) := by
  obtain ⟨raw, j, rfl, hdec⟩ := hi
  unfold transPort.readRequest Port.recv
  simp only [hin, hdec]

theorem sendError_sendsSucceed (t : Port) (err : GoError) (hs : t.sendsSucceed) :
    transPort.sendError t err =
      (⟨t.incoming, t.sendErrs.tail, t.trace ++ [.sent (.failure err)]⟩, none) := by
  unfold transPort.sendError transPort.sendIt
  simp only [Port.send_sendsSucceed t _ hs]

theorem sendResponse_sendsSucceed (t : Port) (response : Json) (hs : t.sendsSucceed) :
    transPort.sendResponse t response =
      (⟨t.incoming, t.sendErrs.tail, t.trace ++ [.sent (.response response)]⟩, none) := by
  unfold transPort.sendResponse transPort.sendIt
  simp only [Port.send_sendsSucceed t _ hs]

theorem Port.served_trace (t : Port) (i : Incoming) (m : Outgoing) (rest : List Incoming) :
    (t.served i m rest).trace = t.trace ++ [.received i, .sent m] := by
  simp [Port.served]

theorem Port.served_sendsSucceed (t : Port) (i : Incoming) (m : Outgoing)
    (rest : List Incoming) (hs : t.sendsSucceed) : (t.served i m rest).sendsSucceed := by
  intro e he
  exact hs e (List.mem_of_mem_tail he)

theorem received_sendsSucceed (t : Port) (i : Incoming) (rest : List Incoming)
    (hs : t.sendsSucceed) :
    Port.sendsSucceed ⟨rest, t.sendErrs, t.trace ++ [.received i]⟩ := hs

theorem Run_unsupported {σ : Type} (fuel : Nat) (p : Plugin σ) (i : Incoming)
    (req : requestMsg) (rest : List Incoming) (hs : p.tp.sendsSucceed)
    (hin : p.tp.incoming = i :: rest) (hi : i.request req)
    (hun : p.callTable.lookup req.Method = none ∨
      p.callTable.lookup req.Method = some none) :
    Plugin.Run (fuel + 1) p =
      Plugin.Run fuel { p with tp := p.tp.served i (unsupported req.Method) rest } := by
  have hsend := sendError_sendsSucceed ⟨rest, p.tp.sendErrs, p.tp.trace ++ [.received i]⟩
    (.lsm ⟨errors.NoSupport, "method " ++ req.Method ++ " not supported", ""⟩)
    (received_sendsSucceed p.tp i rest hs)
  rw [Plugin.Run, readRequest_frame p.tp i req rest hin hi]
  rcases hun with h | h <;> simp only [h, noSupport, hsend] <;> rfl

theorem Run_values {σ : Type} (fuel : Nat) (p p1 : Plugin σ) (i : Incoming)
    (req : requestMsg) (rest : List Incoming) (f : Handler) (response : Json)
    (err : Option GoError) (hs : p.tp.sendsSucceed)
    (hin : p.tp.incoming = i :: rest) (hi : i.request req)
    (hf : p.callTable.lookup req.Method = some (some f))
    (hrun : f.run (p.dispatched i rest req.Method) req = (p1, .values response err))
    (htp : p1.tp = (p.dispatched i rest req.Method).tp)
    (hm : req.Method ≠ "plugin_unregister") :
    Plugin.Run (fuel + 1) p =
      Plugin.Run fuel { p1 with tp := (p.tp.served i (replyOf response err) rest) } := by
  have hs1 := received_sendsSucceed p.tp i rest hs
  rw [Plugin.Run, readRequest_frame p.tp i req rest hin hi]
  simp only [Plugin.dispatched] at hrun htp
  simp only [hf, hrun, htp, hm, if_false]
  cases err with
  | some e => simp only [sendError_sendsSucceed _ e hs1]; rfl
  | none => simp only [sendResponse_sendsSucceed _ response hs1]; rfl

theorem Run_panic {σ : Type} (fuel : Nat) (p p1 : Plugin σ) (i : Incoming)
    (req : requestMsg) (rest : List Incoming) (f : Handler) (pn : Panic)
    (hin : p.tp.incoming = i :: rest) (hi : i.request req)
    (hf : p.callTable.lookup req.Method = some (some f))
    (hrun : f.run (p.dispatched i rest req.Method) req = (p1, .panic pn)) :
    Plugin.Run (fuel + 1) p = (p1, some (.panicked pn)) := by
  rw [Plugin.Run, readRequest_frame p.tp i req rest hin hi]
  simp only [Plugin.dispatched] at hrun
  simp only [hf, hrun]

theorem Handler.run_invalid {σ : Type} (f : Handler) (shape : GoType) (p : Plugin σ)
    (msg : requestMsg) (uE : GoError) (hshape : f.argType = some shape)
    (hdec : (jsonDecode msg.Params shape).2 = some uE) :
    f.run p msg = (p, .values .null (some (invalidArgs msg.Method uE))) := by
  rcases hd : jsonDecode msg.Params shape with ⟨args, e⟩
  rw [hd] at hdec
  simp only at hdec
  subst hdec
  cases f <;> simp only [Handler.argType, Option.some.injEq] at hshape <;>
    first
    | exact absurd hshape (by simp)
    | (subst hshape
       simp only [Handler.run, Lsm.handleRegister, Lsm.handleCapabilities, Lsm.handleTmoSet,
         Lsm.handlePools, Lsm.handleJobStatus, Lsm.handleJobFree, Lsm.handleVolumeCreate,
         Lsm.handleVolumeDelete, Lsm.handleVolumes, Lsm.handleVolumeReplicate,
         Lsm.handleVolumeReplicateRange, Lsm.handleVolRepRangeBlockSize,
         Lsm.handleVolumeResize, Lsm.handleVolumeEnable, Lsm.handleVolumeDisable,
         Lsm.handleVolumeMask, Lsm.handleVolumeUnMask, Lsm.handleVolHasChildDep,
         Lsm.handleVolChildDepRm, Lsm.handleVolsMaskedToAg, Lsm.handleAccessGroupCreate,
         Lsm.handleAccessGroupDelete, Lsm.handleAccessGroupInitAdd,
         Lsm.handleAccessGroupInitDelete, Lsm.handleAgsGrantedToVol,
         Lsm.handleIscsiChapAuthSet, Lsm.handleVolIdentLedOn, Lsm.handleVolIdentLedOff,
         Lsm.handleFs, Lsm.handleFsCreate, Lsm.handleFsDelete, Lsm.handleFsResize,
         Lsm.handleFsClone, Lsm.handleFsFileClone, Lsm.handleFsSnapShotCreate,
         Lsm.handleFsSnapShotDelete, Lsm.handleFsSnapShots, Lsm.handleFsSnapShotRestore,
         Lsm.handleFsHasChildDep, Lsm.handleFsChildDepRm, Lsm.handleNfsExports,
         Lsm.handleExportFs, Lsm.handleFsUnexport, Lsm.handleVolRaidCreate,
         Lsm.handleVolRaidCreateCapGet, Lsm.handlePoolMemberInfo, Lsm.handleVolRaidInfo,
         Lsm.handleSystemReadCachePctSet, Lsm.handleVolCacheInfo,
         Lsm.handleVolPhyDiskCacheSet, Lsm.handleVolWriteCacheSet,
         Lsm.handleVolReadCacheSet, hd])

theorem buildTable_unregister {σ : Type} (c : PluginCallBacks σ) :
    (buildTable c).lookup "plugin_unregister" =
      some (nilAssign c.Mgmt.PluginUnregister .handleUnRegister) := by
  rfl

theorem buildTable_ledOff {σ : Type} (c : PluginCallBacks σ) :
    (buildTable c).lookup "volume_ident_led_off" =
      some (nilAssign c.San.VolIdentLedOn .handleVolIdentLedOff) := by
  rfl

theorem buildTable_exportFs {σ : Type} (c : PluginCallBacks σ) :
    (buildTable c).lookup "export_fs" = some (nilAssign c.Nfs.FsExport .handleExportFs) := by
  rfl

theorem decoding_not_unregister {σ : Type} (c : PluginCallBacks σ) (method : String)
    (f : Handler) (shape : GoType) (hf : (buildTable c).lookup method = some (some f))
    (hshape : f.argType = some shape) : method ≠ "plugin_unregister" := by
  rintro rfl
  rw [buildTable_unregister] at hf
  cases h : c.Mgmt.PluginUnregister with
  | none => simp [h, nilAssign] at hf
  | some g =>
    simp only [h, nilAssign, Option.some.injEq] at hf
    subst hf
    simp [Handler.argType] at hshape

theorem Run_invalid {σ : Type} (fuel : Nat) (p : Plugin σ) (i : Incoming)
    (req : requestMsg) (rest : List Incoming) (f : Handler) (shape : GoType) (uE : GoError)
    (hs : p.tp.sendsSucceed) (hin : p.tp.incoming = i :: rest) (hi : i.request req)
    (htable : p.callTable = buildTable p.cb)
    (hf : p.callTable.lookup req.Method = some (some f))
    (hshape : f.argType = some shape)
    (hdec : (jsonDecode req.Params shape).2 = some uE) :
    Plugin.Run (fuel + 1) p =
      Plugin.Run fuel { p.dispatched i rest req.Method with
        tp := (p.tp.served i (.failure (invalidArgs req.Method uE)) rest) } := by
  have hm : req.Method ≠ "plugin_unregister" :=
    decoding_not_unregister p.cb req.Method f shape (by rw [← htable]; exact hf) hshape
  have hrun := Handler.run_invalid f shape (p.dispatched i rest req.Method) req uE hshape hdec
  rw [Run_values fuel p _ i req rest f .null (some (invalidArgs req.Method uE)) hs hin hi hf
    hrun rfl hm]
  rfl

theorem requestFrame_request (method : String) (params : Json) :
    (requestFrame method params).request ⟨100, method, some params⟩ :=
  ⟨_, _, rfl, rfl⟩

/-! ## Plugin side: the claims -/

/-- C12: for every well-formed request envelope whose method is no key of the call
table, or is a key bound to a nil handler, one round of `Run` leaves the state of the
plugin and its journal of handlers and callbacks as they were, writes exactly one
response, the error with code `NoSupport` (153), and goes on to read the next
request. -/
theorem unknown_method_gets_no_support {σ : Type} (fuel : Nat) (p : Plugin σ)
    (i : Incoming) (req : requestMsg) (rest : List Incoming)
    (hs : p.tp.sendsSucceed) (hin : p.tp.incoming = i :: rest) (hi : i.request req)
    (hun : p.callTable.lookup req.Method = none ∨
      p.callTable.lookup req.Method = some none) :
    ∃ p1, Plugin.Run (fuel + 1) p = Plugin.Run fuel p1 ∧
      p1.st = p.st ∧ p1.journal = p.journal ∧ p1.cb = p.cb ∧ p1.callTable = p.callTable ∧
      p1.tp.incoming = rest ∧
      p1.tp.trace = p.tp.trace ++ [.received i, .sent (.failure (.lsm ⟨errors.NoSupport,
        "method " ++ req.Method ++ " not supported", ""⟩))] ∧
      errors.NoSupport = 153 :=
  ⟨{ p with tp := (p.tp.served i (unsupported req.Method) rest) },
    Run_unsupported fuel p i req rest hs hin hi hun, rfl, rfl, rfl, rfl, rfl,
    Port.served_trace _ _ _ _, rfl⟩

/-- Witness of C12: a `systems` request to a plugin that supplies no callback, so that
the key `systems` is bound to a nil handler. -/
theorem unknown_method_gets_no_support_witness :
    ∃ p1, Plugin.Run (2 + 1) (pluginWith {} [requestFrame "systems" .null]) =
        Plugin.Run 2 p1 ∧
      p1.st = (pluginWith {} [requestFrame "systems" .null]).st ∧
      p1.journal = (pluginWith {} [requestFrame "systems" .null]).journal ∧
      p1.cb = (pluginWith {} [requestFrame "systems" .null]).cb ∧
      p1.callTable = (pluginWith {} [requestFrame "systems" .null]).callTable ∧
      p1.tp.incoming = [] ∧
      p1.tp.trace = (pluginWith {} [requestFrame "systems" .null]).tp.trace ++
        [.received (requestFrame "systems" .null),
          .sent (.failure (.lsm ⟨errors.NoSupport,
            "method " ++ (requestMsg.mk 100 "systems" (some .null)).Method ++
              " not supported", ""⟩))] ∧
      errors.NoSupport = 153 :=
  unknown_method_gets_no_support 2 (pluginWith {} [requestFrame "systems" .null])
    (requestFrame "systems" .null) ⟨100, "systems", some .null⟩ []
    (fun e he => by simp [pluginWith] at he) rfl (requestFrame_request _ _) (Or.inr rfl)

/-- C13 fails on the code: an `export_fs` request whose parameters hold no `fs_id` is
read by `Run`, the handler dereferences the nil `FsID` and panics, and no response is
written for the request: the trace holds one frame received and no response, and the
request that follows is never read. -/
theorem export_request_gets_no_response :
    (buildTable exportCallbacks).lookup "export_fs" = some (some .handleExportFs) ∧
    (Plugin.Run 3 (pluginWith exportCallbacks
        [exportRequest, requestFrame "plugin_info" .null])).2 =
      some (.panicked .nilDereference) ∧
    (Plugin.Run 3 (pluginWith exportCallbacks
        [exportRequest, requestFrame "plugin_info" .null])).1.tp.trace =
      [.received exportRequest] ∧
    ((Plugin.Run 3 (pluginWith exportCallbacks
        [exportRequest, requestFrame "plugin_info" .null])).1.tp.trace.countP
          Event.isFrame = 1 ∧
      (Plugin.Run 3 (pluginWith exportCallbacks
        [exportRequest, requestFrame "plugin_info" .null])).1.tp.trace.countP
          Event.isResponse = 0) := by
  refine ⟨rfl, rfl, rfl, ?_, ?_⟩ <;> rfl

/-- C14 fails on the code: `buildTable` binds `volume_ident_led_off` when the callback
`VolIdentLedOn` is supplied.  A plugin that supplies `VolIdentLedOn` only gets the
handler `handleVolIdentLedOff` bound, and that handler calls the nil `VolIdentLedOff`
and panics; a plugin that supplies `VolIdentLedOff` only gets a nil entry. -/
theorem led_off_bound_on_wrong_callback :
    ((buildTable ledOnCallbacks).lookup "volume_ident_led_off" =
        some (some .handleVolIdentLedOff) ∧
      ledOnCallbacks.San.VolIdentLedOff.isNone = true ∧
      (Handler.handleVolIdentLedOff.run (pluginWith ledOnCallbacks [])
        ⟨100, "volume_ident_led_off",
          some (.obj [("volume", sampleVolumeJson), ("flags", .num 0)])⟩).2 =
        .panic .nilDereference ∧
      (Plugin.Run 3 (pluginWith ledOnCallbacks [ledOffRequest])).2 =
        some (.panicked .nilDereference)) ∧
    ((buildTable ledOffCallbacks).lookup "volume_ident_led_off" = some none ∧
      ledOffCallbacks.San.VolIdentLedOff.isSome = true) ∧
    (∀ c : PluginCallBacks Unit, (buildTable c).lookup "volume_ident_led_off" =
      some (nilAssign c.San.VolIdentLedOn .handleVolIdentLedOff)) := by
  refine ⟨⟨rfl, rfl, rfl, rfl⟩, ⟨rfl, rfl⟩, fun c => buildTable_ledOff c⟩

/-- C15: for every handler of the table that `buildTable` builds which unmarshals the
parameters, and every request whose parameters `json.Unmarshal` rejects with an error
`uE`, the handler returns the `LsmError` with code `TransPortInvalidArg` (402) built
by `invalidArgs` and leaves the plugin as it was, so no callback is invoked; `Run`
sends that error to the peer as the one response to the request and goes on to read
the next request. -/
theorem decode_failure_is_invalid_args {σ : Type} (fuel : Nat) (p : Plugin σ)
    (i : Incoming) (req : requestMsg) (rest : List Incoming) (f : Handler) (shape : GoType)
    (uE : GoError) (hs : p.tp.sendsSucceed) (hin : p.tp.incoming = i :: rest)
    (hi : i.request req) (htable : p.callTable = buildTable p.cb)
    (hf : p.callTable.lookup req.Method = some (some f))
    (hshape : f.argType = some shape)
    (hdec : (jsonDecode req.Params shape).2 = some uE) :
    (∀ q : Plugin σ, f.run q req = (q, .values .null (some (.lsm ⟨errors.TransPortInvalidArg,
      req.Method ++ ": invalid arguments(s) " ++ uE.Error ++ "\n", ""⟩)))) ∧
    errors.TransPortInvalidArg = 402 ∧
    ∃ p1, Plugin.Run (fuel + 1) p = Plugin.Run fuel p1 ∧
      p1.st = p.st ∧ p1.journal = p.journal ++ [.handler req.Method] ∧
      p1.tp.incoming = rest ∧
      p1.tp.trace = p.tp.trace ++ [.received i, .sent (.failure (.lsm
        ⟨errors.TransPortInvalidArg,
          req.Method ++ ": invalid arguments(s) " ++ uE.Error ++ "\n", ""⟩))] :=
  ⟨fun q => Handler.run_invalid f shape q req uE hshape hdec, rfl,
    _, Run_invalid fuel p i req rest f shape uE hs hin hi htable hf hshape hdec, rfl, rfl, rfl,
    Port.served_trace _ _ _ _⟩

/-- Witness of C15: a `volume_create` request whose `size_bytes` is a string. -/
theorem decode_failure_is_invalid_args_witness :
    ∃ p1, Plugin.Run (2 + 1) (pluginWith createCallbacks [badCreateRequest]) =
        Plugin.Run 2 p1 ∧
      p1.st = (pluginWith createCallbacks [badCreateRequest]).st ∧
      p1.journal = (pluginWith createCallbacks [badCreateRequest]).journal ++
        [.handler "volume_create"] ∧
      p1.tp.incoming = [] ∧
      p1.tp.trace = (pluginWith createCallbacks [badCreateRequest]).tp.trace ++
        [.received badCreateRequest, .sent (.failure (.lsm ⟨errors.TransPortInvalidArg,
          "volume_create" ++ ": invalid arguments(s) " ++
            (GoError.other ("json: cannot unmarshal string into Go struct field " ++
              "volumeCreateArgs.size_bytes of type uint64")).Error ++ "\n", ""⟩))] :=
  (decode_failure_is_invalid_args 2 (pluginWith createCallbacks [badCreateRequest])
    badCreateRequest ⟨100, "volume_create", some (.obj [("pool", samplePoolJson),
      ("volume_name", .str "v1"), ("size_bytes", .str "big"), ("provisioning", .num 3),
      ("flags", .num 0)])⟩ [] .handleVolumeCreate Shape.volumeCreateArgs
    (.other ("json: cannot unmarshal string into Go struct field " ++
      "volumeCreateArgs.size_bytes of type uint64"))
    (fun e he => by simp [pluginWith] at he) rfl (requestFrame_request _ _) rfl rfl rfl
    rfl).2.2

/-! ## Job status with state Error: lemmas and the claim -/

theorem firstError_other (saved new : Option GoError)
    (h1 : saved = none ∨ ∃ text, saved = some (.other text))
    (h2 : new = none ∨ ∃ text, new = some (.other text)) :
    firstError saved new = none ∨ ∃ text, firstError saved new = some (.other text) := by
  rcases h1 with rfl | ⟨t, rfl⟩
  · exact h2
  · exact Or.inr ⟨t, rfl⟩

theorem storeString_other (j : Json) (cur : String) :
    (storeString j cur).2 = none ∨ ∃ text, (storeString j cur).2 = some (.other text) := by
  cases j <;> simp [storeString, unmarshalTypeError]

theorem storeInt_other (bits : Nat) (goType : String) (j : Json) (cur : Int) :
    (storeInt bits goType j cur).2 = none ∨
      ∃ text, (storeInt bits goType j cur).2 = some (.other text) := by
  cases j <;> simp [storeInt, unmarshalTypeError, numberTypeError]
  split <;> simp

theorem LsmError.storeMember_other (acc : LsmError × Option GoError) (m : String × Json)
    (h : acc.2 = none ∨ ∃ text, acc.2 = some (.other text)) :
    (LsmError.storeMember acc m).2 = none ∨
      ∃ text, (LsmError.storeMember acc m).2 = some (.other text) := by
  unfold LsmError.storeMember
  split
  · exact firstError_other _ _ h (storeInt_other _ _ _ _)
  · split
    · exact firstError_other _ _ h (storeString_other _ _)
    · split
      · exact firstError_other _ _ h (storeString_other _ _)
      · exact h

theorem LsmError.fold_other (members : List (String × Json)) :
    ∀ acc : LsmError × Option GoError, (acc.2 = none ∨ ∃ text, acc.2 = some (.other text)) →
      ((members.foldl LsmError.storeMember acc).2 = none ∨
        ∃ text, (members.foldl LsmError.storeMember acc).2 = some (.other text)) := by
  induction members with
  | nil => intro acc h; exact h
  | cons m ms ih =>
    intro acc h
    exact ih _ (LsmError.storeMember_other acc m h)

theorem LsmError.store_other (j : Json) (cur : LsmError) :
    (LsmError.store j cur).2 = none ∨ ∃ text, (LsmError.store j cur).2 = some (.other text) := by
  cases j with
  | obj members => exact LsmError.fold_other members (cur, none) (Or.inl rfl)
  | _ => simp [LsmError.store, unmarshalTypeError]

theorem statusOutcome_errorState {α : Type} (rr : Option (Target α)) (cur : α)
    (pct payload : RawMessage) :
    statusOutcome rr cur ⟨some (.num 3), pct, payload⟩ none =
      (cur, JobStatusError, 0,
        some (((jsonUnmarshal payload (some ⟨LsmError.store⟩) LsmError.zero).2).getD
          (pluginBug "job_status returned error status with no error information"))) := by
  have e0 : jsonUnmarshal (some (Json.num 3))
      (some ⟨storeUint 32 "libstoragemgmt.JobStatusType"⟩) 0 = (3, none) := by
    simp [jsonUnmarshal, storeUint]
  simp only [statusOutcome, e0, JobStatusInprogress, JobStatusComplete, JobStatusError]
  norm_num
  rcases h : jsonUnmarshal payload (some (⟨LsmError.store⟩ : Target LsmError))
    LsmError.zero with ⟨v, e⟩
  cases e <;> simp

theorem JobStatus_errorState {α : Type} (c : ClientConnection) (jobID : String)
    (rr : Option (Target α)) (cur : α) (i : Incoming) (tail : List Json)
    (rest : List Incoming) (hs : c.tp.sendsSucceed) (hin : c.tp.incoming = i :: rest)
    (hi : i.carries (.arr (.num 3 :: tail))) :
    c.JobStatus jobID rr cur =
      ({ c with tp := c.tp.exchanged (statusRequest jobID) i rest }, cur, JobStatusError, 0,
        some (((jsonUnmarshal (tail.get? 1) (some ⟨LsmError.store⟩) LsmError.zero).2).getD
          (pluginBug "job_status returned error status with no error information"))) := by
  rw [JobStatus_array c jobID rr cur i (.num 3 :: tail) rest hs hin hi]
  exact congrArg _ (statusOutcome_errorState rr cur (tail.get? 0) (tail.get? 1))

theorem jsonUnmarshal_other (payload : RawMessage) (e : GoError)
    (h : (jsonUnmarshal payload (some ⟨LsmError.store⟩) LsmError.zero).2 = some e) :
    ∃ text, e = .other text := by
  cases payload with
  | none =>
    simp only [jsonUnmarshal, jsonEndOfInput, Option.some.injEq] at h
    exact ⟨_, h.symm⟩
  | some j =>
    simp only [jsonUnmarshal] at h
    rcases LsmError.store_other j LsmError.zero with h1 | ⟨t, h1⟩
    · rw [h1] at h; cases h
    · rw [h1] at h
      simp only [Option.some.injEq] at h
      exact ⟨t, h.symm⟩

/-- C21 (amended in its first half): for every `job_status` reply with state Error whose
payload does not decode into an `errors.LsmError`, `JobStatus` returns state Error and
the decoding error of `encoding/json` itself, which is no `LsmError` and carries no
code.  A payload that is missing and a payload that is neither `null` nor an object do
not decode.  The second half of the claim, that a payload that does decode is not
reported as a protocol bug, is left as the claim states it; the code departs from it by
the defect shown for C7. -/
theorem job_status_error_payload {α : Type} (c : ClientConnection) (jobID : String)
    (rr : Option (Target α)) (cur : α) (i : Incoming) (tail : List Json)
    (rest : List Incoming) (hs : c.tp.sendsSucceed) (hin : c.tp.incoming = i :: rest)
    (hi : i.carries (.arr (.num 3 :: tail))) :
    (∀ checkErrorE,
      (jsonUnmarshal (tail.get? 1) (some ⟨LsmError.store⟩) LsmError.zero).2 =
        some checkErrorE →
      c.JobStatus jobID rr cur =
          ({ c with tp := c.tp.exchanged (statusRequest jobID) i rest }, cur, JobStatusError,
            0, some checkErrorE) ∧
        ∃ text, checkErrorE = .other text) ∧
    (tail.get? 1 = none →
      (jsonUnmarshal (tail.get? 1) (some ⟨LsmError.store⟩) LsmError.zero).2 =
        some (.other "unexpected end of JSON input")) ∧
    (∀ X, tail.get? 1 = some X → X.kind ≠ "null" → X.kind ≠ "object" →
      (jsonUnmarshal (tail.get? 1) (some ⟨LsmError.store⟩) LsmError.zero).2 =
        some (.other ("json: cannot unmarshal " ++ X.kind ++ " into Go value of type " ++
          "errors.LsmError"))) := by
  have key := JobStatus_errorState c jobID rr cur i tail rest hs hin hi
  refine ⟨?_, ?_, ?_⟩
  · intro e he
    rw [he] at key
    exact ⟨key, jsonUnmarshal_other _ e he⟩
  · intro h
    rw [h]
    rfl
  · intro X hX h1 h2
    rw [hX]
    cases X <;> first | rfl | exact absurd rfl h1 | exact absurd rfl h2

/-- Witness of C21: the payload of the Error reply is the string `boom`. -/
theorem job_status_error_payload_witness :
    (scripted [okReply (.arr [.num 3, .null, .str "boom"])]).JobStatus "JOB_1"
        (some ⟨Volume.store⟩) Volume.zero =
      ({ scripted [okReply (.arr [.num 3, .null, .str "boom"])] with
          tp := (scripted [okReply (.arr [.num 3, .null, .str "boom"])]).tp.exchanged
            (statusRequest "JOB_1") (okReply (.arr [.num 3, .null, .str "boom"])) [] },
        Volume.zero, JobStatusError, 0,
        some (.other "json: cannot unmarshal string into Go value of type errors.LsmError")) :=
  ((job_status_error_payload (scripted [okReply (.arr [.num 3, .null, .str "boom"])])
    "JOB_1" (some ⟨Volume.store⟩) Volume.zero (okReply (.arr [.num 3, .null, .str "boom"]))
    [.null, .str "boom"] [] (scripted_sendsSucceed _) rfl (okReply_carries _)).1
      (.other "json: cannot unmarshal string into Go value of type errors.LsmError") rfl).1

/-- C21 as stated fails: for the payload `"boom"`, which does not decode into a
structured error, the error of `JobStatus` is the decoding error of `encoding/json`, and
not an `LsmError` with code `PluginBug`. -/
theorem job_status_error_payload_counterexample :
    (LsmError.store (.str "boom") LsmError.zero).2 =
      some (.other "json: cannot unmarshal string into Go value of type errors.LsmError") ∧
    ((scripted [okReply (.arr [.num 3, .null, .str "boom"])]).JobStatus "JOB_1"
        (some ⟨Volume.store⟩) Volume.zero).2.2.2.2 =
      some (.other "json: cannot unmarshal string into Go value of type errors.LsmError") ∧
    ∀ message data, ((scripted [okReply (.arr [.num 3, .null, .str "boom"])]).JobStatus
        "JOB_1" (some ⟨Volume.store⟩) Volume.zero).2.2.2.2 ≠
      some (.lsm ⟨errors.PluginBug, message, data⟩) := by
  refine ⟨rfl, rfl, fun message data h => ?_⟩
  have h2 : ((scripted [okReply (.arr [.num 3, .null, .str "boom"])]).JobStatus "JOB_1"
      (some ⟨Volume.store⟩) Volume.zero).2.2.2.2 =
      some (.other "json: cannot unmarshal string into Go value of type errors.LsmError") :=
    rfl
  rw [h2] at h
  cases h

/-! ## Job-or-nothing operations and `LsmBool`: the claims -/

theorem getJobOrNone_nil (fuel : Nat) (c : ClientConnection) (sync : Bool) :
    ClientConnection.getJobOrNone fuel c none none sync =
      (c, some (none, some (.other "unexpected end of JSON input"))) := rfl

/-- C27 fails on the code: a successful reply whose result is JSON null leaves the
`json.RawMessage` that `VolumeDelete` hands to `getJobOrNone` nil, `json.Unmarshal` of
the nil text into the job string fails, and `getJobOrNone` returns that error: the job
token is nil, but the error is `unexpected end of JSON input`, for either value of
`sync`.  No further request is sent.  The reply is the one `Run` writes when the
`VolumeDelete` callback returns no job and no error. -/
theorem null_result_reported_as_error :
    (∀ (fuel : Nat) (c : ClientConnection) (sync : Bool),
      ClientConnection.getJobOrNone fuel c none none sync =
        (c, some (none, some (.other "unexpected end of JSON input")))) ∧
    (transPort.invoke (scripted [resultFrame .null]).tp "volume_delete"
        [("volume", sampleVolumeJson)] (some ⟨RawMessage.store⟩) none).2 = (none, none) ∧
    (ClientConnection.VolumeDelete 5 (scripted [resultFrame .null]) sampleVolumeJson false).2 =
      some (none, some (.other "unexpected end of JSON input")) ∧
    (ClientConnection.VolumeDelete 5 (scripted [resultFrame .null]) sampleVolumeJson true).2 =
      some (none, some (.other "unexpected end of JSON input")) ∧
    (ClientConnection.VolumeDelete 5 (scripted [resultFrame .null]) sampleVolumeJson
        true).1.tp.trace =
      [.sent (requestOf "volume_delete" [("volume", sampleVolumeJson)]),
        .received (resultFrame .null)] ∧
    (Plugin.Run 1 (pluginWith deleteCallbacks [deleteRequest])).1.tp.trace =
      [.received deleteRequest, .sent (.response .null)] := by
  refine ⟨fun fuel c sync => getJobOrNone_nil fuel c sync, rfl, rfl, rfl, rfl, rfl⟩

/-- C26 fails on the code: `MarshalJSON` writes 1 for true and 0 for false, but
`UnmarshalJSON` has a value receiver, so its assignment changes a copy and the variable
being decoded keeps what it held.  Decoding the `1` written for true into a fresh
`LsmBool`, or into the field `Enabled` of a fresh `Volume` (JSON key `admin_state`),
yields false, with no error. -/
theorem lsm_bool_decoding_keeps_old_value :
    LsmBool.MarshalJSON true = .num 1 ∧ LsmBool.MarshalJSON false = .num 0 ∧
    (∀ (bit : Bool) (b : Json), LsmBool.UnmarshalJSON bit b = (bit, none)) ∧
    LsmBool.UnmarshalJSON false (LsmBool.MarshalJSON true) = (false, none) ∧
    ((Volume.store (.obj [("admin_state", LsmBool.MarshalJSON true)]) Volume.zero).1.Enabled =
        false ∧
      (Volume.store (.obj [("admin_state", LsmBool.MarshalJSON true)]) Volume.zero).2 = none) ∧
    (Volume.store sampleVolumeJson Volume.zero).1.Enabled = false ∧
    (jsonDecode (some (.obj [("admin_state", LsmBool.MarshalJSON true)])) Shape.Volume).1.field
        "Enabled" = .bool false := by
  refine ⟨rfl, rfl, fun _ _ => rfl, rfl, ⟨rfl, rfl⟩, rfl, ?_⟩
  rfl

/-! ## Frame codec: the header, further lemmas and claims -/

theorem parseUintLoop_syntax (s : List Nat) : ∀ acc, ¬ allDigits s →
    (acc + 1) * 10 ^ s.length ≤ 10000000000 →
    parseUintLoop 32 s acc = .error .invalidSyntax := by
  induction s with
  | nil =>
    intro acc hd _
    exact absurd (fun c hc => absurd hc (List.not_mem_nil c)) hd
  | cons c cs ih =>
    intro acc hd hb
    by_cases hc : 48 ≤ c ∧ c ≤ 57
    · have hcs : ¬ allDigits cs := by
        intro h
        apply hd
        intro x hx
        rcases List.mem_cons.mp hx with rfl | hx
        · exact hc
        · exact h x hx
      have hne : cs ≠ [] := by
        rintro rfl
        exact hcs (fun c hc => absurd hc (List.not_mem_nil c))
      have hlen : 1 ≤ cs.length := by
        cases cs with
        | nil => exact absurd rfl hne
        | cons _ _ => simp
      have hP : 10 ≤ 10 ^ cs.length := by
        calc 10 = 10 ^ 1 := by norm_num
          _ ≤ 10 ^ cs.length := Nat.pow_le_pow_right (by norm_num) hlen
      have hb2 : (acc + 1) * (10 ^ cs.length * 10) ≤ 10000000000 := by
        simpa [List.length_cons, pow_succ] using hb
      have hacc : (acc + 1) * 100 ≤ 10000000000 := by
        calc (acc + 1) * 100 = (acc + 1) * (10 * 10) := by norm_num
          _ ≤ (acc + 1) * (10 ^ cs.length * 10) :=
            Nat.mul_le_mul_left _ (Nat.mul_le_mul_right _ hP)
          _ ≤ 10000000000 := hb2
      have hnext : (acc * 10 + (c - 48) + 1) * 10 ^ cs.length ≤ 10000000000 := by
        calc (acc * 10 + (c - 48) + 1) * 10 ^ cs.length
            ≤ ((acc + 1) * 10) * 10 ^ cs.length := Nat.mul_le_mul_right _ (by omega)
          _ = (acc + 1) * (10 ^ cs.length * 10) := by ring
          _ ≤ 10000000000 := hb2
      have hpow : (2 : Nat) ^ 32 = 4294967296 := by norm_num
      have hpow64 : (2 : Nat) ^ 64 = 18446744073709551616 := by norm_num
      have h10 : acc * 10 % 2 ^ 64 = acc * 10 := by rw [hpow64]; omega
      have h1 : (acc * 10 + (c - 48)) % 2 ^ 64 = acc * 10 + (c - 48) := by rw [hpow64]; omega
      unfold parseUintLoop
      simp only [hc, and_self, if_true, h10, h1]
      rw [if_neg (by rw [hpow64]; omega), if_neg (by rw [hpow]; omega)]
      exact ih _ hcs hnext
    · unfold parseUintLoop
      rw [if_neg hc]

theorem ParseUint_syntax (hdr : List Nat) (hlen : hdr.length = 10) (hd : ¬ allDigits hdr) :
    ParseUint hdr 32 = .error .invalidSyntax := by
  have hne : hdr ≠ [] := by
    rintro rfl
    simp at hlen
  unfold ParseUint
  rw [if_neg hne]
  exact parseUintLoop_syntax hdr 0 hd (by rw [hlen]; norm_num)

theorem recv_syntax (fuel : Nat) (t : transPort) (hdr body : List Nat)
    (hr : t.uds.readsReliable) (hin : t.uds.inbox = hdr ++ body) (hlen : hdr.length = 10)
    (hd : ¬ allDigits hdr) (hfuel : 10 ≤ fuel) :
    ∃ t1, transPort.recv fuel t = some (t1, [], some (.header .invalidSyntax)) ∧
      t1.uds.inbox = body := by
  obtain ⟨c1, h1, h2, _, _, _⟩ := readHeader_ok fuel t.uds hdr body hr hin hlen hfuel
  refine ⟨{ t with uds := c1 }, ?_, h2⟩
  simp only [transPort.recv, h1, ParseUint_syntax hdr hlen hd]

theorem invoke_headerError {α : Type} (t : Port) (cmd : String) (args : List (String × Json))
    (result : Option (Target α)) (cur : α) (text : String) (rest : List Incoming)
    (hs : t.sendsSucceed) (hin : t.incoming = .headerError text :: rest) :
    transPort.invoke t cmd args result cur =
      (t.exchanged (requestOf cmd args) (.headerError text) rest, cur,
        some (.lsm ⟨errors.TransPortComunication,
          "Error reading from unix domain socket " ++ text ++ "\n", ""⟩)) :=
  invoke_reply t cmd args result cur _ rest hs hin

theorem invoke_readError {α : Type} (t : Port) (cmd : String) (args : List (String × Json))
    (result : Option (Target α)) (cur : α) (text : String) (rest : List Incoming)
    (hs : t.sendsSucceed) (hin : t.incoming = .readError text :: rest) :
    transPort.invoke t cmd args result cur =
      (t.exchanged (requestOf cmd args) (.readError text) rest, cur,
        some (.lsm ⟨errors.TransPortComunication,
          "Error reading from unix domain socket " ++ text ++ "\n", ""⟩)) :=
  invoke_reply t cmd args result cur _ rest hs hin

theorem readRequest_headerError (t : Port) (text : String) (rest : List Incoming)
    (hin : t.incoming = .headerError text :: rest) :
    transPort.readRequest t =
      (⟨rest, t.sendErrs, t.trace ++ [.received (.headerError text)]⟩,
        .error (.lsm ⟨errors.TransPortComunication,
          "Error reading from unix domain socket " ++ text ++ "\n", ""⟩)) := by
  unfold transPort.readRequest Port.recv
  simp only [hin]
  rfl

theorem readRequest_readError (t : Port) (text : String) (rest : List Incoming)
    (hin : t.incoming = .readError text :: rest) :
    transPort.readRequest t =
      (⟨rest, t.sendErrs, t.trace ++ [.received (.readError text)]⟩,
        .error (.lsm ⟨errors.TransPortComunication,
          "Error reading from unix domain socket " ++ text ++ "\n", ""⟩)) := by
  unfold transPort.readRequest Port.recv
  simp only [hin]
  rfl

theorem recv_reads_payload (fuel : Nat) (t : transPort) (hdr body : List Nat)
    (hr : t.uds.readsReliable) (hin : t.uds.inbox = hdr ++ body) (hlen : hdr.length = 10)
    (hd : allDigits hdr) (hv : decimalValue hdr < 2 ^ 32) (hfuel : 10 ≤ fuel) :
    ∃ c1, readExact fuel t.uds (List.replicate headerLen 0) = some (c1, hdr, none) ∧
      c1.inbox = body ∧
      transPort.recv fuel t =
        (readExact fuel c1 (List.replicate (decimalValue hdr) 0)).map
          fun r => ({ t with uds := r.1 }, r.2.1, r.2.2.map RecvError.read) := by
  obtain ⟨c1, h1, h2, _, _, _⟩ := readHeader_ok fuel t.uds hdr body hr hin hlen hfuel
  have hne : hdr ≠ [] := by
    intro h; rw [h] at hlen; simp at hlen
  refine ⟨c1, h1, h2, ?_⟩
  simp only [transPort.recv, h1, ParseUint_ok hdr hne hd hv]
  cases h : readExact fuel c1 (List.replicate (decimalValue hdr) 0) with
  | none => rfl
  | some r => rfl

/-- C25 (amended): for every header made of 10 decimal digits that encodes a length `n`
below 2^32, `transPort.recv` accepts the header (`strconv.ParseUint` returns `n`) and
goes on to read `n` payload bytes: what it returns is what `readExact` makes of a buffer
of `n` bytes.  A header of 10 digits that encodes a length of 2^32 or more is rejected
with the range error of `strconv.ParseUint`, and no payload byte is read. -/
theorem recv_accepts_header_below_limit (fuel : Nat) (t : transPort) (hdr body : List Nat)
    (hr : t.uds.readsReliable) (hin : t.uds.inbox = hdr ++ body) (hlen : hdr.length = 10)
    (hd : allDigits hdr) (hfuel : 10 ≤ fuel) :
    (decimalValue hdr < 2 ^ 32 →
      ParseUint hdr 32 = .ok (decimalValue hdr) ∧
      (List.replicate (decimalValue hdr) 0).length = decimalValue hdr ∧
      ∃ c1, readExact fuel t.uds (List.replicate headerLen 0) = some (c1, hdr, none) ∧
        c1.inbox = body ∧
        transPort.recv fuel t =
          (readExact fuel c1 (List.replicate (decimalValue hdr) 0)).map
            fun r => ({ t with uds := r.1 }, r.2.1, r.2.2.map RecvError.read)) ∧
    (2 ^ 32 ≤ decimalValue hdr →
      ParseUint hdr 32 = .error .outOfRange ∧
      ∃ t1, transPort.recv fuel t = some (t1, [], some (.header .outOfRange)) ∧
        t1.uds.inbox = body) := by
  constructor
  · intro hv
    have hne : hdr ≠ [] := by
      intro h; rw [h] at hlen; simp at hlen
    exact ⟨ParseUint_ok hdr hne hd hv, List.length_replicate _ _,
      recv_reads_payload fuel t hdr body hr hin hlen hd hv hfuel⟩
  · intro hv
    exact ⟨ParseUint_range hdr hd hv, recv_range fuel t hdr body hr hin hlen hd hv hfuel⟩

/-- Witness of C25: the header `0000000003` followed by the three bytes 7, 8, 9. -/
theorem recv_accepts_header_below_limit_witness :
    (steadyConn [48, 48, 48, 48, 48, 48, 48, 48, 48, 51, 7, 8, 9] 4).readsReliable ∧
    allDigits [48, 48, 48, 48, 48, 48, 48, 48, 48, 51] ∧
    ParseUint [48, 48, 48, 48, 48, 48, 48, 48, 48, 51] 32 =
      .ok (decimalValue [48, 48, 48, 48, 48, 48, 48, 48, 48, 51]) ∧
    decimalValue [48, 48, 48, 48, 48, 48, 48, 48, 48, 51] = 3 :=
  ⟨steadyConn_reads _ 4 (by decide), by decide,
    ((recv_accepts_header_below_limit 10
      ⟨steadyConn [48, 48, 48, 48, 48, 48, 48, 48, 48, 51, 7, 8, 9] 4, false⟩
      [48, 48, 48, 48, 48, 48, 48, 48, 48, 51] [7, 8, 9]
      (steadyConn_reads _ 4 (by decide)) rfl rfl (by decide) (by decide)).1 (by decide)).1,
    by decide⟩

/-- C25 as stated fails: the header `9999999999` is made of 10 decimal digits, and
`transPort.recv` rejects it with a range error without reading a payload byte. -/
theorem recv_accepts_header_below_limit_counterexample :
    allDigits [57, 57, 57, 57, 57, 57, 57, 57, 57, 57] ∧
    decimalValue [57, 57, 57, 57, 57, 57, 57, 57, 57, 57] = 9999999999 ∧
    ∃ t1, transPort.recv 10
        ⟨steadyConn ([57, 57, 57, 57, 57, 57, 57, 57, 57, 57] ++ [1, 2, 3]) 1, false⟩ =
        some (t1, [], some (.header .outOfRange)) ∧
      t1.uds.inbox = [1, 2, 3] :=
  ⟨by decide, by decide,
    recv_range 10 _ [57, 57, 57, 57, 57, 57, 57, 57, 57, 57] [1, 2, 3]
      (steadyConn_reads _ 1 (by decide)) rfl rfl (by decide) (by decide) (by decide)⟩

/-- C24 (amended): for every frame whose 10-byte length header is not a decimal number,
`transPort.recv` returns the syntax error of `strconv.ParseUint`, which is no read
error.  The caller of `transPort.invoke` and the caller of `transPort.readRequest`
receive for it an `LsmError` with code `TransPortComunication` (400), the same code as
for an I/O failure on the stream; the two failures differ in the message only, which
quotes the text of the underlying error. -/
theorem header_error_shares_code_with_io_error {α : Type} (fuel : Nat) (r : transPort)
    (hdr body : List Nat) (hr : r.uds.readsReliable) (hin : r.uds.inbox = hdr ++ body)
    (hlen : hdr.length = 10) (hd : ¬ allDigits hdr) (hfuel : 10 ≤ fuel)
    (t : Port) (cmd : String) (args : List (String × Json)) (result : Option (Target α))
    (cur : α) (text : String) (rest : List Incoming) (hs : t.sendsSucceed) :
    (∃ r1, transPort.recv fuel r = some (r1, [], some (.header .invalidSyntax)) ∧
      ∀ e, RecvError.header .invalidSyntax ≠ .read e) ∧
    (t.incoming = .headerError text :: rest →
      (transPort.invoke t cmd args result cur).2.2 =
          some (.lsm ⟨errors.TransPortComunication,
            "Error reading from unix domain socket " ++ text ++ "\n", ""⟩) ∧
        (transPort.readRequest t).2 =
          .error (.lsm ⟨errors.TransPortComunication,
            "Error reading from unix domain socket " ++ text ++ "\n", ""⟩)) ∧
    (t.incoming = .readError text :: rest →
      (transPort.invoke t cmd args result cur).2.2 =
          some (.lsm ⟨errors.TransPortComunication,
            "Error reading from unix domain socket " ++ text ++ "\n", ""⟩) ∧
        (transPort.readRequest t).2 =
          .error (.lsm ⟨errors.TransPortComunication,
            "Error reading from unix domain socket " ++ text ++ "\n", ""⟩)) ∧
    errors.TransPortComunication = 400 := by
  refine ⟨?_, ?_, ?_, rfl⟩
  · obtain ⟨r1, h1, _⟩ := recv_syntax fuel r hdr body hr hin hlen hd hfuel
    exact ⟨r1, h1, fun e h => by cases h⟩
  · intro h
    constructor
    · rw [invoke_headerError t cmd args result cur text rest hs h]
    · rw [readRequest_headerError t text rest h]
  · intro h
    constructor
    · rw [invoke_readError t cmd args result cur text rest hs h]
    · rw [readRequest_readError t text rest h]

/-- Witness of C24: the header `00000000ab`. -/
theorem header_error_shares_code_with_io_error_witness :
    (steadyConn [48, 48, 48, 48, 48, 48, 48, 48, 97, 98, 1, 2] 4).readsReliable ∧
    ¬ allDigits [48, 48, 48, 48, 48, 48, 48, 48, 97, 98] ∧
    (∃ r1, transPort.recv 10
        ⟨steadyConn [48, 48, 48, 48, 48, 48, 48, 48, 97, 98, 1, 2] 4, false⟩ =
        some (r1, [], some (.header .invalidSyntax)) ∧
      ∀ e, RecvError.header .invalidSyntax ≠ .read e) :=
  ⟨steadyConn_reads _ 4 (by decide), by decide,
    (header_error_shares_code_with_io_error 10
      ⟨steadyConn [48, 48, 48, 48, 48, 48, 48, 48, 97, 98, 1, 2] 4, false⟩
      [48, 48, 48, 48, 48, 48, 48, 48, 97, 98] [1, 2] (steadyConn_reads _ 4 (by decide))
      rfl rfl (by decide) (by decide)
      (scripted [.headerError "invalid syntax"]).tp "systems" []
      (none : Option (Target Unit)) () "invalid syntax" [] (scripted_sendsSucceed _)).1⟩

/-- C24 as stated fails: `invoke` and `readRequest` report a header that is no number
and an end of file on the stream under one and the same error code. -/
theorem header_error_shares_code_with_io_error_counterexample :
    (∃ e1 e2,
      (transPort.invoke (scripted [.headerError "invalid syntax"]).tp "systems" []
        (none : Option (Target Unit)) ()).2.2 = some (.lsm e1) ∧
      (transPort.invoke (scripted [.readError "EOF"]).tp "systems" []
        (none : Option (Target Unit)) ()).2.2 = some (.lsm e2) ∧
      e1.Code = e2.Code) ∧
    (∃ e1 e2,
      (transPort.readRequest (scripted [.headerError "invalid syntax"]).tp).2 =
        .error (.lsm e1) ∧
      (transPort.readRequest (scripted [.readError "EOF"]).tp).2 = .error (.lsm e2) ∧
      e1.Code = e2.Code) :=
  ⟨⟨_, _, rfl, rfl, rfl⟩, ⟨_, _, rfl, rfl, rfl⟩⟩

/-! ## Plugin side: the loop of `Run`, lemmas and claims -/

theorem Plugin.sameWiring_refl {σ : Type} (p : Plugin σ) : p.sameWiring p :=
  ⟨rfl, rfl, rfl, rfl, rfl, [], (List.append_nil _).symm⟩

theorem Plugin.sameWiring_trans {σ : Type} (p q r : Plugin σ) (h1 : p.sameWiring q)
    (h2 : q.sameWiring r) : p.sameWiring r := by
  obtain ⟨a1, a2, a3, a4, a5, s1, a6⟩ := h1
  obtain ⟨b1, b2, b3, b4, b5, s2, b6⟩ := h2
  exact ⟨b1.trans a1, b2.trans a2, b3.trans a3, b4.trans a4, b5.trans a5, s1 ++ s2,
    by rw [b6, a6, List.append_assoc]⟩

theorem Plugin.call_sameWiring {σ ρ : Type} (p : Plugin σ) (name : String)
    (cb : Option (σ → σ × ρ)) (k : Plugin σ → ρ → Plugin σ × Returned)
    (hk : ∀ (p1 : Plugin σ) (r : ρ), p1.sameWiring (k p1 r).1) :
    p.sameWiring (p.call name cb k).1 := by
  unfold Plugin.call
  cases cb with
  | none => exact Plugin.sameWiring_refl p
  | some f =>
    exact Plugin.sameWiring_trans p
      { p with st := (f p.st).1, journal := p.journal ++ [.callback name] } _
      ⟨rfl, rfl, rfl, rfl, rfl, [.callback name], rfl⟩ (hk _ _)

theorem Handler.run_sameWiring {σ : Type} (f : Handler) (p : Plugin σ) (msg : requestMsg) :
    p.sameWiring (f.run p msg).1 := by
  cases f <;>
    simp only [Handler.run, Lsm.handlePluginInfo, Lsm.handleUnRegister, Lsm.handleSystems,
      Lsm.handleTmoGet, Lsm.handleDisks, Lsm.handleAccessGroups, Lsm.handleTargetPorts,
      Lsm.handleExportAuthTypes, Lsm.handleBatteries,
      Lsm.handleRegister, Lsm.handleCapabilities, Lsm.handleTmoSet,
      Lsm.handlePools, Lsm.handleJobStatus, Lsm.handleJobFree, Lsm.handleVolumeCreate,
      Lsm.handleVolumeDelete, Lsm.handleVolumes, Lsm.handleVolumeReplicate,
      Lsm.handleVolumeReplicateRange, Lsm.handleVolRepRangeBlockSize,
      Lsm.handleVolumeResize, Lsm.handleVolumeEnable, Lsm.handleVolumeDisable,
      Lsm.handleVolumeMask, Lsm.handleVolumeUnMask, Lsm.handleVolHasChildDep,
      Lsm.handleVolChildDepRm, Lsm.handleVolsMaskedToAg, Lsm.handleAccessGroupCreate,
      Lsm.handleAccessGroupDelete, Lsm.handleAccessGroupInitAdd,
      Lsm.handleAccessGroupInitDelete, Lsm.handleAgsGrantedToVol,
      Lsm.handleIscsiChapAuthSet, Lsm.handleVolIdentLedOn, Lsm.handleVolIdentLedOff,
      Lsm.handleFs, Lsm.handleFsCreate, Lsm.handleFsDelete, Lsm.handleFsResize,
      Lsm.handleFsClone, Lsm.handleFsFileClone, Lsm.handleFsSnapShotCreate,
      Lsm.handleFsSnapShotDelete, Lsm.handleFsSnapShots, Lsm.handleFsSnapShotRestore,
      Lsm.handleFsHasChildDep, Lsm.handleFsChildDepRm, Lsm.handleNfsExports,
      Lsm.handleExportFs, Lsm.handleFsUnexport, Lsm.handleVolRaidCreate,
      Lsm.handleVolRaidCreateCapGet, Lsm.handlePoolMemberInfo, Lsm.handleVolRaidInfo,
      Lsm.handleSystemReadCachePctSet, Lsm.handleVolCacheInfo,
      Lsm.handleVolPhyDiskCacheSet, Lsm.handleVolWriteCacheSet,
      Lsm.handleVolReadCacheSet] <;>
    repeat' (first
      | exact Plugin.sameWiring_refl _
      | (apply Plugin.call_sameWiring; intro _ _)
      | split)

/-- What `readRequest` returns, by what the next `recv` returns: a communication error
when it is no frame, an error with code `TransPortInvalidArg` when it is a frame that
is no request envelope, and the request otherwise. -/
theorem readRequest_cases (t : Port) :
    (Event.isFrame (.received t.nextReply) = false ∧
      ∃ e, e.Code = errors.TransPortComunication ∧
        transPort.readRequest t = (t.received, .error (.lsm e))) ∨
    (∃ i rest e, t.incoming = i :: rest ∧ Event.isFrame (.received i) = true ∧
      e.Code = errors.TransPortInvalidArg ∧
      transPort.readRequest t = (t.received, .error (.lsm e))) ∨
    (∃ i rest req, t.incoming = i :: rest ∧ Event.isFrame (.received i) = true ∧
      i.request req ∧ transPort.readRequest t = (t.received, .ok req)) := by
  unfold transPort.readRequest Port.recv Port.received Port.nextReply
  cases hin : t.incoming with
  | nil => exact Or.inl ⟨rfl, _, rfl, rfl⟩
  | cons i rest =>
    cases i with
    | readError e => exact Or.inl ⟨rfl, _, rfl, rfl⟩
    | headerError e => exact Or.inl ⟨rfl, _, rfl, rfl⟩
    | frame raw parsed =>
      cases parsed with
      | error e => exact Or.inr (Or.inl ⟨_, _, _, rfl, rfl, rfl, rfl⟩)
      | ok j =>
        rcases hdec : requestMsg.store j requestMsg.zero with ⟨what, e⟩
        cases e with
        | some e =>
          refine Or.inr (Or.inl ⟨_, _, ⟨errors.TransPortInvalidArg,
            "Unparsable request from client " ++ e.Error ++ "\n", ""⟩, rfl, rfl, rfl, ?_⟩)
          simp only [hdec]
          rfl
        | none =>
          refine Or.inr (Or.inr ⟨_, _, what, rfl, rfl, ⟨raw, j, rfl, hdec⟩, ?_⟩)
          simp only [hdec]
          rfl


theorem Run_commError {σ : Type} (fuel : Nat) (p : Plugin σ) (t1 : Port) (e : LsmError)
    (hread : transPort.readRequest p.tp = (t1, .error (.lsm e)))
    (hcode : e.Code = errors.TransPortComunication) :
    Plugin.Run (fuel + 1) p = ({ p with tp := t1 }, some (.communication e)) := by
  rw [Plugin.Run, hread]
  simp only [hcode, ne_eq, not_true_eq_false, if_false]

theorem Run_otherError {σ : Type} (fuel : Nat) (p : Plugin σ) (t1 : Port) (e : LsmError)
    (hs : t1.sendsSucceed)
    (hread : transPort.readRequest p.tp = (t1, .error (.lsm e)))
    (hcode : e.Code ≠ errors.TransPortComunication) :
    Plugin.Run (fuel + 1) p =
      Plugin.Run fuel { p with
        tp := ⟨t1.incoming, t1.sendErrs.tail, t1.trace ++ [.sent (.failure (.lsm e))]⟩ } := by
  rw [Plugin.Run, hread]
  simp only [hcode, ne_eq, not_false_eq_true, if_true, sendError_sendsSucceed t1 _ hs]

theorem Run_teardown {σ : Type} (fuel : Nat) (p p1 : Plugin σ) (i : Incoming)
    (req : requestMsg) (rest : List Incoming) (f : Handler) (response : Json)
    (err : Option GoError) (hs : p.tp.sendsSucceed)
    (hin : p.tp.incoming = i :: rest) (hi : i.request req)
    (hf : p.callTable.lookup req.Method = some (some f))
    (hrun : f.run (p.dispatched i rest req.Method) req = (p1, .values response err))
    (htp : p1.tp = (p.dispatched i rest req.Method).tp)
    (hm : req.Method = "plugin_unregister") :
    Plugin.Run (fuel + 1) p =
      ({ p1 with tp := transPort.close (p.tp.served i (replyOf response err) rest) },
        some .unregistered) := by
  have hs1 := received_sendsSucceed p.tp i rest hs
  rw [Plugin.Run, readRequest_frame p.tp i req rest hin hi]
  simp only [Plugin.dispatched] at hrun htp
  simp only [hf, hrun, htp]
  rw [if_pos hm]
  cases err with
  | some e => simp only [sendError_sendsSucceed _ e hs1]; rfl
  | none => simp only [sendResponse_sendsSucceed _ response hs1]; rfl

theorem Port.received_cons (t : Port) (i : Incoming) (rest : List Incoming)
    (hin : t.incoming = i :: rest) :
    t.received = ⟨rest, t.sendErrs, t.trace ++ [.received i]⟩ := by
  simp [Port.received, Port.nextReply, hin]

/-- One round of `Run`: the run ends on a communication error, having received
something that is no frame; or a frame is received and answered and the loop goes on;
or a frame is received and its handler panics; or a frame naming `plugin_unregister` is
received, its handler is executed, the frame is answered and the connection closed. -/
theorem Run_round {σ : Type} (fuel : Nat) (p : Plugin σ) (hs : p.tp.sendsSucceed) :
    (∃ e, Event.isFrame (.received p.tp.nextReply) = false ∧
      Plugin.Run (fuel + 1) p = ({ p with tp := p.tp.received }, some (.communication e))) ∨
    (∃ i rest m p1 steps, p.tp.incoming = i :: rest ∧ Event.isFrame (.received i) = true ∧
      Event.isResponse (.sent m) = true ∧ p1.tp = p.tp.served i m rest ∧
      p1.journal = p.journal ++ steps ∧ Plugin.Run (fuel + 1) p = Plugin.Run fuel p1) ∨
    (∃ i rest p1 pn steps, p.tp.incoming = i :: rest ∧ Event.isFrame (.received i) = true ∧
      p1.tp = ⟨rest, p.tp.sendErrs, p.tp.trace ++ [.received i]⟩ ∧
      p1.journal = p.journal ++ steps ∧
      Plugin.Run (fuel + 1) p = (p1, some (.panicked pn))) ∨
    (∃ i rest m p1 steps, p.tp.incoming = i :: rest ∧ Event.isFrame (.received i) = true ∧
      Event.isResponse (.sent m) = true ∧
      p1.tp = transPort.close (p.tp.served i m rest) ∧
      p1.journal = p.journal ++ steps ∧ Step.handler "plugin_unregister" ∈ steps ∧
      Plugin.Run (fuel + 1) p = (p1, some .unregistered)) := by
  rcases readRequest_cases p.tp with ⟨hnf, e, hcode, hread⟩ | ⟨i, rest, e, hin, hfr, hcode, hread⟩ |
    ⟨i, rest, req, hin, hfr, hreq, hread⟩
  · exact Or.inl ⟨e, hnf, Run_commError fuel p _ e hread hcode⟩
  · rw [Port.received_cons p.tp i rest hin] at hread
    have hne : e.Code ≠ errors.TransPortComunication := by
      rw [hcode]
      decide
    exact Or.inr (Or.inl ⟨i, rest, .failure (.lsm e),
      { p with tp := p.tp.served i (.failure (.lsm e)) rest }, [], hin, hfr, rfl, rfl,
      (List.append_nil _).symm,
      Run_otherError fuel p _ e (received_sendsSucceed p.tp i rest hs) hread hne⟩)
  · rcases hl : p.callTable.lookup req.Method with _ | (_ | f)
    · exact Or.inr (Or.inl ⟨i, rest, unsupported req.Method,
        { p with tp := p.tp.served i (unsupported req.Method) rest }, [], hin, hfr, rfl, rfl,
        (List.append_nil _).symm, Run_unsupported fuel p i req rest hs hin hreq (Or.inl hl)⟩)
    · exact Or.inr (Or.inl ⟨i, rest, unsupported req.Method,
        { p with tp := p.tp.served i (unsupported req.Method) rest }, [], hin, hfr, rfl, rfl,
        (List.append_nil _).symm, Run_unsupported fuel p i req rest hs hin hreq (Or.inr hl)⟩)
    · have hw := Handler.run_sameWiring f (p.dispatched i rest req.Method) req
      rcases hrun : f.run (p.dispatched i rest req.Method) req with ⟨p1, ret⟩
      rw [hrun] at hw
      obtain ⟨htp, _, _, _, _, steps, hj⟩ := hw
      have hj1 : p1.journal = p.journal ++ (.handler req.Method :: steps) := by
        rw [hj]
        simp [Plugin.dispatched]
      cases ret with
      | panic pn =>
        exact Or.inr (Or.inr (Or.inl ⟨i, rest, p1, pn, _, hin, hfr, htp, hj1,
          Run_panic fuel p p1 i req rest f pn hin hreq hl hrun⟩))
      | values response err =>
        have hresp : Event.isResponse (.sent (replyOf response err)) = true := by
          cases err <;> rfl
        by_cases hm : req.Method = "plugin_unregister"
        · refine Or.inr (Or.inr (Or.inr ⟨i, rest, replyOf response err,
            { p1 with tp := transPort.close (p.tp.served i (replyOf response err) rest) },
            _, hin, hfr, hresp, rfl, hj1, ?_,
            Run_teardown fuel p p1 i req rest f response err hs hin hreq hl hrun htp hm⟩))
          rw [hm]
          exact List.mem_cons_self _ _
        · exact Or.inr (Or.inl ⟨i, rest, replyOf response err,
            { p1 with tp := p.tp.served i (replyOf response err) rest }, _, hin, hfr, hresp,
            rfl, hj1, Run_values fuel p p1 i req rest f response err hs hin hreq hl hrun htp hm⟩)

/-- The events of a whole run of `Run` and its journal: every frame is answered by one
response before the next is read, `Close` is called once, as the last event, exactly
when the run ends in the teardown, and then the handler of `plugin_unregister` was
executed. -/
theorem Run_shape {σ : Type} : ∀ (fuel : Nat) (p : Plugin σ), p.tp.sendsSucceed →
    ∃ evs steps, (Plugin.Run fuel p).1.tp.trace = p.tp.trace ++ evs ∧
      Answered (Plugin.Run fuel p).2 evs ∧
      (Plugin.Run fuel p).1.journal = p.journal ++ steps ∧
      ((Plugin.Run fuel p).2 = some .unregistered →
        Step.handler "plugin_unregister" ∈ steps) := by
  intro fuel
  induction fuel with
  | zero =>
    intro p _
    exact ⟨[], [], by simp [Plugin.Run], Answered.running, by simp [Plugin.Run],
      fun h => by simp [Plugin.Run] at h⟩
  | succ n ih =>
    intro p hs
    rcases Run_round n p hs with ⟨e, hnf, hrun⟩ |
      ⟨i, rest, m, p1, steps, hin, hfr, hresp, htp, hj, hrun⟩ |
      ⟨i, rest, p1, pn, steps, hin, hfr, htp, hj, hrun⟩ |
      ⟨i, rest, m, p1, steps, hin, hfr, hresp, htp, hj, hmem, hrun⟩
    · rw [hrun]
      exact ⟨[.received p.tp.nextReply], [], rfl, Answered.communication _ e hnf,
        (List.append_nil _).symm, fun h => by cases h⟩
    · have hs1 : p1.tp.sendsSucceed := by
        rw [htp]
        exact Port.served_sendsSucceed p.tp i m rest hs
      obtain ⟨evs, steps1, h1, h2, h3, h4⟩ := ih p1 hs1
      rw [hrun]
      refine ⟨.received i :: .sent m :: evs, steps ++ steps1, ?_,
        Answered.round _ i m evs hfr hresp h2, ?_, ?_⟩
      · rw [h1, htp]
        simp [Port.served]
      · rw [h3, hj, List.append_assoc]
      · intro h
        exact List.mem_append_right _ (h4 h)
    · rw [hrun]
      exact ⟨[.received i], steps, by rw [htp], Answered.panicked i pn hfr, hj,
        fun h => by cases h⟩
    · rw [hrun]
      refine ⟨[.received i, .sent m, .closed], steps, ?_, Answered.unregistered i m hfr hresp,
        hj, fun _ => hmem⟩
      rw [htp]
      simp [transPort.close, Port.served]

theorem Answered.counts (e : Option RunEnd) (evs : List Event) (h : Answered e evs) :
    (evs.countP Event.isClose = if endsInTeardown e then 1 else 0) ∧
    (evs.countP Event.isFrame =
      evs.countP Event.isResponse + if endsInPanic e then 1 else 0) := by
  induction h with
  | running => exact ⟨rfl, rfl⟩
  | communication i lsmError h =>
    refine ⟨rfl, ?_⟩
    simp [List.countP_cons, h, Event.isResponse, endsInPanic]
  | unregistered i m hi hm =>
    refine ⟨rfl, ?_⟩
    have h1 : Event.isResponse (.received i) = false := rfl
    have h2 : Event.isFrame (.sent m) = false := rfl
    have h3 : Event.isResponse .closed = false := rfl
    have h4 : Event.isFrame .closed = false := rfl
    simp [List.countP_cons, hi, hm, h1, h2, h3, h4, endsInPanic]
  | panicked i pn hi =>
    refine ⟨rfl, ?_⟩
    simp [List.countP_cons, hi, Event.isResponse, endsInPanic]
  | round e i m rest hi hm _ ih =>
    have h1 : Event.isResponse (.received i) = false := rfl
    have h2 : Event.isFrame (.sent m) = false := rfl
    have h3 : Event.isClose (.received i) = false := rfl
    have h4 : Event.isClose (.sent m) = false := rfl
    constructor
    · simp only [List.countP_cons, h3, h4, ih.1]
      simp
    · simp only [List.countP_cons, hi, hm, h1, h2, ih.2]
      simp
      omega


theorem readRequest_port (t : Port) : (transPort.readRequest t).1 = t.received := by
  rcases readRequest_cases t with ⟨_, _, _, h⟩ | ⟨_, _, _, _, _, _, h⟩ | ⟨_, _, _, _, _, _, h⟩ <;>
    rw [h]

theorem readRequest_code (t : Port) (t1 : Port) (e : LsmError)
    (hread : transPort.readRequest t = (t1, .error (.lsm e))) :
    (e.Code = errors.TransPortComunication ∧ Event.isFrame (.received t.nextReply) = false) ∨
    (e.Code = errors.TransPortInvalidArg ∧
      ∃ i rest, t.incoming = i :: rest ∧ Event.isFrame (.received i) = true) := by
  rcases readRequest_cases t with ⟨hnf, e1, hc, h⟩ | ⟨i, rest, e1, hin, hfr, hc, h⟩ |
    ⟨_, _, _, _, _, _, h⟩
  · rw [h] at hread
    cases hread
    exact Or.inl ⟨hc, hnf⟩
  · rw [h] at hread
    cases hread
    exact Or.inr ⟨hc, i, rest, hin, hfr⟩
  · rw [h] at hread
    cases hread

theorem Answered.teardown (e : Option RunEnd) (evs : List Event) (h : Answered e evs) :
    e = some .unregistered →
      ∃ pre i m, evs = pre ++ [.received i, .sent m, .closed] ∧
        Event.isFrame (.received i) = true ∧ Event.isResponse (.sent m) = true ∧
        pre.countP Event.isClose = 0 := by
  induction h with
  | running => intro h; cases h
  | communication i lsmError h => intro h; cases h
  | unregistered i m hi hm => intro _; exact ⟨[], i, m, rfl, hi, hm, rfl⟩
  | panicked i pn hi => intro h; cases h
  | round e i m rest hi hm _ ih =>
    intro he
    obtain ⟨pre, i1, m1, h1, h2, h3, h4⟩ := ih he
    refine ⟨.received i :: .sent m :: pre, i1, m1, by rw [h1]; rfl, h2, h3, ?_⟩
    have h5 : Event.isClose (.received i) = false := rfl
    have h6 : Event.isClose (.sent m) = false := rfl
    simp [List.countP_cons, h4, h5, h6]

theorem Run_unregisterBound {σ : Type} (fuel : Nat) (p : Plugin σ) (i : Incoming)
    (req : requestMsg) (rest : List Incoming) (f : CbError σ) (hs : p.tp.sendsSucceed)
    (hin : p.tp.incoming = i :: rest) (hi : i.request req)
    (hm : req.Method = "plugin_unregister") (htable : p.callTable = buildTable p.cb)
    (hcb : p.cb.Mgmt.PluginUnregister = some f) :
    Plugin.Run (fuel + 1) p =
      ({ p with
          tp := ⟨rest, p.tp.sendErrs.tail,
            p.tp.trace ++ [.received i, .sent (replyOf .null (f [] p.st).2), .closed]⟩
          st := (f [] p.st).1
          journal := p.journal ++
            [.handler "plugin_unregister", .callback "Mgmt.PluginUnregister"] },
        some .unregistered) := by
  have hf : p.callTable.lookup req.Method = some (some .handleUnRegister) := by
    rw [hm, htable, buildTable_unregister, hcb]
    rfl
  have hrun : Handler.handleUnRegister.run (p.dispatched i rest req.Method) req =
      ({ p.dispatched i rest req.Method with
          st := (f [] p.st).1
          journal := (p.dispatched i rest req.Method).journal ++
            [.callback "Mgmt.PluginUnregister"] },
        .values .null (f [] p.st).2) := by
    simp only [Handler.run, Lsm.handleUnRegister, Plugin.call, Plugin.dispatched, hcb,
      Option.map_some']
  rw [Run_teardown fuel p _ i req rest .handleUnRegister .null (f [] p.st).2 hs hin hi hf
    hrun rfl hm]
  simp [transPort.close, Port.served, Plugin.dispatched, hm]

theorem Run_unregisterUnbound {σ : Type} (fuel : Nat) (p : Plugin σ) (i : Incoming)
    (req : requestMsg) (rest : List Incoming) (hs : p.tp.sendsSucceed)
    (hin : p.tp.incoming = i :: rest) (hi : i.request req)
    (hm : req.Method = "plugin_unregister") (htable : p.callTable = buildTable p.cb)
    (hcb : p.cb.Mgmt.PluginUnregister = none) :
    Plugin.Run (fuel + 1) p =
      Plugin.Run fuel { p with tp := p.tp.served i (unsupported "plugin_unregister") rest } := by
  have hf : p.callTable.lookup req.Method = some none := by
    rw [hm, htable, buildTable_unregister, hcb]
    rfl
  rw [Run_unsupported fuel p i req rest hs hin hi (Or.inr hf), hm]

/-- C22 (amended): when `readRequest` fails in `Run`, the error is an `LsmError` with
code `TransPortComunication` or `TransPortInvalidArg`.  For a communication failure
`Run` writes no response and stops looping, and it does not close the connection: the
one event of the round is the receipt that failed.  For the other error, an envelope
that is no request, `Run` writes exactly one error response carrying that error and
goes on with the next request. -/
theorem read_failure_ends_or_is_answered {σ : Type} (fuel : Nat) (p : Plugin σ) (t1 : Port)
    (lsmError : LsmError) (hs : p.tp.sendsSucceed)
    (hread : transPort.readRequest p.tp = (t1, .error (.lsm lsmError))) :
    (lsmError.Code = errors.TransPortComunication ∨
      lsmError.Code = errors.TransPortInvalidArg) ∧
    (lsmError.Code = errors.TransPortComunication →
      Plugin.Run (fuel + 1) p =
          ({ p with tp := p.tp.received }, some (.communication lsmError)) ∧
        p.tp.received.trace = p.tp.trace ++ [.received p.tp.nextReply] ∧
        Event.isFrame (.received p.tp.nextReply) = false ∧
        Event.isResponse (.received p.tp.nextReply) = false ∧
        Event.isClose (.received p.tp.nextReply) = false ∧
        p.tp.received.incoming = p.tp.incoming.tail) ∧
    (lsmError.Code ≠ errors.TransPortComunication →
      ∃ i rest, p.tp.incoming = i :: rest ∧
        Plugin.Run (fuel + 1) p =
          Plugin.Run fuel { p with tp := p.tp.served i (.failure (.lsm lsmError)) rest } ∧
        (p.tp.served i (.failure (.lsm lsmError)) rest).trace =
          p.tp.trace ++ [.received i, .sent (.failure (.lsm lsmError))] ∧
        (p.tp.served i (.failure (.lsm lsmError)) rest).incoming = rest) := by
  have ht1 : t1 = p.tp.received := by
    have := readRequest_port p.tp
    rw [hread] at this
    exact this
  subst ht1
  have hcases := readRequest_code p.tp _ lsmError hread
  refine ⟨?_, ?_, ?_⟩
  · rcases hcases with h | h
    · exact Or.inl h.1
    · exact Or.inr h.1
  · intro hc
    refine ⟨Run_commError fuel p _ lsmError hread hc, rfl, ?_, rfl, rfl, rfl⟩
    rcases hcases with h | h
    · exact h.2
    · rw [h.1] at hc
      exact absurd hc (by decide)
  · intro hc
    rcases hcases with h | ⟨_, i, rest, hin, _⟩
    · exact absurd h.1 hc
    · refine ⟨i, rest, hin, ?_, Port.served_trace _ _ _ _, rfl⟩
      rw [Port.received_cons p.tp i rest hin] at hread
      exact Run_otherError fuel p _ lsmError (received_sendsSucceed p.tp i rest hs) hread hc

/-- Witness of C22: a frame whose payload is no JSON text. -/
theorem read_failure_ends_or_is_answered_witness :
    ∃ i rest, (pluginWith {} [.frame "garbage" (.error "invalid character")]).tp.incoming =
        i :: rest ∧
      Plugin.Run (2 + 1) (pluginWith {} [.frame "garbage" (.error "invalid character")]) =
        Plugin.Run 2 { pluginWith {} [.frame "garbage" (.error "invalid character")] with
          tp := (pluginWith {} [.frame "garbage" (.error "invalid character")]).tp.served i
            (.failure (.lsm ⟨errors.TransPortInvalidArg,
              "Unparsable request from client " ++ "invalid character" ++ "\n", ""⟩)) rest } ∧
      ((pluginWith {} [.frame "garbage" (.error "invalid character")]).tp.served i
          (.failure (.lsm ⟨errors.TransPortInvalidArg,
            "Unparsable request from client " ++ "invalid character" ++ "\n", ""⟩)) rest).trace =
        (pluginWith {} [.frame "garbage" (.error "invalid character")]).tp.trace ++
          [.received i, .sent (.failure (.lsm ⟨errors.TransPortInvalidArg,
            "Unparsable request from client " ++ "invalid character" ++ "\n", ""⟩))] ∧
      ((pluginWith {} [.frame "garbage" (.error "invalid character")]).tp.served i
          (.failure (.lsm ⟨errors.TransPortInvalidArg,
            "Unparsable request from client " ++ "invalid character" ++ "\n", ""⟩)) rest).incoming =
        rest :=
  (read_failure_ends_or_is_answered 2
    (pluginWith {} [.frame "garbage" (.error "invalid character")])
    ⟨[], [], [.received (.frame "garbage" (.error "invalid character"))]⟩
    ⟨errors.TransPortInvalidArg,
      "Unparsable request from client " ++ "invalid character" ++ "\n", ""⟩
    (fun e he => by simp [pluginWith] at he) rfl).2.2 (by decide)

/-- C22 as stated fails: on a stream that the peer has closed `Run` ends on the
communication error without writing a response, and it returns without having called
`Close` on the connection. -/
theorem read_failure_ends_or_is_answered_counterexample :
    (Plugin.Run 3 (pluginWith {} [])).2 =
      some (.communication ⟨errors.TransPortComunication,
        "Error reading from unix domain socket EOF\n", ""⟩) ∧
    (Plugin.Run 3 (pluginWith {} [])).1.tp.trace = [.received (.readError "EOF")] ∧
    (Plugin.Run 3 (pluginWith {} [])).1.tp.trace.countP Event.isClose = 0 := by
  refine ⟨rfl, rfl, rfl⟩


/-- C23: for every request naming `plugin_unregister` read by a plugin whose table is
the one of `buildTable` and whose `PluginUnregister` callback is bound, `Run` executes
the handler, which invokes the callback once; it writes exactly one response, the error
of the callback or a null result, then calls `Close` once and returns, whatever fuel is
left and with the requests that follow unread.  `Close` is the last event, after the
response.  The loop ends this way only when the teardown was dispatched: a run that
ends in the teardown has executed the handler of `plugin_unregister` and has called
`Close` once, as its last event, right after a response; and when the callback is not
bound the request gets the `NoSupport` response and the loop goes on. -/
theorem unregister_answers_then_closes {σ : Type} (fuel : Nat) (p : Plugin σ)
    (i : Incoming) (req : requestMsg) (rest : List Incoming) (f : CbError σ)
    (hs : p.tp.sendsSucceed) (hin : p.tp.incoming = i :: rest) (hi : i.request req)
    (hm : req.Method = "plugin_unregister") (htable : p.callTable = buildTable p.cb)
    (hcb : p.cb.Mgmt.PluginUnregister = some f) :
    Plugin.Run (fuel + 1) p =
      ({ p with
          tp := ⟨rest, p.tp.sendErrs.tail,
            p.tp.trace ++ [.received i, .sent (replyOf .null (f [] p.st).2), .closed]⟩
          st := (f [] p.st).1
          journal := p.journal ++
            [.handler "plugin_unregister", .callback "Mgmt.PluginUnregister"] },
        some .unregistered) ∧
    Event.isResponse (.sent (replyOf .null (f [] p.st).2)) = true ∧
    (∀ (k : Nat) (q : Plugin σ), q.tp.sendsSucceed →
      (Plugin.Run k q).2 = some .unregistered →
      (∃ pre j m, (Plugin.Run k q).1.tp.trace =
          q.tp.trace ++ (pre ++ [.received j, .sent m, .closed]) ∧
        Event.isFrame (.received j) = true ∧ Event.isResponse (.sent m) = true ∧
        pre.countP Event.isClose = 0) ∧
      ∃ steps, (Plugin.Run k q).1.journal = q.journal ++ steps ∧
        Step.handler "plugin_unregister" ∈ steps) ∧
    (∀ (k : Nat) (q : Plugin σ) (j : Incoming) (r : requestMsg) (more : List Incoming),
      q.tp.sendsSucceed → q.tp.incoming = j :: more → j.request r →
      r.Method = "plugin_unregister" → q.callTable = buildTable q.cb →
      q.cb.Mgmt.PluginUnregister = none →
      Plugin.Run (k + 1) q =
        Plugin.Run k { q with tp := q.tp.served j (unsupported "plugin_unregister") more }) := by
  refine ⟨Run_unregisterBound fuel p i req rest f hs hin hi hm htable hcb, ?_, ?_, ?_⟩
  · cases (f [] p.st).2 <;> rfl
  · intro k q hq hend
    obtain ⟨evs, steps, h1, h2, h3, h4⟩ := Run_shape k q hq
    obtain ⟨pre, j, m, e1, e2, e3, e4⟩ := Answered.teardown _ evs h2 hend
    exact ⟨⟨pre, j, m, by rw [h1, e1], e2, e3, e4⟩, steps, h3, h4 hend⟩
  · intro k q j r more hq hqin hj hr hqt hqcb
    exact Run_unregisterUnbound k q j r more hq hqin hj hr hqt hqcb

/-- Witness of C23: a `plugin_unregister` request followed by a `plugin_info` request,
which is left unread. -/
theorem unregister_answers_then_closes_witness :
    Plugin.Run (4 + 1)
        (pluginWith unregisterCallbacks [unregisterRequest, requestFrame "plugin_info" .null]) =
      ({ pluginWith unregisterCallbacks
            [unregisterRequest, requestFrame "plugin_info" .null] with
          tp := ⟨[requestFrame "plugin_info" .null], [],
            [.received unregisterRequest, .sent (.response .null), .closed]⟩
          st := ()
          journal := [.handler "plugin_unregister", .callback "Mgmt.PluginUnregister"] },
        some .unregistered) :=
  (unregister_answers_then_closes 4
    (pluginWith unregisterCallbacks [unregisterRequest, requestFrame "plugin_info" .null])
    unregisterRequest ⟨100, "plugin_unregister", some (.obj [("flags", .num 0)])⟩
    [requestFrame "plugin_info" .null] (fun _ s => (s, none))
    (fun e he => by simp [pluginWith] at he) rfl (requestFrame_request _ _) rfl rfl rfl).1

/-! ## `validateInitID`: the regular expression, lemmas -/

theorem Regex.matches_empty (s : List Char) : Regex.empty.matches s = true ↔ s = [] := by
  simp [Regex.matches]

theorem Regex.matches_cls (ranges : List (Char × Char)) (s : List Char) :
    (Regex.cls ranges).matches s = true ↔ ∃ c, s = [c] ∧ inRanges ranges c = true := by
  cases s with
  | nil => simp [Regex.matches]
  | cons c t =>
    cases t with
    | nil => simp [Regex.matches]
    | cons d u => simp [Regex.matches]

theorem Regex.matches_cat (a b : Regex) (s : List Char) :
    (Regex.cat a b).matches s = true ↔
      ∃ x y, s = x ++ y ∧ a.matches x = true ∧ b.matches y = true := by
  simp only [Regex.matches, List.any_eq_true, List.mem_range, Bool.and_eq_true]
  constructor
  · rintro ⟨k, _, h1, h2⟩
    exact ⟨s.take k, s.drop k, (List.take_append_drop k s).symm, h1, h2⟩
  · rintro ⟨x, y, rfl, h1, h2⟩
    refine ⟨x.length, by simp; omega, ?_, ?_⟩
    · rw [List.take_left]; exact h1
    · rw [List.drop_left]; exact h2

theorem Regex.matches_alt (a b : Regex) (s : List Char) :
    (Regex.alt a b).matches s = true ↔ a.matches s = true ∨ b.matches s = true := by
  simp [Regex.matches]

theorem Regex.matches_opt (a : Regex) (s : List Char) :
    (Regex.opt a).matches s = true ↔ s = [] ∨ a.matches s = true := by
  simp [Regex.matches]

theorem Regex.matches_times (x : Regex) : ∀ (n : Nat) (s : List Char),
    (x.times n).matches s = true ↔
      ∃ parts : List (List Char), parts.length = n ∧ (∀ p ∈ parts, x.matches p = true) ∧
        s = parts.flatten := by
  intro n
  induction n with
  | zero =>
    intro s
    rw [Regex.times, Regex.matches_empty]
    constructor
    · rintro rfl
      exact ⟨[], rfl, by simp, rfl⟩
    · rintro ⟨parts, hl, _, rfl⟩
      rw [List.length_eq_zero] at hl
      rw [hl]
      rfl
  | succ n ih =>
    intro s
    rw [Regex.times, Regex.matches_cat]
    constructor
    · rintro ⟨y, z, rfl, h1, h2⟩
      obtain ⟨parts, hl, hp, rfl⟩ := (ih z).mp h2
      refine ⟨y :: parts, by simp [hl], ?_, by simp⟩
      intro p hp1
      rcases List.mem_cons.mp hp1 with rfl | h
      · exact h1
      · exact hp p h
    · rintro ⟨parts, hl, hp, rfl⟩
      cases parts with
      | nil => simp at hl
      | cons y rest =>
        refine ⟨y, rest.flatten, by simp, hp y (List.mem_cons_self _ _), (ih _).mpr
          ⟨rest, by simpa using hl, fun p h => hp p (List.mem_cons_of_mem _ h), rfl⟩⟩

theorem Regex.matches_chr (c : Char) (s : List Char) :
    (Regex.chr c).matches s = true ↔ s = [c] := by
  rw [Regex.chr, Regex.matches_cls]
  constructor
  · rintro ⟨d, rfl, h⟩
    simp only [inRanges, List.any_cons, List.any_nil, Bool.or_false, Bool.and_eq_true,
      decide_eq_true_eq] at h
    rw [le_antisymm h.2 h.1]
  · rintro rfl
    exact ⟨c, rfl, by simp [inRanges]⟩

theorem hexClass_matches (s : List Char) :
    hexClass.matches s = true ↔ ∃ c, s = [c] ∧ isHexDigit c := by
  rw [hexClass, Regex.matches_cls]
  simp [inRanges, isHexDigit]

theorem hexPair_matches (s : List Char) :
    (hexClass.times 2).matches s = true ↔
      ∃ a b, isHexDigit a ∧ isHexDigit b ∧ s = [a, b] := by
  simp only [Regex.times, Regex.matches_cat, hexClass_matches, Regex.matches_empty]
  constructor
  · rintro ⟨x, y, rfl, ⟨a, rfl, ha⟩, z, w, rfl, ⟨b, rfl, hb⟩, rfl⟩
    exact ⟨a, b, ha, hb, rfl⟩
  · rintro ⟨a, b, ha, hb, rfl⟩
    exact ⟨[a], [b], rfl, ⟨a, rfl, ha⟩, [b], [], rfl, ⟨b, rfl, hb⟩, rfl⟩

theorem separatorClass_matches (s : List Char) :
    separatorClass.matches s = true ↔ s = ['.'] ∨ s = [':'] ∨ s = ['-'] := by
  have key : separatorClass.matches s = true ↔
      (Regex.chr '.').matches s = true ∨ (Regex.chr ':').matches s = true ∨
        (Regex.chr '-').matches s = true := by
    simp only [separatorClass, Regex.chr, Regex.matches_cls, inRanges, List.any_cons,
      List.any_nil, Bool.or_false, Bool.or_eq_true]
    constructor
    · rintro ⟨c, rfl, h | h | h⟩
      · exact Or.inl ⟨c, rfl, h⟩
      · exact Or.inr (Or.inl ⟨c, rfl, h⟩)
      · exact Or.inr (Or.inr ⟨c, rfl, h⟩)
    · rintro (⟨c, rfl, h⟩ | ⟨c, rfl, h⟩ | ⟨c, rfl, h⟩)
      · exact ⟨c, rfl, Or.inl h⟩
      · exact ⟨c, rfl, Or.inr (Or.inl h)⟩
      · exact ⟨c, rfl, Or.inr (Or.inr h)⟩
  rw [key, Regex.matches_chr, Regex.matches_chr, Regex.matches_chr]

theorem wwpnGroup_matches (g : List Char) :
    (Regex.cat (.opt separatorClass) (hexClass.times 2)).matches g = true ↔ isWwpnGroup g := by
  rw [Regex.matches_cat]
  simp only [Regex.matches_opt, separatorClass_matches, hexPair_matches, isWwpnGroup]
  constructor
  · rintro ⟨x, y, rfl, hx, a, b, ha, hb, rfl⟩
    refine ⟨a, b, ha, hb, ?_⟩
    rcases hx with rfl | rfl | rfl | rfl
    · exact Or.inl rfl
    · exact Or.inr (Or.inl rfl)
    · exact Or.inr (Or.inr (Or.inl rfl))
    · exact Or.inr (Or.inr (Or.inr rfl))
  · rintro ⟨a, b, ha, hb, rfl | rfl | rfl | rfl⟩
    · exact ⟨[], [a, b], rfl, Or.inl rfl, a, b, ha, hb, rfl⟩
    · exact ⟨['.'], [a, b], rfl, Or.inr (Or.inl rfl), a, b, ha, hb, rfl⟩
    · exact ⟨[':'], [a, b], rfl, Or.inr (Or.inr (Or.inl rfl)), a, b, ha, hb, rfl⟩
    · exact ⟨['-'], [a, b], rfl, Or.inr (Or.inr (Or.inr rfl)), a, b, ha, hb, rfl⟩

theorem wwpnLead_matches (l : List Char) :
    (Regex.opt (.alt (.cat (.chr '0') (.chr 'x')) (.cat (.chr '0') (.chr 'X')))).matches l =
        true ↔
      l = [] ∨ l = ['0', 'x'] ∨ l = ['0', 'X'] := by
  simp only [Regex.matches_opt, Regex.matches_alt, Regex.matches_cat, Regex.matches_chr]
  constructor
  · rintro (rfl | ⟨x, y, rfl, rfl, rfl⟩ | ⟨x, y, rfl, rfl, rfl⟩)
    · exact Or.inl rfl
    · exact Or.inr (Or.inl rfl)
    · exact Or.inr (Or.inr rfl)
  · rintro (rfl | rfl | rfl)
    · exact Or.inl rfl
    · exact Or.inr (Or.inl ⟨_, _, rfl, rfl, rfl⟩)
    · exact Or.inr (Or.inr ⟨_, _, rfl, rfl, rfl⟩)

/-- The pattern of `validateInitID` matches exactly the texts of the shape `isWwpn`. -/
theorem wwpnPattern_matches (s : List Char) :
    regexpMatch wwpnPattern s = true ↔ isWwpn s := by
  unfold regexpMatch wwpnPattern isWwpn
  rw [Regex.matches_cat]
  constructor
  · rintro ⟨l, y, rfl, hl, hy⟩
    rw [wwpnLead_matches] at hl
    rw [Regex.matches_cat] at hy
    obtain ⟨x, z, rfl, hx, hz⟩ := hy
    rw [hexPair_matches] at hx
    obtain ⟨a, b, ha, hb, rfl⟩ := hx
    rw [Regex.matches_times] at hz
    obtain ⟨groups, hlen, hg, rfl⟩ := hz
    exact ⟨l, a, b, groups, hl, ha, hb, hlen,
      fun g h => (wwpnGroup_matches g).mp (hg g h), by simp⟩
  · rintro ⟨l, a, b, groups, hl, ha, hb, hlen, hg, rfl⟩
    refine ⟨l, [a, b] ++ groups.flatten, by simp, (wwpnLead_matches l).mpr hl, ?_⟩
    rw [Regex.matches_cat]
    refine ⟨[a, b], groups.flatten, rfl, (hexPair_matches _).mpr ⟨a, b, ha, hb, rfl⟩, ?_⟩
    rw [Regex.matches_times]
    exact ⟨groups, hlen, fun g h => (wwpnGroup_matches g).mpr (hg g h), rfl⟩

theorem HasPrefix_iff (s pre : String) :
    strings.HasPrefix s pre = true ↔ ∃ rest, s.toList = pre.toList ++ rest := by
  unfold strings.HasPrefix
  rw [List.isPrefixOf_iff_prefix]
  constructor
  · rintro ⟨t, h⟩
    exact ⟨t, h.symm⟩
  · rintro ⟨t, h⟩
    exact ⟨t, h.symm⟩

/-! ## Client side: operations that check their arguments, lemmas and claims -/

theorem invoke_sends_once {α : Type} (t : Port) (cmd : String) (args : List (String × Json))
    (result : Option (Target α)) (cur : α) :
    ∃ evs, (transPort.invoke t cmd args result cur).1.trace = t.trace ++ evs ∧
      isExchange (requestOf cmd args) t.nextReply evs ∧ requestCount cmd evs = 1 := by
  rcases invoke_eq t cmd args result cur with ⟨e, rest, _, h⟩ | ⟨_, h⟩
  · rw [h]
    exact ⟨[.sendFailed (requestOf cmd args) e], rfl, Or.inl ⟨e, rfl⟩,
      by simp [requestCount, Event.isRequest, requestOf]⟩
  · rw [h]
    exact ⟨[.sent (requestOf cmd args), .received t.nextReply], by simp, Or.inr rfl,
      by simp [requestCount, Event.isRequest, requestOf]⟩

theorem VolRaidCreate_rejected (c : ClientConnection) (name : String) (raidType : Int)
    (disks : List Json) (stripSize : Nat) (h : raidCountRejected raidType disks.length) :
    ∃ msg, c.VolRaidCreate name raidType disks stripSize =
      (c, none, some (.lsm ⟨errors.InvalidArgument, msg, ""⟩)) := by
  unfold ClientConnection.VolRaidCreate
  split_ifs with h1 h2 h3 h4 h5 h6 h7
  · exact ⟨_, rfl⟩
  · exact ⟨_, rfl⟩
  · exact ⟨_, rfl⟩
  · exact ⟨_, rfl⟩
  · exact ⟨_, rfl⟩
  · exact ⟨_, rfl⟩
  · exact ⟨_, rfl⟩
  · exfalso
    simp only [Raid1, Raid5, Raid6, Raid10, Raid50, Raid60] at h2 h3 h4 h5 h6 h7
    unfold raidCountRejected at h
    omega

theorem VolRaidCreate_sends (c : ClientConnection) (name : String) (raidType : Int)
    (disks : List Json) (stripSize : Nat) (h : ¬ raidCountRejected raidType disks.length) :
    (c.VolRaidCreate name raidType disks stripSize).1.tp =
      (transPort.invoke c.tp "volume_raid_create" [("name", Json.str name),
        ("raid_type", Json.num raidType), ("disks", Json.arr disks),
        ("strip_size", Json.num stripSize)] (some ⟨Volume.store⟩) Volume.zero).1 := by
  unfold raidCountRejected at h
  unfold ClientConnection.VolRaidCreate
  simp only [Raid1, Raid5, Raid6, Raid10, Raid50, Raid60]
  rw [if_neg (by omega), if_neg (by omega), if_neg (by omega), if_neg (by omega),
    if_neg (by omega), if_neg (by omega), if_neg (by omega)]
  rcases transPort.invoke c.tp "volume_raid_create" [("name", Json.str name),
    ("raid_type", Json.num raidType), ("disks", Json.arr disks),
    ("strip_size", Json.num stripSize)] (some ⟨Volume.store⟩) Volume.zero with ⟨t1, v, e⟩
  cases e <;> rfl

/-- C29: for every name, RAID type, disk list and strip size, `VolRaidCreate` returns an
`InvalidArgument` error and leaves the connection as it was, no request being sent,
exactly when the disk count is one that is to be refused: no disk, RAID 1 without 2
disks, RAID 5 with fewer than 3, RAID 6 with fewer than 4, RAID 10, 50 and 60 with an
odd count or with fewer than 4, 6 and 8.  In every other case the events it adds to the
connection are those of one exchange for the `volume_raid_create` request that carries
the four arguments: exactly one such request is sent. -/
theorem vol_raid_create_checks_disk_count (c : ClientConnection) (name : String)
    (raidType : Int) (disks : List Json) (stripSize : Nat) :
    (raidCountRejected raidType disks.length ↔
      ∃ msg, c.VolRaidCreate name raidType disks stripSize =
        (c, none, some (.lsm ⟨errors.InvalidArgument, msg, ""⟩))) ∧
    (raidCountRejected raidType disks.length ∨
      ∃ evs, (c.VolRaidCreate name raidType disks stripSize).1.tp.trace = c.tp.trace ++ evs ∧
        isExchange (raidCreateRequest name raidType disks stripSize) c.tp.nextReply evs ∧
        requestCount "volume_raid_create" evs = 1) ∧
    errors.InvalidArgument = 101 := by
  have hsend : ¬ raidCountRejected raidType disks.length →
      ∃ evs, (c.VolRaidCreate name raidType disks stripSize).1.tp.trace = c.tp.trace ++ evs ∧
        isExchange (raidCreateRequest name raidType disks stripSize) c.tp.nextReply evs ∧
        requestCount "volume_raid_create" evs = 1 := by
    intro h
    rw [VolRaidCreate_sends c name raidType disks stripSize h]
    exact invoke_sends_once _ _ _ _ _
  refine ⟨⟨VolRaidCreate_rejected c name raidType disks stripSize, ?_⟩, ?_, rfl⟩
  · rintro ⟨msg, hmsg⟩
    by_contra h
    obtain ⟨evs, h1, h2, _⟩ := hsend h
    rw [hmsg] at h1
    have hlen := congrArg List.length h1
    rw [List.length_append] at hlen
    rcases h2 with ⟨e, rfl⟩ | rfl <;> simp at hlen
  · by_cases h : raidCountRejected raidType disks.length
    · exact Or.inl h
    · exact Or.inr (hsend h)

theorem iqn_prefixes (s : String) :
    (strings.HasPrefix s "iqn" = true ∨ strings.HasPrefix s "eui" = true ∨
      strings.HasPrefix s "naa" = true) ↔ isIqn s.toList := by
  rw [HasPrefix_iff, HasPrefix_iff, HasPrefix_iff]
  unfold isIqn
  constructor
  · rintro (⟨r, h⟩ | ⟨r, h⟩ | ⟨r, h⟩)
    · exact ⟨r, Or.inl h⟩
    · exact ⟨r, Or.inr (Or.inl h)⟩
    · exact ⟨r, Or.inr (Or.inr h)⟩
  · rintro ⟨r, h | h | h⟩
    · exact Or.inl ⟨r, h⟩
    · exact Or.inr (Or.inl ⟨r, h⟩)
    · exact Or.inr (Or.inr ⟨r, h⟩)

theorem validateInitID_nil (initID : String) (initType : Int) :
    validateInitID initID initType = none ↔
      (initType = InitiatorTypeWwpn ∧ isWwpn initID.toList) ∨
        (initType = InitiatorTypeIscsiIqn ∧ isIqn initID.toList) := by
  have hne : InitiatorTypeWwpn ≠ InitiatorTypeIscsiIqn := by decide
  unfold validateInitID
  by_cases h2 : initType = InitiatorTypeWwpn
  · subst h2
    rw [if_pos rfl, ← wwpnPattern_matches]
    cases hm : regexpMatch wwpnPattern initID.toList <;> simp [hne]
  · rw [if_neg h2]
    by_cases h5 : initType = InitiatorTypeIscsiIqn
    · subst h5
      rw [if_pos rfl, ← iqn_prefixes]
      cases strings.HasPrefix initID "iqn" <;> cases strings.HasPrefix initID "eui" <;>
        cases strings.HasPrefix initID "naa" <;> simp [h2]
    · rw [if_neg h5]
      simp [h2, h5]

theorem validateInitID_error (initID : String) (initType : Int) :
    validateInitID initID initType = none ∨
      ∃ msg, validateInitID initID initType = some (.lsm ⟨errors.InvalidArgument, msg, ""⟩) := by
  unfold validateInitID
  split_ifs
  · exact Or.inr ⟨_, rfl⟩
  · exact Or.inl rfl
  · exact Or.inr ⟨_, rfl⟩
  · exact Or.inl rfl
  · exact Or.inr ⟨_, rfl⟩

/-- C30: for every initiator id and initiator type, `validateInitID` returns nil exactly
when the type is `InitiatorTypeWwpn` (2) and the id has the shape of a WWPN (an optional
`0x` or `0X`, then eight groups of two hexadecimal digits, each group after the first
optionally preceded by a single `.`, `:` or `-`, nothing before or after), or the type
is `InitiatorTypeIscsiIqn` (5) and the id starts with `iqn`, `eui` or `naa`.  In every
other case it returns an `LsmError` with code `InvalidArgument`, and then
`AccessGroupCreate`, `AccessGroupInitAdd` and `AccessGroupInitDelete` return that error
and leave the connection as it was: no request is sent. -/
theorem validate_init_id_accepts_exactly (initID : String) (initType : Int) :
    (validateInitID initID initType = none ↔
      (initType = InitiatorTypeWwpn ∧ isWwpn initID.toList) ∨
        (initType = InitiatorTypeIscsiIqn ∧ isIqn initID.toList)) ∧
    (validateInitID initID initType = none ∨
      ∃ msg, validateInitID initID initType =
        some (.lsm ⟨errors.InvalidArgument, msg, ""⟩)) ∧
    (∀ (c : ClientConnection) (name : String) (system ag : Json) (check : GoError),
      validateInitID initID initType = some check →
      c.AccessGroupCreate name initID initType system = (c, none, some check) ∧
        c.AccessGroupInitAdd ag initID initType = (c, none, some check) ∧
        c.AccessGroupInitDelete ag initID initType = (c, none, some check)) ∧
    (InitiatorTypeWwpn = 2 ∧ InitiatorTypeIscsiIqn = 5 ∧ errors.InvalidArgument = 101) := by
  refine ⟨validateInitID_nil initID initType, validateInitID_error initID initType, ?_,
    rfl, rfl, rfl⟩
  intro c name system ag check h
  refine ⟨?_, ?_, ?_⟩
  · unfold ClientConnection.AccessGroupCreate
    rw [h]
  · unfold ClientConnection.AccessGroupInitAdd initSetup
    rw [h]
  · unfold ClientConnection.AccessGroupInitDelete initSetup
    rw [h]

/-- C28 fails on the code: `FsExport` fills `root_list` from `access.Ro`, not from
`access.Root`.  For an access specification that passes the checks, with `hostA` in
`Root` and in `Rw` and a nil `Ro`, the request carries an empty `root_list`, and
`handleExportFs` hands the `FsExport` callback an `NfsAccess` whose `Root` is empty
while `Rw` and `Ro` are as the caller gave them. -/
theorem export_root_list_taken_from_ro :
    sampleAccess.Root = some ["hostA"] ∧ sampleAccess.Rw = some ["hostA"] ∧
    sampleAccess.Ro = none ∧
    (ClientConnection.FsExport (scripted [resultFrame .null]) sampleFs (some "/mnt/fs1")
        sampleAccess none none).1.tp.trace =
      [.sent (.request "export_fs" sampleExportParams), .received (resultFrame .null)] ∧
    sampleExportParams.lookup "root_list" = some (stringsJson (emptySliceIfNil sampleAccess.Ro)) ∧
    sampleExportParams.lookup "root_list" = some (.arr []) ∧
    sampleExportParams.lookup "rw_list" = some (.arr [.str "hostA"]) ∧
    (Plugin.Run 1 (recordingPlugin [requestFrame "export_fs" (.obj sampleExportParams)])).1.st =
      [.ref (.given sampleFsJson), .ref (.str "/mnt/fs1"),
        .ref (.struct [("Root", .list []), ("Rw", .list [.str "hostA"]), ("Ro", .list []),
          ("AnonUID", .num (-1)), ("AnonGID", .num (-1))]), .nil, .nil] := by
  refine ⟨rfl, rfl, rfl, rfl, rfl, rfl, rfl, ?_⟩
  rfl

end Lsm
